import Mathlib

/-!
# IOSM control-message ring: `link_ctrlmsg_iosm.c`

A shallow embedding of `drivers/misc/modem_v1/link_ctrlmsg_iosm.c`.

* Machine integers are `Nat`/`Int` with explicit wrap-around where the C
  arithmetic can leave the range (`atomic_t` increment, the `u32` to `int`
  conversion performed by `return space`, the `int` to `u8` store of a
  transaction id).
* The headers the file includes are not part of the sources.  Constants they
  define are fields of `iosm_config`; the ring helpers (`circ_valid`,
  `circ_get_usage`, `circ_get_space`, `circ_new_ptr`, `circ_empty`) and the
  slot type are modelled from the specification and say so.
* Diagnostics (`mif_err`, `mif_info`) and calls into external collaborators are
  recorded, in program order, in a trace of `event`s.  A collaborator whose
  code is not part of the sources (`init_sbd_link`, `sbd_activate`,
  `mem_reset_ipc_link`, the network-interface and power-management hooks,
  `complete_all`) has no other effect on the state modelled here; what it
  returns is a field of the state.
-/

namespace Iosm

/-! ## Machine arithmetic -/

/-- Two's-complement reading of an integer as a signed 32-bit value. -/
def wrap_s32 (x : Int) : Int := (x + 2147483648) % 4294967296 - 2147483648

/-- Conversion of a `u32` value to `int`, as done by `return space`. -/
def u32_to_int (x : Nat) : Int :=
  if x < 2147483648 then (x : Int) else (x : Int) - 4294967296

/-- Conversion of an `int` to `u8`, as done by storing into `trs_id`. -/
def int_to_u8 (x : Int) : Nat := (x % 256).toNat

/-- Linux errno values returned (negated) by `check_ul_space`. -/
def EIO : Int := 5

/-- Errno `EBUSY`. -/
def EBUSY : Int := 16

/-- Errno `ENOSPC`. -/
def ENOSPC : Int := 28

/-! ## Transaction ids -/

/-- Modelled from the spec: `IOSM_TRANS_ID_MAX` (defined in the absent
`link_ctrlmsg_iosm.h`); the allocator "maps into [1,255] via modulo-plus-one",
so the modulus is 255. -/
def IOSM_TRANS_ID_MAX : Int := 255

/-- Initial value of the file-level counter: `ATOMIC_INIT(-1)`. -/
def tid_init : Int := -1

/-- Kernel `atomic_inc_return` on an `atomic_t`: increment with 32-bit
wrap-around, returning the new value. -/
def atomic_inc_return (v : Int) : Int := wrap_s32 (v + 1)

/-- `get_transaction_id`: `atomic_inc_return(&tid) % IOSM_TRANS_ID_MAX + 1`.
The argument is the counter before the call; the result is the returned `int`
and the counter after the call.  C `%` truncates towards zero (`Int.tmod`). -/
def get_transaction_id (tid : Int) : Int × Int :=
  let v := atomic_inc_return tid
  (Int.tmod v IOSM_TRANS_ID_MAX + 1, v)

/-- The values returned by `n` consecutive calls of `get_transaction_id`,
starting with counter `tid`. -/
def get_transaction_ids : Nat → Int → List Int
  | 0, _ => []
  | n + 1, tid => (get_transaction_id tid).1 :: get_transaction_ids n (get_transaction_id tid).2

/-! ## Configuration constants -/

/-- Constants and build options taken from the headers and the kernel
configuration, none of which is part of the sources.  Message ids are `u8`
values, `IOSM_NUM_ELEMENTS` and `SBD_UL_LIMIT` are `u32` values. -/
structure iosm_config where
  IOSM_NUM_ELEMENTS : Nat
  SBD_UL_LIMIT : Nat
  IOSM_MSG_DESC_OFFSET : Nat
  IOSM_A2C_AP_READY : Nat
  IOSM_A2C_CONF_CH_REQ : Nat
  IOSM_A2C_OPEN_CH : Nat
  IOSM_A2C_CLOSE_CH : Nat
  IOSM_A2C_STOP_TX_CH : Nat
  IOSM_A2C_START_TX_CH : Nat
  IOSM_A2C_ACK : Nat
  IOSM_A2C_NACK : Nat
  IOSM_A2C_PIN_INIT_DONE : Nat
  IOSM_A2C_INIT_END : Nat
  IOSM_C2A_MDM_READY : Nat
  IOSM_C2A_CONF_CH_RSP : Nat
  IOSM_C2A_STOP_TX_CH : Nat
  IOSM_C2A_START_TX_CH : Nat
  IOSM_C2A_ACK : Nat
  IOSM_C2A_NACK : Nat
  IOSM_C2A_INIT_START : Nat
  IOSM_C2A_PHONE_START : Nat
  CONFIG_SEC_MODEM_XMM7260_CAT6 : Bool
  CONFIG_LINK_POWER_MANAGEMENT : Bool
  LINK_STATE_IPC : Nat
  SIPC5_CH_ID_FMT_0 : Nat
  SIPC5_CH_ID_RFS_0 : Nat
  deriving DecidableEq, Repr

/-- The case labels of the `switch (mid)` in `create_iosm_message`, in source
order. -/
def iosm_config.case_labels (c : iosm_config) : List Nat :=
  [c.IOSM_A2C_AP_READY, c.IOSM_A2C_CONF_CH_REQ, c.IOSM_A2C_OPEN_CH, c.IOSM_A2C_CLOSE_CH,
   c.IOSM_A2C_PIN_INIT_DONE, c.IOSM_A2C_INIT_END, c.IOSM_A2C_ACK, c.IOSM_A2C_NACK]

/-- The case labels of the `switch` are pairwise different (C rejects a
`switch` with a repeated label). -/
def iosm_config.case_labels_distinct (c : iosm_config) : Prop := c.case_labels.Nodup

instance (c : iosm_config) : Decidable c.case_labels_distinct :=
  inferInstanceAs (Decidable c.case_labels.Nodup)

/-- The three received kinds whose channel id an acknowledgement copies are
pairwise different. -/
def iosm_config.ch_kinds_distinct (c : iosm_config) : Prop :=
  [c.IOSM_C2A_CONF_CH_RSP, c.IOSM_C2A_STOP_TX_CH, c.IOSM_C2A_START_TX_CH].Nodup

instance (c : iosm_config) : Decidable c.ch_kinds_distinct :=
  inferInstanceAs (Decidable [c.IOSM_C2A_CONF_CH_RSP, c.IOSM_C2A_STOP_TX_CH,
    c.IOSM_C2A_START_TX_CH].Nodup)

/-- An example configuration with capacity `n` and busy threshold `lim`.  The
message ids are example values: pairwise different within each direction. -/
def sample_config (n lim : Nat) : iosm_config where
  IOSM_NUM_ELEMENTS := n
  SBD_UL_LIMIT := lim
  IOSM_MSG_DESC_OFFSET := 4096
  IOSM_A2C_AP_READY := 0
  IOSM_A2C_CONF_CH_REQ := 34
  IOSM_A2C_OPEN_CH := 36
  IOSM_A2C_CLOSE_CH := 38
  IOSM_A2C_STOP_TX_CH := 40
  IOSM_A2C_START_TX_CH := 48
  IOSM_A2C_ACK := 224
  IOSM_A2C_NACK := 225
  IOSM_A2C_PIN_INIT_DONE := 210
  IOSM_A2C_INIT_END := 212
  IOSM_C2A_MDM_READY := 128
  IOSM_C2A_CONF_CH_RSP := 163
  IOSM_C2A_STOP_TX_CH := 176
  IOSM_C2A_START_TX_CH := 178
  IOSM_C2A_ACK := 224
  IOSM_C2A_NACK := 225
  IOSM_C2A_INIT_START := 192
  IOSM_C2A_PHONE_START := 194
  CONFIG_SEC_MODEM_XMM7260_CAT6 := false
  CONFIG_LINK_POWER_MANAGEMENT := false
  LINK_STATE_IPC := 1
  SIPC5_CH_ID_FMT_0 := 235
  SIPC5_CH_ID_RFS_0 := 245

/-! ## Ring helpers -/

/-- Modelled from the spec: `circ_valid` (absent `circ_queue.h`): both indices
lie in `[0, N)`. -/
def circ_valid (qsize in_ out : Nat) : Bool := decide (in_ < qsize) && decide (out < qsize)

/-- Modelled from the spec: `circ_get_usage` (absent `circ_queue.h`):
occupancy is `(write_index - read_index) mod N`. -/
def circ_get_usage (qsize in_ out : Nat) : Nat :=
  (((in_ : Int) - (out : Int)) % (qsize : Int)).toNat

/-- Modelled from the spec: `circ_get_space` (absent `circ_queue.h`): free
space is `N - occupancy - 1`, one slot being kept empty. -/
def circ_get_space (qsize in_ out : Nat) : Nat :=
  qsize - circ_get_usage qsize in_ out - 1

/-- Modelled from the spec: `circ_new_ptr` (absent `circ_queue.h`): advancing
an index by `len` gives `(index + len) mod N`. -/
def circ_new_ptr (qsize p len : Nat) : Nat := (p + len) % qsize

/-- Modelled from the spec: `circ_empty` (absent `circ_queue.h`): the ring is
empty iff the two indices are equal. -/
def circ_empty (in_ out : Nat) : Bool := decide (in_ = out)

/-! ## Messages, ring areas, device state -/

/-- Modelled from the spec: `struct iosm_msg` (declared in the absent
`link_ctrlmsg_iosm.h`): a one-byte kind, a one-byte transaction id and a
kind-specific payload.  The record has one field for every member path the
source reads or writes (`ap_ready.addr`, `conf_ch_req.ch_id`, ...); which of
the payload members share storage, and how wide each payload member is, is
decided by the absent declaration and is not modelled: a payload field keeps
the value assigned to it. -/
structure iosm_msg where
  msg_id : Nat
  trs_id : Nat
  ap_ready_addr : Nat
  conf_ch_req_ch_id : Nat
  conf_ch_req_cfg : Nat
  close_ch_ch_id : Nat
  close_ch_cfg : Nat
  ack_msg_id : Nat
  ack_ch_id : Nat
  conf_ch_rsp_ch_id : Nat
  stop_tx_ch_ch_id : Nat
  start_tx_ch_ch_id : Nat
  nack_msg_id : Nat
  deriving DecidableEq, Repr

/-- A slot with every byte zero. -/
def iosm_msg.zero : iosm_msg := ⟨0, 0, 0, 0, 0, 0, 0, 0, 0, 0, 0, 0, 0⟩

/-- The header of a message area: write and read index. -/
structure iosm_msg_area_head where
  w_idx : Nat
  r_idx : Nat
  deriving DecidableEq, Repr

/-- A message area in shared memory: the header and the slot array. -/
structure iosm_msg_area where
  hdr : iosm_msg_area_head
  elements : Nat → iosm_msg

/-- What `u32 *args` points at.  The source reads it either as a `u32`
(`*((u32 *)args)`) or as a received message (`(struct iosm_msg *) args`). -/
structure tx_args where
  as_u32 : Nat
  as_msg : iosm_msg

/-- Arguments of a send that passes no argument (`args = 0`); no view of it is
read for the kinds sent this way. -/
def tx_args.null : tx_args := ⟨0, iosm_msg.zero⟩

/-- Diagnostics and calls into external collaborators, in program order. -/
inductive event where
  | txq_dirty (qlen in_ out : Nat)
  | txq_busy (qlen in_ out usage : Nat)
  | txq_nospc (qlen in_ out : Nat)
  | tx_not_supported (mid : Nat)
  | forbid_cp_sleep_wait
  | send_ipc_irq
  | sent_msg (msg_id : Nat)
  | send_failed (msg_id : Nat)
  | permit_cp_sleep
  | rx_area_empty
  | got_msg (cmd : Nat)
  | rx_not_supported (msg_id : Nat)
  | mdm_ready_entry
  | sbd_ipc_not_set
  | modem_state_changed_online
  | start_pm
  | gpio_cp_wakeup_low
  | gpio_ap_status_low
  | forbid_cp_sleep
  | init_sbd_link
  | init_sbd_link_fail (err : Int)
  | sbd_activate
  | mdm_ready_done
  | conf_ch_info (ch_id : Nat)
  | stop_net_iface (ch_id : Nat)
  | stop_net_ifaces
  | resume_net_iface (ch_id : Nat)
  | resume_net_ifaces
  | got_ack (msg_id : Nat)
  | got_nack (msg_id : Nat)
  | no_fmt_iod
  | no_rfs_iod
  | iod_opened (fmt_opened rfs_opened : Int)
  | init_start_entry
  | pif_init_done
  | cp_start_entry
  | init_end_sending
  | mem_reset_ipc_link
  | mem_reset_ipc_link_fail (err : Int)
  | complete_all_init_cmpl
  deriving DecidableEq, Repr

/-- An upper-layer I/O device as far as the source looks at it: its channel id
(`iod->id`) and its open count (`iod->opened`). -/
structure io_device where
  id : Nat
  opened : Int
  deriving DecidableEq, Repr

/-- The state the transmit path works on: the file-level counter `tid`, the
fields of `struct mem_link_device` and of the modem control block it reads,
the two message areas, and the trace. `forbid_cp_sleep_wait` is `none` when the
hook pointer is null and `some b` when the hook is installed and returns `b`;
`permit_cp_sleep` tells whether that hook is installed.

The receive path adds: the file-level flag `mdm_ready`; the link fields
`sbd_ipc`, `netif_stop_mask`, `netif_stopped`, `aligned`, `state`; the modem
control flag `forced_cp_crash`; the attribute bit `attr_ipc_aligned`
(`mld->attrs & LINK_ATTR(LINK_ATTR_IPC_ALIGNED)`); whether the hooks `start_pm`
and `forbid_cp_sleep` are installed; the registered I/O devices `iodevs`; and
`config_done`, the flag of the SBD device a channel id resolves to.
Three fields stand for code outside the sources: `init_sbd_link_ret` and
`mem_reset_ipc_link_ret` are what the calls of those names return, and
`online_after_state_changed` is what `cp_online(mc)` reports once
`modem_state_changed(STATE_ONLINE)` has run. -/
structure mem_link_device where
  tid : Int
  cp_boot_done : Int
  cp_online : Bool
  forbid_cp_sleep_wait : Option Bool
  permit_cp_sleep : Bool
  tx : iosm_msg_area
  rx : iosm_msg_area
  trace : List event
  mdm_ready : Int
  sbd_ipc : Bool
  netif_stop_mask : Nat
  netif_stopped : Int
  forced_cp_crash : Int
  aligned : Bool
  attr_ipc_aligned : Bool
  state : Nat
  start_pm : Bool
  forbid_cp_sleep : Bool
  iodevs : List io_device
  config_done : Nat → Int
  init_sbd_link_ret : Int
  mem_reset_ipc_link_ret : Int
  online_after_state_changed : Bool

/-! ## Space check -/

/-- `check_ul_space`: `-EIO` on an index out of range, `-EBUSY` when the
occupancy exceeds `SBD_UL_LIMIT`, `-ENOSPC` when no slot is free, otherwise the
free space, converted from `u32` to the `int` the function returns. -/
def check_ul_space (c : iosm_config) (qlen in_ out : Nat) : Int :=
  if !circ_valid qlen in_ out then
    - EIO
  else if circ_get_usage qlen in_ out > c.SBD_UL_LIMIT then
    - EBUSY
  else if circ_get_space qlen in_ out < 1 then
    - ENOSPC
  else
    u32_to_int (circ_get_space qlen in_ out)

/-- The `mif_err` line `check_ul_space` writes on each of its error returns. -/
def check_ul_space_log (c : iosm_config) (qlen in_ out : Nat) : List event :=
  if !circ_valid qlen in_ out then
    [event.txq_dirty qlen in_ out]
  else if circ_get_usage qlen in_ out > c.SBD_UL_LIMIT then
    [event.txq_busy qlen in_ out (circ_get_usage qlen in_ out)]
  else if circ_get_space qlen in_ out < 1 then
    [event.txq_nospc qlen in_ out]
  else
    []

/-! ## Message encoder -/

/-- Result of `create_iosm_message`: the slot as written, the counter `tid`
afterwards, and the diagnostics written. -/
structure created where
  txmsg : iosm_msg
  tid : Int
  log : List event

/-- The tail of `create_iosm_message` after the `switch`:
`txmsg->trs_id = get_transaction_id()`. -/
def set_fresh_trs_id (txmsg : iosm_msg) (tid : Int) (log : List event) : created :=
  { txmsg := { txmsg with trs_id := int_to_u8 (get_transaction_id tid).1 },
    tid := (get_transaction_id tid).2,
    log := log }

/-- `create_iosm_message(txmsg, mid, args)`: `txmsg` is the previous content of
the slot, `tid` the counter before the call. -/
def create_iosm_message (c : iosm_config) (txmsg : iosm_msg) (mid : Nat) (args : tx_args)
    (tid : Int) : created :=
  let t0 : iosm_msg := { txmsg with msg_id := mid }
  if mid = c.IOSM_A2C_AP_READY then
    set_fresh_trs_id { t0 with ap_ready_addr := c.IOSM_MSG_DESC_OFFSET } tid []
  else if mid = c.IOSM_A2C_CONF_CH_REQ then
    set_fresh_trs_id { t0 with conf_ch_req_ch_id := args.as_u32, conf_ch_req_cfg := 1 } tid []
  else if mid = c.IOSM_A2C_OPEN_CH ∨ mid = c.IOSM_A2C_CLOSE_CH then
    set_fresh_trs_id { t0 with close_ch_ch_id := args.as_u32, close_ch_cfg := 7 } tid []
  else if mid = c.IOSM_A2C_PIN_INIT_DONE ∨ mid = c.IOSM_A2C_INIT_END then
    set_fresh_trs_id t0 tid []
  else if mid = c.IOSM_A2C_ACK ∨ mid = c.IOSM_A2C_NACK then
    let msg := args.as_msg
    let t1 : iosm_msg := { t0 with ack_msg_id := msg.msg_id }
    let t2 : iosm_msg :=
      if msg.msg_id = c.IOSM_C2A_CONF_CH_RSP then { t1 with ack_ch_id := msg.conf_ch_rsp_ch_id }
      else t1
    let t3 : iosm_msg :=
      if msg.msg_id = c.IOSM_C2A_STOP_TX_CH then { t2 with ack_ch_id := msg.stop_tx_ch_ch_id }
      else t2
    let t4 : iosm_msg :=
      if msg.msg_id = c.IOSM_C2A_START_TX_CH then { t3 with ack_ch_id := msg.start_tx_ch_ch_id }
      else t3
    { txmsg := { t4 with trs_id := msg.trs_id }, tid := tid, log := [] }
  else
    set_fresh_trs_id t0 tid [event.tx_not_supported mid]

/-! ## Transmit path -/

/-- The readiness gate at the head of `tx_iosm_message`: `true` when the
function returns before taking the lock.  Without
`CONFIG_SEC_MODEM_XMM7260_CAT6` the modem state is looked at only once
`cp_boot_done` is set. -/
def tx_not_ready (c : iosm_config) (mld : mem_link_device) : Bool :=
  (c.CONFIG_SEC_MODEM_XMM7260_CAT6 || decide (mld.cp_boot_done ≠ 0)) && !mld.cp_online

/-- `tx_iosm_message(mld, id, args)`. -/
def tx_iosm_message (c : iosm_config) (mld : mem_link_device) (id : Nat) (args : tx_args) :
    mem_link_device :=
  if tx_not_ready c mld then
    mld
  else
    let hdr := mld.tx.hdr
    let space := check_ul_space c c.IOSM_NUM_ELEMENTS hdr.w_idx hdr.r_idx
    if space ≤ 0 then
      { mld with
        trace := mld.trace ++ check_ul_space_log c c.IOSM_NUM_ELEMENTS hdr.w_idx hdr.r_idx }
    else
      let built := create_iosm_message c (mld.tx.elements hdr.w_idx) id args mld.tid
      let mld1 : mem_link_device :=
        { mld with
          tid := built.tid,
          tx := { hdr := { hdr with w_idx := circ_new_ptr c.IOSM_NUM_ELEMENTS hdr.w_idx 1 },
                  elements := Function.update mld.tx.elements hdr.w_idx built.txmsg },
          trace := mld.trace ++ built.log }
      let msg_id := built.txmsg.msg_id
      let mld2 : mem_link_device :=
        if mld1.cp_online then
          match mld1.forbid_cp_sleep_wait with
          | none => mld1
          | some true =>
            { mld1 with
              trace := mld1.trace ++
                [event.forbid_cp_sleep_wait, event.send_ipc_irq, event.sent_msg msg_id] }
          | some false =>
            { mld1 with
              trace := mld1.trace ++ [event.forbid_cp_sleep_wait, event.send_failed msg_id] }
        else mld1
      if mld2.cp_online && mld2.permit_cp_sleep then
        { mld2 with trace := mld2.trace ++ [event.permit_cp_sleep] }
      else mld2

/-- `n` consecutive sends of the same kind and arguments. -/
def tx_iosm_messages (c : iosm_config) (id : Nat) (args : tx_args) :
    Nat → mem_link_device → mem_link_device
  | 0, mld => mld
  | n + 1, mld => tx_iosm_message c (tx_iosm_messages c id args n mld) id args

/-- Number of peer notifications (`send_ipc_irq`) in a trace. -/
def irq_count (t : List event) : Nat := t.count event.send_ipc_irq

/-- A device right after link bring-up: counter at its initial value, boot not
yet done, both areas empty with zeroed slots, sleep hooks installed. -/
def mld_boot : mem_link_device where
  tid := tid_init
  cp_boot_done := 0
  cp_online := false
  forbid_cp_sleep_wait := some true
  permit_cp_sleep := true
  tx := ⟨⟨0, 0⟩, fun _ => iosm_msg.zero⟩
  rx := ⟨⟨0, 0⟩, fun _ => iosm_msg.zero⟩
  trace := []
  mdm_ready := 0
  sbd_ipc := true
  netif_stop_mask := 0
  netif_stopped := 0
  forced_cp_crash := 0
  aligned := false
  attr_ipc_aligned := true
  state := 0
  start_pm := false
  forbid_cp_sleep := false
  iodevs := []
  config_done := fun _ => 0
  init_sbd_link_ret := 0
  mem_reset_ipc_link_ret := 0
  online_after_state_changed := true

/-- The device `mld_boot` with the TX indices set to `w` and `r`. -/
def mld_at (w r : Nat) : mem_link_device :=
  { mld_boot with tx := ⟨⟨w, r⟩, fun _ => iosm_msg.zero⟩ }

/-- A received `ConfigChannelResponse` with channel id 5 and transaction id 42,
under the message ids of `sample_config`. -/
def conf_ch_rsp_5_42 : iosm_msg :=
  { iosm_msg.zero with msg_id := 163, trs_id := 42, conf_ch_rsp_ch_id := 5 }

/-! ## Message handlers -/

/-- Appends diagnostics and collaborator calls to the trace. -/
def mem_link_device.emit (mld : mem_link_device) (es : List event) : mem_link_device :=
  { mld with trace := mld.trace ++ es }

/-- The arguments `(u32 *)msg` of a send that acknowledges the received message
`msg`.  The `u32` view is not read for the kinds Ack and Nack. -/
def tx_args.of_msg (msg : iosm_msg) : tx_args := ⟨0, msg⟩

/-- The arguments `(u32 *)&iod->id` of a send that carries a channel id.  The
message view is not read for the kinds that carry a channel id. -/
def tx_args.of_u32 (v : Nat) : tx_args := ⟨v, iosm_msg.zero⟩

/-- `mdm_ready_handler`. -/
def mdm_ready_handler (c : iosm_config) (mld : mem_link_device) (msg : iosm_msg) :
    mem_link_device :=
  let m0 := mld.emit [event.mdm_ready_entry]
  if !m0.sbd_ipc then
    m0.emit [event.sbd_ipc_not_set]
  else
    let m1 : mem_link_device :=
      { m0 with netif_stop_mask := 0, netif_stopped := 0, forced_cp_crash := 0,
                cp_boot_done := 1 }
    let m2 : mem_link_device :=
      { m1 with cp_online := m1.online_after_state_changed,
                trace := m1.trace ++ [event.modem_state_changed_online] }
    let m3 : mem_link_device :=
      if c.CONFIG_LINK_POWER_MANAGEMENT then
        let p1 : mem_link_device :=
          if m2.start_pm then
            m2.emit [event.start_pm, event.gpio_cp_wakeup_low, event.gpio_ap_status_low]
          else m2
        if p1.cp_online && p1.forbid_cp_sleep then p1.emit [event.forbid_cp_sleep] else p1
      else m2
    let m4 := tx_iosm_message c m3 c.IOSM_A2C_ACK (tx_args.of_msg msg)
    let m5 := m4.emit [event.init_sbd_link]
    if m5.init_sbd_link_ret < 0 then
      m5.emit [event.init_sbd_link_fail m5.init_sbd_link_ret]
    else
      let m6 : mem_link_device := { m5 with aligned := m5.attr_ipc_aligned }
      let m7 := m6.emit [event.sbd_activate]
      let m8 := tx_iosm_message c m7 c.IOSM_A2C_AP_READY tx_args.null
      m8.emit [event.mdm_ready_done]

/-- The state `mdm_ready_handler` has reached, on a link with `sbd_ipc` set,
when it sends the Ack: the part of its body between the `sbd_ipc` test and the
first `tx_iosm_message`. -/
def mdm_ready_prepare (c : iosm_config) (mld : mem_link_device) : mem_link_device :=
  let m0 := mld.emit [event.mdm_ready_entry]
  let m1 : mem_link_device :=
    { m0 with netif_stop_mask := 0, netif_stopped := 0, forced_cp_crash := 0,
              cp_boot_done := 1 }
  let m2 : mem_link_device :=
    { m1 with cp_online := m1.online_after_state_changed,
              trace := m1.trace ++ [event.modem_state_changed_online] }
  if c.CONFIG_LINK_POWER_MANAGEMENT then
    let p1 : mem_link_device :=
      if m2.start_pm then
        m2.emit [event.start_pm, event.gpio_cp_wakeup_low, event.gpio_ap_status_low]
      else m2
    if p1.cp_online && p1.forbid_cp_sleep then p1.emit [event.forbid_cp_sleep] else p1
  else m2

/-- `conf_ch_rsp_handler`.  The device record is the one the channel id read
from `msg->ack.ch_id` resolves to. -/
def conf_ch_rsp_handler (c : iosm_config) (mld : mem_link_device) (msg : iosm_msg) :
    mem_link_device :=
  let m1 : mem_link_device :=
    { mld with config_done := Function.update mld.config_done msg.ack_ch_id 1 }
  let m2 := tx_iosm_message c m1 c.IOSM_A2C_ACK (tx_args.of_msg msg)
  m2.emit [event.conf_ch_info msg.ack_ch_id]

/-- `stop_tx_ch_handler`. -/
def stop_tx_ch_handler (c : iosm_config) (mld : mem_link_device) (msg : iosm_msg) :
    mem_link_device :=
  let m1 :=
    if c.CONFIG_SEC_MODEM_XMM7260_CAT6 then mld.emit [event.stop_net_iface msg.stop_tx_ch_ch_id]
    else mld.emit [event.stop_net_ifaces]
  tx_iosm_message c m1 c.IOSM_A2C_ACK (tx_args.of_msg msg)

/-- `start_tx_ch_handler`. -/
def start_tx_ch_handler (c : iosm_config) (mld : mem_link_device) (msg : iosm_msg) :
    mem_link_device :=
  let m1 :=
    if c.CONFIG_SEC_MODEM_XMM7260_CAT6 then
      mld.emit [event.resume_net_iface msg.start_tx_ch_ch_id]
    else mld.emit [event.resume_net_ifaces]
  tx_iosm_message c m1 c.IOSM_A2C_ACK (tx_args.of_msg msg)

/-- `action`: the callback `ack_handler` runs on every registered I/O device. -/
def action (c : iosm_config) (mld : mem_link_device) (iod : io_device) : mem_link_device :=
  tx_iosm_message c mld c.IOSM_A2C_CONF_CH_REQ (tx_args.of_u32 iod.id)

/-- Modelled from the spec: `iodevs_for_each` (absent `modem_utils.h`): runs
the callback once on every registered upper-layer I/O device. -/
def iodevs_for_each (c : iosm_config) (iods : List io_device) (mld : mem_link_device) :
    mem_link_device :=
  iods.foldl (action c) mld

/-- `ack_handler`. -/
def ack_handler (c : iosm_config) (mld : mem_link_device) (msg : iosm_msg) :
    mem_link_device :=
  let m0 := mld.emit [event.got_ack msg.ack_msg_id]
  if msg.ack_msg_id = c.IOSM_A2C_AP_READY then
    let m1 : mem_link_device := { m0 with mdm_ready := 1 }
    iodevs_for_each c m1.iodevs m1
  else if msg.ack_msg_id = c.IOSM_A2C_OPEN_CH then
    if c.CONFIG_LINK_POWER_MANAGEMENT && c.CONFIG_SEC_MODEM_XMM7260_CAT6 then
      if msg.ack_ch_id = c.SIPC5_CH_ID_FMT_0 then
        if m0.cp_online && m0.permit_cp_sleep then m0.emit [event.permit_cp_sleep] else m0
      else m0
    else m0
  else m0

/-- `nack_handler`. -/
def nack_handler (_c : iosm_config) (mld : mem_link_device) (msg : iosm_msg) :
    mem_link_device :=
  mld.emit [event.got_nack msg.nack_msg_id]

/-- Modelled from the spec: `link_get_iod_with_channel` (absent
`modem_utils.h`): resolves a channel id to a registered I/O device. -/
def link_get_iod_with_channel (mld : mem_link_device) (ch : Nat) : Option io_device :=
  mld.iodevs.find? (fun d => d.id == ch)

/-- `rild_ready`: both the FMT and the RFS device exist and have a positive
open count. -/
def rild_ready (c : iosm_config) (mld : mem_link_device) : Bool :=
  match link_get_iod_with_channel mld c.SIPC5_CH_ID_FMT_0 with
  | none => false
  | some fmt_iod =>
    match link_get_iod_with_channel mld c.SIPC5_CH_ID_RFS_0 with
    | none => false
    | some rfs_iod => decide (fmt_iod.opened > 0 ∧ rfs_iod.opened > 0)

/-- The `mif_err` line `rild_ready` writes. -/
def rild_ready_log (c : iosm_config) (mld : mem_link_device) : List event :=
  match link_get_iod_with_channel mld c.SIPC5_CH_ID_FMT_0 with
  | none => [event.no_fmt_iod]
  | some fmt_iod =>
    match link_get_iod_with_channel mld c.SIPC5_CH_ID_RFS_0 with
    | none => [event.no_rfs_iod]
    | some rfs_iod => [event.iod_opened fmt_iod.opened rfs_iod.opened]

/-- `init_start_handler`. -/
def init_start_handler (c : iosm_config) (mld : mem_link_device) (_msg : iosm_msg) :
    mem_link_device :=
  let m0 := mld.emit [event.init_start_entry]
  if !m0.sbd_ipc then
    m0.emit [event.sbd_ipc_not_set]
  else
    let m1 := m0.emit [event.init_sbd_link]
    if m1.init_sbd_link_ret < 0 then
      m1.emit [event.init_sbd_link_fail m1.init_sbd_link_ret]
    else
      let m2 : mem_link_device := { m1 with aligned := m1.attr_ipc_aligned }
      let m3 := m2.emit [event.sbd_activate, event.pif_init_done]
      tx_iosm_message c m3 c.IOSM_A2C_PIN_INIT_DONE tx_args.null

/-- `phone_start_handler`. -/
def phone_start_handler (c : iosm_config) (mld : mem_link_device) (_msg : iosm_msg) :
    mem_link_device :=
  let m0 := mld.emit [event.cp_start_entry]
  let m1 :=
    if c.CONFIG_LINK_POWER_MANAGEMENT && m0.start_pm then m0.emit [event.start_pm] else m0
  if m1.state = c.LINK_STATE_IPC then
    if rild_ready c m1 then
      tx_iosm_message c (m1.emit (rild_ready_log c m1 ++ [event.init_end_sending]))
        c.IOSM_A2C_INIT_END tx_args.null
    else m1.emit (rild_ready_log c m1)
  else
    let m2 := m1.emit [event.mem_reset_ipc_link]
    if m2.mem_reset_ipc_link_ret ≠ 0 then
      m2.emit [event.mem_reset_ipc_link_fail m2.mem_reset_ipc_link_ret]
    else
      let m3 : mem_link_device :=
        if rild_ready c m2 then
          { tx_iosm_message c (m2.emit (rild_ready_log c m2 ++ [event.init_end_sending]))
              c.IOSM_A2C_INIT_END tx_args.null with cp_boot_done := 1 }
        else m2.emit (rild_ready_log c m2)
      let m4 : mem_link_device := { m3 with state := c.LINK_STATE_IPC }
      m4.emit [event.complete_all_init_cmpl]

/-! ## Receive dispatcher -/

/-- The table `iosm_handler`: command and handler, in source order. -/
def iosm_handler (c : iosm_config) :
    List (Nat × (iosm_config → mem_link_device → iosm_msg → mem_link_device)) :=
  [(c.IOSM_C2A_MDM_READY, mdm_ready_handler),
   (c.IOSM_C2A_CONF_CH_RSP, conf_ch_rsp_handler),
   (c.IOSM_C2A_STOP_TX_CH, stop_tx_ch_handler),
   (c.IOSM_C2A_START_TX_CH, start_tx_ch_handler),
   (c.IOSM_C2A_ACK, ack_handler),
   (c.IOSM_C2A_NACK, nack_handler),
   (c.IOSM_C2A_INIT_START, init_start_handler),
   (c.IOSM_C2A_PHONE_START, phone_start_handler)]

/-- The table scan of `iosm_event_work` for one message: the first entry whose
command equals the kind is logged and run; without one the kind is logged as
not supported. -/
def iosm_dispatch (c : iosm_config) (mld : mem_link_device) (msg : iosm_msg) :
    mem_link_device :=
  match (iosm_handler c).find? (fun e => e.1 == msg.msg_id) with
  | some e => e.2 c (mld.emit [event.got_msg e.1]) msg
  | none => mld.emit [event.rx_not_supported msg.msg_id]

/-- The last statement of the loop body of `iosm_event_work`:
`hdr->r_idx = circ_new_ptr(IOSM_NUM_ELEMENTS, hdr->r_idx, 1)`. -/
def rx_advance (c : iosm_config) (mld : mem_link_device) : mem_link_device :=
  { mld with
    rx := { mld.rx with
      hdr := { mld.rx.hdr with
        r_idx := circ_new_ptr c.IOSM_NUM_ELEMENTS mld.rx.hdr.r_idx 1 } } }

/-- One pass through the body of the `while (size--)` loop. -/
def iosm_event_step (c : iosm_config) (mld : mem_link_device) : mem_link_device :=
  rx_advance c (iosm_dispatch c mld (mld.rx.elements mld.rx.hdr.r_idx))

/-- The loop `while (size--)` of `iosm_event_work`. -/
def iosm_event_loop (c : iosm_config) : Nat → mem_link_device → mem_link_device
  | 0, mld => mld
  | size + 1, mld => iosm_event_loop c size (iosm_event_step c mld)

/-- `iosm_event_work`.  The `mif_debug` line and `pr_circ_idx`, both compiled
out without the debug options, are not recorded. -/
def iosm_event_work (c : iosm_config) (mld : mem_link_device) : mem_link_device :=
  if circ_empty mld.rx.hdr.w_idx mld.rx.hdr.r_idx then
    mld.emit [event.rx_area_empty]
  else
    iosm_event_loop c
      (circ_get_usage c.IOSM_NUM_ELEMENTS mld.rx.hdr.w_idx mld.rx.hdr.r_idx) mld

/-- What the dispatcher is to do with a batch of messages, given in arrival
order: dispatch each in turn and advance the read index after each. -/
def iosm_dispatch_all (c : iosm_config) (msgs : List iosm_msg) (mld : mem_link_device) :
    mem_link_device :=
  msgs.foldl (fun s m => rx_advance c (iosm_dispatch c s m)) mld

/-- The commands of the handler table. -/
def iosm_handler_cmds (c : iosm_config) : List Nat := (iosm_handler c).map (fun e => e.1)

/-- Number of `rx_not_supported` diagnostics in a trace. -/
def rx_not_supported_count (t : List event) : Nat :=
  (t.filter (fun e => match e with
    | event.rx_not_supported _ => true
    | _ => false)).length

/-- The two diagnostics the table scan of `iosm_event_work` writes: one of
them for every slot it looks at. -/
def is_dispatch_event : event → Bool
  | event.got_msg _ => true
  | event.rx_not_supported _ => true
  | _ => false

/-- The lines of a trace that the table scan wrote, in order. -/
def dispatch_log (t : List event) : List event := t.filter is_dispatch_event

/-- The line the dispatcher is to write for a message: the kind as a matched
command when the handler table has it, as not supported otherwise. -/
def dispatch_event (c : iosm_config) (m : iosm_msg) : event :=
  if m.msg_id ∈ iosm_handler_cmds c then event.got_msg m.msg_id
  else event.rx_not_supported m.msg_id

/-- The RX slots of the batch `[InitStart, kind 0xFF, ConfigChannelResponse]`
under the message ids of `sample_config`; the response carries channel id 2 and
transaction id 9. -/
def rx_batch_slots (i : Nat) : iosm_msg :=
  if i = 0 then { iosm_msg.zero with msg_id := 192 }
  else if i = 1 then { iosm_msg.zero with msg_id := 255 }
  else if i = 2 then
    { iosm_msg.zero with msg_id := 163, trs_id := 9, conf_ch_rsp_ch_id := 2 }
  else iosm_msg.zero

/-- A booted, online device with the SBD feature set whose RX area holds the
three messages of `rx_batch_slots`, none of them read yet. -/
def mld_rx_batch : mem_link_device :=
  { mld_boot with cp_boot_done := 1, cp_online := true, rx := ⟨⟨3, 0⟩, rx_batch_slots⟩ }

/-- The registered devices of the examples: the FMT channel 235, the RFS channel
245 and a third channel 10, all opened once. -/
def sample_iodevs : List io_device := [⟨235, 1⟩, ⟨245, 1⟩, ⟨10, 1⟩]

/-- A booted, online device with the three `sample_iodevs` registered and the
link state `s`. -/
def mld_online (s : Nat) : mem_link_device :=
  { mld_boot with cp_boot_done := 1, cp_online := true, state := s, iodevs := sample_iodevs }

/-! ## Transaction ids: lemmas -/

theorem get_transaction_id_of_nonneg (tid : Int) (h1 : -1 ≤ tid) (h2 : tid < 2147483647) :
    get_transaction_id tid = ((tid + 1) % 255 + 1, tid + 1) := by
  have hw : wrap_s32 (tid + 1) = tid + 1 := by
    unfold wrap_s32
    omega
  unfold get_transaction_id atomic_inc_return IOSM_TRANS_ID_MAX
  simp only [hw]
  rw [Int.tmod_eq_emod (by omega) (by norm_num)]

theorem get_transaction_ids_eq (n : Nat) : ∀ (tid : Int), -1 ≤ tid → tid + n < 2147483648 →
    get_transaction_ids n tid =
      (List.range n).map (fun (i : Nat) => (tid + 1 + (i : Int)) % 255 + 1) := by
  induction n with
  | zero => intro tid _ _; rfl
  | succ n ih =>
    intro tid h1 h2
    have h3 : tid < 2147483647 := by push_cast at h2; omega
    rw [get_transaction_ids, get_transaction_id_of_nonneg tid h1 h3]
    simp only
    rw [ih (tid + 1) (by omega) (by push_cast at h2; omega), List.range_succ_eq_map]
    simp only [List.map_cons, List.map_map, Nat.cast_zero, add_zero]
    congr 1
    apply List.map_congr_left
    intro i _
    simp only [Function.comp, Nat.cast_succ]
    congr 2
    ring

/-! ## Ring arithmetic: lemmas -/

theorem circ_valid_iff (qsize in_ out : Nat) :
    circ_valid qsize in_ out = true ↔ in_ < qsize ∧ out < qsize := by
  simp [circ_valid]

theorem circ_get_usage_lt (qsize in_ out : Nat) (hq : 0 < qsize) :
    circ_get_usage qsize in_ out < qsize := by
  unfold circ_get_usage
  have h1 : 0 ≤ ((in_ : Int) - (out : Int)) % (qsize : Int) :=
    Int.emod_nonneg _ (by omega)
  have h2 : ((in_ : Int) - (out : Int)) % (qsize : Int) < (qsize : Int) :=
    Int.emod_lt_of_pos _ (by omega)
  omega

theorem circ_get_usage_of_le (qsize in_ out : Nat) (hi : in_ < qsize) (ho : out ≤ in_) :
    circ_get_usage qsize in_ out = in_ - out := by
  unfold circ_get_usage
  have h : ((in_ : Int) - (out : Int)) % (qsize : Int) = (in_ : Int) - (out : Int) :=
    Int.emod_eq_of_lt (by omega) (by omega)
  omega

/-! ## Claims on the encoder and the allocator -/

/-- C1: for a kind `k` that is Ack or Nack and a received message `m`,
`create_iosm_message` writes `k` as the kind tag, copies the kind of `m` into
the acknowledged-kind field and the transaction id of `m` into the transaction
id, leaves the counter `tid` as it was, and copies the channel id of `m` when
`m` is a ConfigChannelResponse, a StopTxChannel or a StartTxChannel. -/
theorem create_iosm_message_ack_nack (c : iosm_config) (hl : c.case_labels_distinct)
    (hk : c.ch_kinds_distinct) (slot m : iosm_msg) (u : Nat) (tid : Int) (k : Nat)
    (hkind : k = c.IOSM_A2C_ACK ∨ k = c.IOSM_A2C_NACK) :
    (create_iosm_message c slot k ⟨u, m⟩ tid).txmsg.msg_id = k ∧
    (create_iosm_message c slot k ⟨u, m⟩ tid).txmsg.ack_msg_id = m.msg_id ∧
    (create_iosm_message c slot k ⟨u, m⟩ tid).txmsg.trs_id = m.trs_id ∧
    (create_iosm_message c slot k ⟨u, m⟩ tid).tid = tid ∧
    (m.msg_id = c.IOSM_C2A_CONF_CH_RSP →
      (create_iosm_message c slot k ⟨u, m⟩ tid).txmsg.ack_ch_id = m.conf_ch_rsp_ch_id) ∧
    (m.msg_id = c.IOSM_C2A_STOP_TX_CH →
      (create_iosm_message c slot k ⟨u, m⟩ tid).txmsg.ack_ch_id = m.stop_tx_ch_ch_id) ∧
    (m.msg_id = c.IOSM_C2A_START_TX_CH →
      (create_iosm_message c slot k ⟨u, m⟩ tid).txmsg.ack_ch_id = m.start_tx_ch_ch_id) := by
  simp only [iosm_config.case_labels_distinct, iosm_config.case_labels, List.nodup_cons,
    List.mem_cons, List.mem_singleton, not_or, List.not_mem_nil, not_false_eq_true,
    List.nodup_nil, and_true] at hl
  simp only [iosm_config.ch_kinds_distinct, List.nodup_cons, List.mem_cons,
    List.mem_singleton, not_or, List.not_mem_nil, not_false_eq_true, List.nodup_nil,
    and_true] at hk
  obtain ⟨⟨-, -, -, -, -, h1a, h1n⟩, ⟨-, -, -, -, h2a, h2n⟩, ⟨-, -, -, h3a, h3n⟩,
    ⟨-, -, h4a, h4n⟩, ⟨-, h5a, h5n⟩, ⟨h6a, h6n⟩, -⟩ := hl
  obtain ⟨⟨hrs, hrt⟩, hst⟩ := hk
  have e1 : k ≠ c.IOSM_A2C_AP_READY := by rcases hkind with h | h <;> rw [h] <;> tauto
  have e2 : k ≠ c.IOSM_A2C_CONF_CH_REQ := by rcases hkind with h | h <;> rw [h] <;> tauto
  have e3 : k ≠ c.IOSM_A2C_OPEN_CH := by rcases hkind with h | h <;> rw [h] <;> tauto
  have e4 : k ≠ c.IOSM_A2C_CLOSE_CH := by rcases hkind with h | h <;> rw [h] <;> tauto
  have e5 : k ≠ c.IOSM_A2C_PIN_INIT_DONE := by rcases hkind with h | h <;> rw [h] <;> tauto
  have e6 : k ≠ c.IOSM_A2C_INIT_END := by rcases hkind with h | h <;> rw [h] <;> tauto
  simp only [create_iosm_message, e1, e2, e3, e4, e5, e6, hkind, if_false, if_true, or_self]
  refine ⟨?_, ?_, trivial, trivial, ?_, ?_, ?_⟩
  · split_ifs <;> rfl
  · split_ifs <;> rfl
  · intro h
    have h2 : m.msg_id ≠ c.IOSM_C2A_STOP_TX_CH := by rw [h]; exact hrs
    have h3 : m.msg_id ≠ c.IOSM_C2A_START_TX_CH := by rw [h]; exact hrt
    simp [h, h2, h3, hrs, hrt]
  · intro h
    have h3 : m.msg_id ≠ c.IOSM_C2A_START_TX_CH := by rw [h]; exact hst
    simp [h, h3, hst]
  · intro h
    simp [h]

/-- C1, at a concrete input: under `sample_config`, an Ack for the received
ConfigChannelResponse with channel id 5 and transaction id 42, written into a
zeroed slot, is the Ack with acknowledged kind ConfigChannelResponse, channel
id 5 and transaction id 42, and the counter stays at its initial value. -/
theorem create_iosm_message_ack_nack_witness :
    (sample_config 8 16).case_labels_distinct ∧ (sample_config 8 16).ch_kinds_distinct ∧
    (create_iosm_message (sample_config 8 16) iosm_msg.zero 224 ⟨0, conf_ch_rsp_5_42⟩
        tid_init).txmsg =
      { iosm_msg.zero with msg_id := 224, trs_id := 42, ack_msg_id := 163, ack_ch_id := 5 } ∧
    (create_iosm_message (sample_config 8 16) iosm_msg.zero 224 ⟨0, conf_ch_rsp_5_42⟩
        tid_init).tid = tid_init :=
  ⟨by decide, by decide, by decide,
    (create_iosm_message_ack_nack (sample_config 8 16) (by decide) (by decide) iosm_msg.zero
      conf_ch_rsp_5_42 0 tid_init 224 (Or.inl rfl)).2.2.2.1⟩

/-- C2: evaluation of `get_transaction_id` once the counter has wrapped to
negative values.  With the counter at 2147483647 the call returns -127, and
with the counter at -2 it returns 0, which is also the byte stored as the
transaction id; neither lies in [1,255]. -/
theorem get_transaction_id_after_overflow :
    get_transaction_id 2147483647 = (-127, -2147483648) ∧
    get_transaction_id (-2) = (0, -1) ∧
    int_to_u8 (get_transaction_id (-2)).1 = 0 := by
  decide

/-- C3: starting from the initial counter, 256 consecutive calls of
`get_transaction_id` return 256 values of which the first 255 are pairwise
distinct and lie in [1,255], and the 256th equals the first. -/
theorem get_transaction_ids_first_256 :
    (get_transaction_ids 256 tid_init).length = 256 ∧
    ((get_transaction_ids 256 tid_init).take 255).Nodup ∧
    (∀ v ∈ (get_transaction_ids 256 tid_init).take 255, 1 ≤ v ∧ v ≤ 255) ∧
    (get_transaction_ids 256 tid_init)[255]? = (get_transaction_ids 256 tid_init)[0]? := by
  rw [get_transaction_ids_eq 256 tid_init (by decide) (by decide)]
  refine ⟨by simp, ?_, ?_, ?_⟩
  · rw [← List.map_take, List.take_range]
    apply List.Nodup.map_on _ (List.nodup_range _)
    intro x hx y hy hxy
    simp only [List.mem_range] at hx hy
    simp only [min_def] at hx hy
    norm_num at hx hy
    unfold tid_init at hxy
    omega
  · intro v hv
    rw [← List.map_take, List.mem_map] at hv
    obtain ⟨i, _, rfl⟩ := hv
    omega
  · simp

/-! ## Transmit path: lemmas -/

theorem check_ul_space_of_invalid (c : iosm_config) (qlen in_ out : Nat)
    (h : ¬ (in_ < qlen ∧ out < qlen)) : check_ul_space c qlen in_ out = - EIO := by
  have hv : circ_valid qlen in_ out = false := by
    rw [← Bool.not_eq_true, circ_valid_iff]
    exact h
  simp [check_ul_space, hv]

theorem check_ul_space_of_busy (c : iosm_config) (qlen in_ out : Nat)
    (hi : in_ < qlen) (ho : out < qlen) (h : c.SBD_UL_LIMIT < circ_get_usage qlen in_ out) :
    check_ul_space c qlen in_ out = - EBUSY := by
  have hv : circ_valid qlen in_ out = true := (circ_valid_iff _ _ _).2 ⟨hi, ho⟩
  simp [check_ul_space, hv, h]

theorem check_ul_space_of_full (c : iosm_config) (qlen in_ out : Nat)
    (hi : in_ < qlen) (ho : out < qlen) (h : circ_get_usage qlen in_ out ≤ c.SBD_UL_LIMIT)
    (hs : circ_get_space qlen in_ out = 0) :
    check_ul_space c qlen in_ out = - ENOSPC := by
  have hv : circ_valid qlen in_ out = true := (circ_valid_iff _ _ _).2 ⟨hi, ho⟩
  simp [check_ul_space, hv, not_lt.mpr h, hs]

theorem check_ul_space_of_space (c : iosm_config) (qlen in_ out : Nat)
    (hi : in_ < qlen) (ho : out < qlen) (h : circ_get_usage qlen in_ out ≤ c.SBD_UL_LIMIT)
    (hs : 0 < circ_get_space qlen in_ out) :
    check_ul_space c qlen in_ out = u32_to_int (circ_get_space qlen in_ out) := by
  have hv : circ_valid qlen in_ out = true := (circ_valid_iff _ _ _).2 ⟨hi, ho⟩
  have hs2 : ¬ circ_get_space qlen in_ out < 1 := by omega
  simp [check_ul_space, hv, not_lt.mpr h, hs2]

theorem check_ul_space_pos (c : iosm_config) (qlen in_ out : Nat)
    (h : 0 < check_ul_space c qlen in_ out) :
    in_ < qlen ∧ out < qlen ∧ circ_get_usage qlen in_ out ≤ c.SBD_UL_LIMIT ∧
      1 ≤ circ_get_space qlen in_ out := by
  unfold check_ul_space at h
  by_cases hv : circ_valid qlen in_ out = true
  · obtain ⟨h1, h2⟩ := (circ_valid_iff _ _ _).1 hv
    simp only [hv, Bool.not_true, Bool.false_eq_true, if_false] at h
    unfold EBUSY ENOSPC at h
    split_ifs at h with h3 h4
    · omega
    · omega
    · exact ⟨h1, h2, by omega, by omega⟩
  · simp only [hv, Bool.not_false, if_true] at h
    unfold EIO at h
    omega

theorem tx_iosm_message_of_not_ready (c : iosm_config) (mld : mem_link_device) (id : Nat)
    (args : tx_args) (h : tx_not_ready c mld = true) :
    tx_iosm_message c mld id args = mld := by
  simp [tx_iosm_message, h]

theorem tx_iosm_message_of_no_space (c : iosm_config) (mld : mem_link_device) (id : Nat)
    (args : tx_args) (h1 : tx_not_ready c mld = false)
    (h2 : check_ul_space c c.IOSM_NUM_ELEMENTS mld.tx.hdr.w_idx mld.tx.hdr.r_idx ≤ 0) :
    tx_iosm_message c mld id args =
      { mld with
        trace := mld.trace ++
          check_ul_space_log c c.IOSM_NUM_ELEMENTS mld.tx.hdr.w_idx mld.tx.hdr.r_idx } := by
  simp [tx_iosm_message, h1, h2]

theorem tx_iosm_message_frame (c : iosm_config) (mld : mem_link_device) (id : Nat)
    (args : tx_args) :
    (tx_iosm_message c mld id args).cp_online = mld.cp_online ∧
    (tx_iosm_message c mld id args).cp_boot_done = mld.cp_boot_done ∧
    (tx_iosm_message c mld id args).forbid_cp_sleep_wait = mld.forbid_cp_sleep_wait ∧
    (tx_iosm_message c mld id args).permit_cp_sleep = mld.permit_cp_sleep ∧
    (tx_iosm_message c mld id args).tx.hdr.r_idx = mld.tx.hdr.r_idx := by
  unfold tx_iosm_message
  by_cases h1 : tx_not_ready c mld = true
  · simp [h1]
  · by_cases h2 : check_ul_space c c.IOSM_NUM_ELEMENTS mld.tx.hdr.w_idx mld.tx.hdr.r_idx ≤ 0
    · simp [h1, h2]
    · cases h3 : mld.cp_online <;> cases h4 : mld.permit_cp_sleep <;>
        rcases h5 : mld.forbid_cp_sleep_wait with _ | _ | _ <;> simp [h1, h2, h3, h4, h5]

theorem tx_iosm_message_of_space (c : iosm_config) (mld : mem_link_device) (id : Nat)
    (args : tx_args) (h1 : tx_not_ready c mld = false)
    (h2 : 0 < check_ul_space c c.IOSM_NUM_ELEMENTS mld.tx.hdr.w_idx mld.tx.hdr.r_idx) :
    (tx_iosm_message c mld id args).tx.hdr.w_idx =
      circ_new_ptr c.IOSM_NUM_ELEMENTS mld.tx.hdr.w_idx 1 ∧
    (tx_iosm_message c mld id args).tx.elements =
      Function.update mld.tx.elements mld.tx.hdr.w_idx
        (create_iosm_message c (mld.tx.elements mld.tx.hdr.w_idx) id args mld.tid).txmsg ∧
    (tx_iosm_message c mld id args).tid =
      (create_iosm_message c (mld.tx.elements mld.tx.hdr.w_idx) id args mld.tid).tid := by
  have h3 : ¬ check_ul_space c c.IOSM_NUM_ELEMENTS mld.tx.hdr.w_idx mld.tx.hdr.r_idx ≤ 0 :=
    not_le.mpr h2
  unfold tx_iosm_message
  cases h4 : mld.cp_online <;> cases h5 : mld.permit_cp_sleep <;>
    rcases h6 : mld.forbid_cp_sleep_wait with _ | _ | _ <;> simp [h1, h3, h4, h5, h6]

theorem tx_not_ready_tx_iosm_message (c : iosm_config) (mld : mem_link_device) (id : Nat)
    (args : tx_args) :
    tx_not_ready c (tx_iosm_message c mld id args) = tx_not_ready c mld := by
  obtain ⟨h1, h2, -⟩ := tx_iosm_message_frame c mld id args
  simp [tx_not_ready, h1, h2]

theorem tx_iosm_messages_r_idx (c : iosm_config) (mld : mem_link_device) (id : Nat)
    (args : tx_args) (k : Nat) :
    (tx_iosm_messages c id args k mld).tx.hdr.r_idx = mld.tx.hdr.r_idx := by
  induction k with
  | zero => rfl
  | succ k ih =>
    rw [tx_iosm_messages, (tx_iosm_message_frame c _ id args).2.2.2.2, ih]

theorem tx_iosm_messages_prefix (c : iosm_config) (mld : mem_link_device) (id : Nat)
    (args : tx_args) (hg : tx_not_ready c mld = false) (hw : mld.tx.hdr.w_idx = 0) (k : Nat)
    (hk : k < c.IOSM_NUM_ELEMENTS)
    (hs : ∀ j, j < k →
      0 < check_ul_space c c.IOSM_NUM_ELEMENTS (tx_iosm_messages c id args j mld).tx.hdr.w_idx
        (tx_iosm_messages c id args j mld).tx.hdr.r_idx) :
    (tx_iosm_messages c id args k mld).tx.hdr.w_idx = k ∧
    tx_not_ready c (tx_iosm_messages c id args k mld) = false := by
  induction k with
  | zero => exact ⟨hw, hg⟩
  | succ k ih =>
    obtain ⟨ihw, ihg⟩ := ih (by omega) (fun j hj => hs j (by omega))
    have hsp := hs k (by omega)
    obtain ⟨h1, -, -⟩ := tx_iosm_message_of_space c _ id args ihg hsp
    refine ⟨?_, ?_⟩
    · rw [tx_iosm_messages, h1, ihw, circ_new_ptr, Nat.mod_eq_of_lt hk]
    · rw [tx_iosm_messages, tx_not_ready_tx_iosm_message, ihg]

theorem check_ul_space_from_zero (c : iosm_config) (n j : Nat) (hj : j + 1 < n)
    (hn : n ≤ 2147483648) (hl : j ≤ c.SBD_UL_LIMIT) :
    check_ul_space c n j 0 = ((n - 1 - j : Nat) : Int) := by
  have hu : circ_get_usage n j 0 = j := by
    rw [circ_get_usage_of_le n j 0 (by omega) (by omega)]
    rfl
  have hsp : circ_get_space n j 0 = n - 1 - j := by
    unfold circ_get_space
    rw [hu]
    omega
  rw [check_ul_space_of_space c n j 0 (by omega) (by omega) (by rw [hu]; exact hl)
    (by rw [hsp]; omega), hsp]
  unfold u32_to_int
  rw [if_pos (by omega)]

theorem irq_count_check_ul_space_log (c : iosm_config) (qlen in_ out : Nat) :
    irq_count (check_ul_space_log c qlen in_ out) = 0 := by
  unfold check_ul_space_log irq_count
  split_ifs <;> simp

/-! ## Claims on the space check and the transmit path -/

/-- C4: for a capacity `N` with `1 ≤ N` (a `u32`) and indices `w`, `r` below
`N`, the occupancy is `(w - r) mod N`, occupancy plus free space plus one is
`N`, the free space is `N - occupancy - 1`, and whenever `check_ul_space`
returns a positive value (the caller's test for success) that value is the free
space. -/
theorem check_ul_space_accounting (c : iosm_config) (N w r : Nat) (hN : 1 ≤ N)
    (h32 : N < 4294967296) (hw : w < N) (hr : r < N) :
    circ_get_usage N w r = (((w : Int) - (r : Int)) % (N : Int)).toNat ∧
    circ_get_usage N w r + circ_get_space N w r + 1 = N ∧
    circ_get_space N w r = N - circ_get_usage N w r - 1 ∧
    (0 < check_ul_space c N w r →
      check_ul_space c N w r = (circ_get_space N w r : Int)) := by
  have hu := circ_get_usage_lt N w r (by omega)
  refine ⟨rfl, ?_, rfl, ?_⟩
  · unfold circ_get_space
    omega
  · intro hpos
    have hv : circ_valid N w r = true := (circ_valid_iff _ _ _).2 ⟨hw, hr⟩
    have hsp : circ_get_space N w r < N := by
      unfold circ_get_space
      omega
    unfold check_ul_space at hpos ⊢
    simp only [hv, Bool.not_true, Bool.false_eq_true, if_false] at hpos ⊢
    unfold EBUSY ENOSPC at hpos
    unfold u32_to_int at hpos ⊢
    split_ifs at hpos ⊢ <;> omega

/-- C4, at a concrete input: capacity 8, write index 2, read index 5 give
occupancy 5 and free space 2, and `check_ul_space` returns 2. -/
theorem check_ul_space_accounting_witness :
    (1 ≤ 8 ∧ 8 < 4294967296 ∧ 2 < 8 ∧ 5 < 8) ∧
    circ_get_usage 8 2 5 = 5 ∧ circ_get_space 8 2 5 = 2 ∧
    check_ul_space (sample_config 8 16) 8 2 5 = 2 ∧
    circ_get_usage 8 2 5 + circ_get_space 8 2 5 + 1 = 8 :=
  ⟨by decide, by decide, by decide, by decide,
    (check_ul_space_accounting (sample_config 8 16) 8 2 5 (by decide) (by decide) (by decide)
      (by decide)).2.1⟩

/-- C5: for every capacity `N` a ring can have and all indices,
`check_ul_space` returns `-EIO` if and only if the write index or the read
index is at least `N`.  The capacity is bounded by `N ≤ 4294967291`, which
holds of every capacity below `2 ^ 31`: the function is called with the
compile-time constant `IOSM_NUM_ELEMENTS` only. -/
theorem check_ul_space_desync_iff (c : iosm_config) (N w r : Nat) (hN : N ≤ 4294967291) :
    check_ul_space c N w r = - EIO ↔ (N ≤ w ∨ N ≤ r) := by
  constructor
  · intro h
    by_contra hcon
    have hw : w < N := by omega
    have hr : r < N := by omega
    have hv : circ_valid N w r = true := (circ_valid_iff _ _ _).2 ⟨hw, hr⟩
    have hu := circ_get_usage_lt N w r (by omega)
    have hsp : circ_get_space N w r < N := by
      unfold circ_get_space
      omega
    unfold check_ul_space at h
    simp only [hv, Bool.not_true, Bool.false_eq_true, if_false] at h
    unfold EBUSY ENOSPC EIO u32_to_int at h
    split_ifs at h <;> omega
  · intro h
    exact check_ul_space_of_invalid c N w r (by omega)

/-- C5, at a concrete input: capacity 8 with write index 8 is reported as
desync. -/
theorem check_ul_space_desync_iff_witness :
    8 ≤ 4294967291 ∧
    (check_ul_space (sample_config 8 16) 8 8 0 = - EIO ↔ (8 ≤ 8 ∨ 8 ≤ 0)) :=
  ⟨by decide, check_ul_space_desync_iff (sample_config 8 16) 8 8 0 (by decide)⟩

/-- C6, as stated, fails: with capacity 8 and busy threshold 4, at write index
4 and read index 0 the occupancy equals the threshold, `check_ul_space` returns
the free space 3 and the send advances the write index to 5. -/
theorem tx_iosm_message_at_threshold_commits :
    (4 < 8 ∧ 0 < 8) ∧
    (sample_config 8 4).SBD_UL_LIMIT ≤ circ_get_usage 8 4 0 ∧
    check_ul_space (sample_config 8 4) 8 4 0 = 3 ∧
    (mld_at 4 0).tx.hdr.w_idx = 4 ∧
    (tx_iosm_message (sample_config 8 4) (mld_at 4 0) (sample_config 8 4).IOSM_A2C_AP_READY
      tx_args.null).tx.hdr.w_idx = 5 := by
  decide

/-- C6, amended: for every TX state with both indices below the capacity whose
occupancy is strictly greater than `SBD_UL_LIMIT`, `check_ul_space` returns
`-EBUSY` and `tx_iosm_message` leaves the write index where it was. -/
theorem tx_iosm_message_busy (c : iosm_config) (mld : mem_link_device) (id : Nat)
    (args : tx_args) (hw : mld.tx.hdr.w_idx < c.IOSM_NUM_ELEMENTS)
    (hr : mld.tx.hdr.r_idx < c.IOSM_NUM_ELEMENTS)
    (hbusy : c.SBD_UL_LIMIT <
      circ_get_usage c.IOSM_NUM_ELEMENTS mld.tx.hdr.w_idx mld.tx.hdr.r_idx) :
    check_ul_space c c.IOSM_NUM_ELEMENTS mld.tx.hdr.w_idx mld.tx.hdr.r_idx = - EBUSY ∧
    (tx_iosm_message c mld id args).tx.hdr.w_idx = mld.tx.hdr.w_idx := by
  have hc := check_ul_space_of_busy c _ _ _ hw hr hbusy
  refine ⟨hc, ?_⟩
  by_cases hg : tx_not_ready c mld = true
  · rw [tx_iosm_message_of_not_ready c mld id args hg]
  · rw [tx_iosm_message_of_no_space c mld id args (by simpa using hg)
      (by rw [hc]; decide)]

/-- C6 amended, at a concrete input: capacity 8, threshold 4, write index 5,
read index 0 (occupancy 5) is busy and the write index stays 5. -/
theorem tx_iosm_message_busy_witness :
    ((mld_at 5 0).tx.hdr.w_idx < (sample_config 8 4).IOSM_NUM_ELEMENTS ∧
      (mld_at 5 0).tx.hdr.r_idx < (sample_config 8 4).IOSM_NUM_ELEMENTS ∧
      (sample_config 8 4).SBD_UL_LIMIT < circ_get_usage 8 5 0) ∧
    (check_ul_space (sample_config 8 4) 8 5 0 = - EBUSY ∧
      (tx_iosm_message (sample_config 8 4) (mld_at 5 0) 0 tx_args.null).tx.hdr.w_idx = 5) :=
  ⟨by decide,
    tx_iosm_message_busy (sample_config 8 4) (mld_at 5 0) 0 tx_args.null (by decide)
      (by decide) (by decide)⟩

/-- C7, as stated, fails: with capacity 8 and busy threshold 4, at write index
7 and read index 0 the free space is zero, yet `check_ul_space` returns
`-EBUSY`, which is not `-ENOSPC`. -/
theorem check_ul_space_full_reports_busy :
    (7 < 8 ∧ 0 < 8) ∧
    circ_get_usage 8 7 0 = 8 - 1 ∧
    circ_get_space 8 7 0 = 0 ∧
    check_ul_space (sample_config 8 4) 8 7 0 = - EBUSY ∧
    check_ul_space (sample_config 8 4) 8 7 0 ≠ - ENOSPC := by
  decide

/-- C7, amended: for every TX state with both indices below the capacity whose
occupancy is `N - 1`, the free space is zero and `tx_iosm_message` leaves the
write index where it was; `check_ul_space` returns `-ENOSPC` when
`N - 1 ≤ SBD_UL_LIMIT` and `-EBUSY` when `SBD_UL_LIMIT < N - 1`. -/
theorem tx_iosm_message_full (c : iosm_config) (mld : mem_link_device) (id : Nat)
    (args : tx_args) (hw : mld.tx.hdr.w_idx < c.IOSM_NUM_ELEMENTS)
    (hr : mld.tx.hdr.r_idx < c.IOSM_NUM_ELEMENTS)
    (hfull : circ_get_usage c.IOSM_NUM_ELEMENTS mld.tx.hdr.w_idx mld.tx.hdr.r_idx =
      c.IOSM_NUM_ELEMENTS - 1) :
    circ_get_space c.IOSM_NUM_ELEMENTS mld.tx.hdr.w_idx mld.tx.hdr.r_idx = 0 ∧
    (c.IOSM_NUM_ELEMENTS - 1 ≤ c.SBD_UL_LIMIT →
      check_ul_space c c.IOSM_NUM_ELEMENTS mld.tx.hdr.w_idx mld.tx.hdr.r_idx = - ENOSPC) ∧
    (c.SBD_UL_LIMIT < c.IOSM_NUM_ELEMENTS - 1 →
      check_ul_space c c.IOSM_NUM_ELEMENTS mld.tx.hdr.w_idx mld.tx.hdr.r_idx = - EBUSY) ∧
    (tx_iosm_message c mld id args).tx.hdr.w_idx = mld.tx.hdr.w_idx := by
  have hsp : circ_get_space c.IOSM_NUM_ELEMENTS mld.tx.hdr.w_idx mld.tx.hdr.r_idx = 0 := by
    unfold circ_get_space
    omega
  have h1 : c.IOSM_NUM_ELEMENTS - 1 ≤ c.SBD_UL_LIMIT →
      check_ul_space c c.IOSM_NUM_ELEMENTS mld.tx.hdr.w_idx mld.tx.hdr.r_idx = - ENOSPC :=
    fun h => check_ul_space_of_full c _ _ _ hw hr (by rw [hfull]; exact h) hsp
  have h2 : c.SBD_UL_LIMIT < c.IOSM_NUM_ELEMENTS - 1 →
      check_ul_space c c.IOSM_NUM_ELEMENTS mld.tx.hdr.w_idx mld.tx.hdr.r_idx = - EBUSY :=
    fun h => check_ul_space_of_busy c _ _ _ hw hr (by rw [hfull]; exact h)
  have h3 : check_ul_space c c.IOSM_NUM_ELEMENTS mld.tx.hdr.w_idx mld.tx.hdr.r_idx ≤ 0 := by
    by_cases h : c.IOSM_NUM_ELEMENTS - 1 ≤ c.SBD_UL_LIMIT
    · rw [h1 h]; decide
    · rw [h2 (by omega)]; decide
  refine ⟨hsp, h1, h2, ?_⟩
  by_cases hg : tx_not_ready c mld = true
  · rw [tx_iosm_message_of_not_ready c mld id args hg]
  · rw [tx_iosm_message_of_no_space c mld id args (by simpa using hg) h3]

/-- C7 amended, at a concrete input: capacity 8, threshold 16, write index 7,
read index 0: the ring is full, the result is `-ENOSPC` and the write index
stays 7. -/
theorem tx_iosm_message_full_witness :
    ((mld_at 7 0).tx.hdr.w_idx < (sample_config 8 16).IOSM_NUM_ELEMENTS ∧
      (mld_at 7 0).tx.hdr.r_idx < (sample_config 8 16).IOSM_NUM_ELEMENTS ∧
      circ_get_usage 8 7 0 = 8 - 1) ∧
    check_ul_space (sample_config 8 16) 8 7 0 = - ENOSPC ∧
    (tx_iosm_message (sample_config 8 16) (mld_at 7 0) 0 tx_args.null).tx.hdr.w_idx = 7 :=
  ⟨by decide,
    (tx_iosm_message_full (sample_config 8 16) (mld_at 7 0) 0 tx_args.null (by decide)
      (by decide) (by decide)).2.1 (by decide),
    (tx_iosm_message_full (sample_config 8 16) (mld_at 7 0) 0 tx_args.null (by decide)
      (by decide) (by decide)).2.2.2⟩

/-- C8, as stated, fails for every busy threshold: with capacity 8, a ready
link and both TX indices at 0, if the first six ApReady sends pass the space
check then the seventh is not rejected with `-ENOSPC`.  With threshold 16 the
seventh send finds one free slot and advances the write index to 7. -/
theorem tx_iosm_messages_seventh_not_nospc :
    (¬ ∃ (c : iosm_config) (mld : mem_link_device),
      c.IOSM_NUM_ELEMENTS = 8 ∧ tx_not_ready c mld = false ∧
      mld.tx.hdr.w_idx = 0 ∧ mld.tx.hdr.r_idx = 0 ∧
      (∀ k, k < 6 →
        0 < check_ul_space c c.IOSM_NUM_ELEMENTS
          (tx_iosm_messages c c.IOSM_A2C_AP_READY tx_args.null k mld).tx.hdr.w_idx
          (tx_iosm_messages c c.IOSM_A2C_AP_READY tx_args.null k mld).tx.hdr.r_idx) ∧
      check_ul_space c c.IOSM_NUM_ELEMENTS
        (tx_iosm_messages c c.IOSM_A2C_AP_READY tx_args.null 6 mld).tx.hdr.w_idx
        (tx_iosm_messages c c.IOSM_A2C_AP_READY tx_args.null 6 mld).tx.hdr.r_idx = - ENOSPC) ∧
    check_ul_space (sample_config 8 16) 8
      (tx_iosm_messages (sample_config 8 16) 0 tx_args.null 6 mld_boot).tx.hdr.w_idx
      (tx_iosm_messages (sample_config 8 16) 0 tx_args.null 6 mld_boot).tx.hdr.r_idx = 1 ∧
    (tx_iosm_messages (sample_config 8 16) 0 tx_args.null 7 mld_boot).tx.hdr.w_idx = 7 := by
  refine ⟨?_, by decide, by decide⟩
  rintro ⟨c, mld, hN, hg, hw, hr, hs, h7⟩
  obtain ⟨h6w, -⟩ := tx_iosm_messages_prefix c mld c.IOSM_A2C_AP_READY tx_args.null hg hw 6
    (by omega) hs
  rw [h6w, tx_iosm_messages_r_idx, hr, hN] at h7
  have hu : circ_get_usage 8 6 0 = 6 := by decide
  have hsp : circ_get_space 8 6 0 = 1 := by decide
  by_cases hl : c.SBD_UL_LIMIT < 6
  · rw [check_ul_space_of_busy c 8 6 0 (by decide) (by decide) (by rw [hu]; exact hl)] at h7
    exact absurd h7 (by decide)
  · rw [check_ul_space_of_space c 8 6 0 (by decide) (by decide) (by rw [hu]; omega)
      (by rw [hsp]; decide), hsp] at h7
    exact absurd h7 (by decide)

/-- With capacity 8, a busy threshold of at least 7, a ready link and both TX
indices at 0, the ring fills: each of the first seven consecutive ApReady sends
passes the space check and advances the write index by one, the eighth is
rejected with `-ENOSPC` and leaves the write index at 7, and the read index is
0 after every one of the eight sends. -/
theorem tx_iosm_messages_capacity_8 (c : iosm_config) (mld : mem_link_device)
    (hN : c.IOSM_NUM_ELEMENTS = 8) (hl : 7 ≤ c.SBD_UL_LIMIT)
    (hg : tx_not_ready c mld = false) (hw : mld.tx.hdr.w_idx = 0)
    (hr : mld.tx.hdr.r_idx = 0) :
    (∀ k, k < 7 →
      0 < check_ul_space c c.IOSM_NUM_ELEMENTS
        (tx_iosm_messages c c.IOSM_A2C_AP_READY tx_args.null k mld).tx.hdr.w_idx
        (tx_iosm_messages c c.IOSM_A2C_AP_READY tx_args.null k mld).tx.hdr.r_idx ∧
      (tx_iosm_messages c c.IOSM_A2C_AP_READY tx_args.null (k + 1) mld).tx.hdr.w_idx = k + 1) ∧
    check_ul_space c c.IOSM_NUM_ELEMENTS
      (tx_iosm_messages c c.IOSM_A2C_AP_READY tx_args.null 7 mld).tx.hdr.w_idx
      (tx_iosm_messages c c.IOSM_A2C_AP_READY tx_args.null 7 mld).tx.hdr.r_idx = - ENOSPC ∧
    (tx_iosm_messages c c.IOSM_A2C_AP_READY tx_args.null 8 mld).tx.hdr.w_idx = 7 ∧
    (∀ k, k ≤ 8 →
      (tx_iosm_messages c c.IOSM_A2C_AP_READY tx_args.null k mld).tx.hdr.r_idx = 0) := by
  have hpre : ∀ k, k ≤ 7 →
      (tx_iosm_messages c c.IOSM_A2C_AP_READY tx_args.null k mld).tx.hdr.w_idx = k ∧
      tx_not_ready c (tx_iosm_messages c c.IOSM_A2C_AP_READY tx_args.null k mld) = false := by
    intro k
    induction k with
    | zero => intro _; exact ⟨hw, hg⟩
    | succ k ih =>
      intro hk
      obtain ⟨ihw, ihg⟩ := ih (by omega)
      have hsp : 0 < check_ul_space c c.IOSM_NUM_ELEMENTS
          (tx_iosm_messages c c.IOSM_A2C_AP_READY tx_args.null k mld).tx.hdr.w_idx
          (tx_iosm_messages c c.IOSM_A2C_AP_READY tx_args.null k mld).tx.hdr.r_idx := by
        rw [ihw, tx_iosm_messages_r_idx, hr, hN,
          check_ul_space_from_zero c 8 k (by omega) (by decide) (by omega)]
        omega
      obtain ⟨h1, -, -⟩ := tx_iosm_message_of_space c _ c.IOSM_A2C_AP_READY tx_args.null ihg hsp
      refine ⟨?_, ?_⟩
      · rw [tx_iosm_messages, h1, ihw, circ_new_ptr, hN, Nat.mod_eq_of_lt (by omega)]
      · rw [tx_iosm_messages, tx_not_ready_tx_iosm_message, ihg]
  have h7 : check_ul_space c c.IOSM_NUM_ELEMENTS
      (tx_iosm_messages c c.IOSM_A2C_AP_READY tx_args.null 7 mld).tx.hdr.w_idx
      (tx_iosm_messages c c.IOSM_A2C_AP_READY tx_args.null 7 mld).tx.hdr.r_idx = - ENOSPC := by
    rw [(hpre 7 (by omega)).1, tx_iosm_messages_r_idx, hr, hN]
    exact check_ul_space_of_full c 8 7 0 (by decide) (by decide)
      (by rw [show circ_get_usage 8 7 0 = 7 by decide]; exact hl) (by decide)
  refine ⟨?_, h7, ?_, ?_⟩
  · intro k hk
    refine ⟨?_, (hpre (k + 1) (by omega)).1⟩
    rw [(hpre k (by omega)).1, tx_iosm_messages_r_idx, hr, hN,
      check_ul_space_from_zero c 8 k (by omega) (by decide) (by omega)]
    omega
  · rw [tx_iosm_messages,
      tx_iosm_message_of_no_space c _ _ _ (hpre 7 (by omega)).2 (by rw [h7]; decide)]
    exact (hpre 7 (by omega)).1
  · intro k _
    rw [tx_iosm_messages_r_idx, hr]

/-- C8, amended: with capacity 8, busy threshold 5, a ready link and both TX
indices at 0, each of the first six consecutive ApReady sends passes the space
check and advances the write index by one, and the seventh is rejected with
`-EBUSY`, leaving the write index at 6; the read index is 0 after every one of
the eight sends.  Threshold 5 is the only one for which the first six sends
pass and the seventh is rejected. -/
theorem tx_iosm_messages_six_then_busy (c : iosm_config) (mld : mem_link_device)
    (hN : c.IOSM_NUM_ELEMENTS = 8) (hg : tx_not_ready c mld = false)
    (hw : mld.tx.hdr.w_idx = 0) (hr : mld.tx.hdr.r_idx = 0) :
    (c.SBD_UL_LIMIT = 5 →
      (∀ k, k < 6 →
        0 < check_ul_space c c.IOSM_NUM_ELEMENTS
          (tx_iosm_messages c c.IOSM_A2C_AP_READY tx_args.null k mld).tx.hdr.w_idx
          (tx_iosm_messages c c.IOSM_A2C_AP_READY tx_args.null k mld).tx.hdr.r_idx ∧
        (tx_iosm_messages c c.IOSM_A2C_AP_READY tx_args.null (k + 1) mld).tx.hdr.w_idx =
          k + 1) ∧
      check_ul_space c c.IOSM_NUM_ELEMENTS
        (tx_iosm_messages c c.IOSM_A2C_AP_READY tx_args.null 6 mld).tx.hdr.w_idx
        (tx_iosm_messages c c.IOSM_A2C_AP_READY tx_args.null 6 mld).tx.hdr.r_idx = - EBUSY ∧
      (tx_iosm_messages c c.IOSM_A2C_AP_READY tx_args.null 7 mld).tx.hdr.w_idx = 6) ∧
    (((∀ k, k < 6 →
        0 < check_ul_space c c.IOSM_NUM_ELEMENTS
          (tx_iosm_messages c c.IOSM_A2C_AP_READY tx_args.null k mld).tx.hdr.w_idx
          (tx_iosm_messages c c.IOSM_A2C_AP_READY tx_args.null k mld).tx.hdr.r_idx) ∧
      check_ul_space c c.IOSM_NUM_ELEMENTS
        (tx_iosm_messages c c.IOSM_A2C_AP_READY tx_args.null 6 mld).tx.hdr.w_idx
        (tx_iosm_messages c c.IOSM_A2C_AP_READY tx_args.null 6 mld).tx.hdr.r_idx ≤ 0) →
      c.SBD_UL_LIMIT = 5) ∧
    (∀ k, k ≤ 8 →
      (tx_iosm_messages c c.IOSM_A2C_AP_READY tx_args.null k mld).tx.hdr.r_idx = 0) := by
  have hu5 : circ_get_usage 8 5 0 = 5 := by decide
  have hu6 : circ_get_usage 8 6 0 = 6 := by decide
  have hsp6 : circ_get_space 8 6 0 = 1 := by decide
  refine ⟨?_, ?_, ?_⟩
  · intro hl
    have hpre : ∀ k, k ≤ 6 →
        (tx_iosm_messages c c.IOSM_A2C_AP_READY tx_args.null k mld).tx.hdr.w_idx = k ∧
        tx_not_ready c (tx_iosm_messages c c.IOSM_A2C_AP_READY tx_args.null k mld) = false := by
      intro k
      induction k with
      | zero => intro _; exact ⟨hw, hg⟩
      | succ k ih =>
        intro hk
        obtain ⟨ihw, ihg⟩ := ih (by omega)
        have hsp : 0 < check_ul_space c c.IOSM_NUM_ELEMENTS
            (tx_iosm_messages c c.IOSM_A2C_AP_READY tx_args.null k mld).tx.hdr.w_idx
            (tx_iosm_messages c c.IOSM_A2C_AP_READY tx_args.null k mld).tx.hdr.r_idx := by
          rw [ihw, tx_iosm_messages_r_idx, hr, hN,
            check_ul_space_from_zero c 8 k (by omega) (by decide) (by omega)]
          omega
        obtain ⟨h1, -, -⟩ := tx_iosm_message_of_space c _ c.IOSM_A2C_AP_READY tx_args.null
          ihg hsp
        refine ⟨?_, ?_⟩
        · rw [tx_iosm_messages, h1, ihw, circ_new_ptr, hN, Nat.mod_eq_of_lt (by omega)]
        · rw [tx_iosm_messages, tx_not_ready_tx_iosm_message, ihg]
    have h6 : check_ul_space c c.IOSM_NUM_ELEMENTS
        (tx_iosm_messages c c.IOSM_A2C_AP_READY tx_args.null 6 mld).tx.hdr.w_idx
        (tx_iosm_messages c c.IOSM_A2C_AP_READY tx_args.null 6 mld).tx.hdr.r_idx = - EBUSY := by
      rw [(hpre 6 (by omega)).1, tx_iosm_messages_r_idx, hr, hN]
      exact check_ul_space_of_busy c 8 6 0 (by decide) (by decide) (by rw [hu6, hl]; decide)
    refine ⟨?_, h6, ?_⟩
    · intro k hk
      refine ⟨?_, (hpre (k + 1) (by omega)).1⟩
      rw [(hpre k (by omega)).1, tx_iosm_messages_r_idx, hr, hN,
        check_ul_space_from_zero c 8 k (by omega) (by decide) (by omega)]
      omega
    · rw [tx_iosm_messages,
        tx_iosm_message_of_no_space c _ _ _ (hpre 6 (by omega)).2 (by rw [h6]; decide)]
      exact (hpre 6 (by omega)).1
  · rintro ⟨hs, h7⟩
    obtain ⟨h5w, -⟩ := tx_iosm_messages_prefix c mld c.IOSM_A2C_AP_READY tx_args.null hg hw 5
      (by omega) (fun j hj => hs j (by omega))
    obtain ⟨h6w, -⟩ := tx_iosm_messages_prefix c mld c.IOSM_A2C_AP_READY tx_args.null hg hw 6
      (by omega) hs
    have h5 := hs 5 (by omega)
    rw [h5w, tx_iosm_messages_r_idx, hr, hN] at h5
    obtain ⟨-, -, hle, -⟩ := check_ul_space_pos c 8 5 0 h5
    rw [hu5] at hle
    rw [h6w, tx_iosm_messages_r_idx, hr, hN] at h7
    by_contra hne
    have hge : circ_get_usage 8 6 0 ≤ c.SBD_UL_LIMIT := by
      rw [hu6]
      omega
    rw [check_ul_space_of_space c 8 6 0 (by decide) (by decide) hge (by rw [hsp6]; decide),
      hsp6] at h7
    exact absurd h7 (by decide)
  · intro k _
    rw [tx_iosm_messages_r_idx, hr]

/-- C8 amended, at a concrete input: `sample_config 8 5` and the device after
bring-up.  The sixth send passes the space check, the seventh is rejected with
`-EBUSY` and the write index stays at 6. -/
theorem tx_iosm_messages_six_then_busy_witness :
    ((sample_config 8 5).IOSM_NUM_ELEMENTS = 8 ∧ (sample_config 8 5).SBD_UL_LIMIT = 5 ∧
      tx_not_ready (sample_config 8 5) mld_boot = false ∧
      mld_boot.tx.hdr.w_idx = 0 ∧ mld_boot.tx.hdr.r_idx = 0) ∧
    (tx_iosm_messages (sample_config 8 5) 0 tx_args.null 6 mld_boot).tx.hdr.w_idx = 6 ∧
    check_ul_space (sample_config 8 5) 8
      (tx_iosm_messages (sample_config 8 5) 0 tx_args.null 6 mld_boot).tx.hdr.w_idx
      (tx_iosm_messages (sample_config 8 5) 0 tx_args.null 6 mld_boot).tx.hdr.r_idx
        = - EBUSY ∧
    (tx_iosm_messages (sample_config 8 5) 0 tx_args.null 7 mld_boot).tx.hdr.w_idx = 6 :=
  ⟨by decide, by decide,
    ((tx_iosm_messages_six_then_busy (sample_config 8 5) mld_boot rfl (by decide) rfl rfl).1
      rfl).2.1,
    ((tx_iosm_messages_six_then_busy (sample_config 8 5) mld_boot rfl (by decide) rfl rfl).1
      rfl).2.2⟩

/-- C9: a send that passes the readiness gate and the space check leaves in
the slot at the old write index exactly the message `create_iosm_message`
builds from that slot, the kind, the arguments and the counter; the write index
becomes `(old write index + 1) mod N`; the read index and every other slot are
unchanged. -/
theorem tx_iosm_message_commit (c : iosm_config) (mld : mem_link_device) (id : Nat)
    (args : tx_args) (hg : tx_not_ready c mld = false)
    (hs : 0 < check_ul_space c c.IOSM_NUM_ELEMENTS mld.tx.hdr.w_idx mld.tx.hdr.r_idx) :
    (tx_iosm_message c mld id args).tx.elements mld.tx.hdr.w_idx =
      (create_iosm_message c (mld.tx.elements mld.tx.hdr.w_idx) id args mld.tid).txmsg ∧
    (tx_iosm_message c mld id args).tx.hdr.w_idx =
      (mld.tx.hdr.w_idx + 1) % c.IOSM_NUM_ELEMENTS ∧
    (tx_iosm_message c mld id args).tx.hdr.r_idx = mld.tx.hdr.r_idx ∧
    (∀ i, i ≠ mld.tx.hdr.w_idx →
      (tx_iosm_message c mld id args).tx.elements i = mld.tx.elements i) := by
  obtain ⟨h1, h2, -⟩ := tx_iosm_message_of_space c mld id args hg hs
  refine ⟨?_, ?_, (tx_iosm_message_frame c mld id args).2.2.2.2, ?_⟩
  · rw [h2, Function.update_same]
  · rw [h1, circ_new_ptr]
  · intro i hi
    rw [h2, Function.update_noteq hi]

/-- C9, at a concrete input: under `sample_config 8 16`, an ApReady sent from
write index 7 and read index 3 wraps the write index to 0 and leaves the read
index at 3; slot 7 holds ApReady with the descriptor address and transaction
id 1. -/
theorem tx_iosm_message_commit_witness :
    (tx_not_ready (sample_config 8 16) (mld_at 7 3) = false ∧
      0 < check_ul_space (sample_config 8 16) 8 7 3) ∧
    (tx_iosm_message (sample_config 8 16) (mld_at 7 3) 0 tx_args.null).tx.elements 7 =
      { iosm_msg.zero with msg_id := 0, trs_id := 1, ap_ready_addr := 4096 } ∧
    (tx_iosm_message (sample_config 8 16) (mld_at 7 3) 0 tx_args.null).tx.hdr.w_idx = 0 ∧
    (tx_iosm_message (sample_config 8 16) (mld_at 7 3) 0 tx_args.null).tx.hdr.r_idx = 3 :=
  ⟨by decide, by decide,
    (tx_iosm_message_commit (sample_config 8 16) (mld_at 7 3) 0 tx_args.null (by decide)
      (by decide)).2.1,
    (tx_iosm_message_commit (sample_config 8 16) (mld_at 7 3) 0 tx_args.null (by decide)
      (by decide)).2.2.1⟩

/-- C10: a send that is dropped, because boot is done and the modem is not
online or because `check_ul_space` returns a value that is not positive
(desync, busy, no space), leaves the TX header, every TX slot and the counter
`tid` unchanged and adds no `send_ipc_irq` to the trace. -/
theorem tx_iosm_message_dropped (c : iosm_config) (mld : mem_link_device) (id : Nat)
    (args : tx_args)
    (hdrop : (mld.cp_boot_done ≠ 0 ∧ mld.cp_online = false) ∨
      check_ul_space c c.IOSM_NUM_ELEMENTS mld.tx.hdr.w_idx mld.tx.hdr.r_idx ≤ 0) :
    (tx_iosm_message c mld id args).tx.hdr = mld.tx.hdr ∧
    (∀ i, (tx_iosm_message c mld id args).tx.elements i = mld.tx.elements i) ∧
    (tx_iosm_message c mld id args).tid = mld.tid ∧
    irq_count (tx_iosm_message c mld id args).trace = irq_count mld.trace := by
  by_cases hg : tx_not_ready c mld = true
  · rw [tx_iosm_message_of_not_ready c mld id args hg]
    exact ⟨rfl, fun _ => rfl, rfl, rfl⟩
  · have hs : check_ul_space c c.IOSM_NUM_ELEMENTS mld.tx.hdr.w_idx mld.tx.hdr.r_idx ≤ 0 := by
      rcases hdrop with ⟨hb, ho⟩ | h
      · exact absurd (by simp [tx_not_ready, hb, ho]) hg
      · exact h
    rw [tx_iosm_message_of_no_space c mld id args (by simpa using hg) hs]
    refine ⟨rfl, fun _ => rfl, rfl, ?_⟩
    have h0 := irq_count_check_ul_space_log c c.IOSM_NUM_ELEMENTS mld.tx.hdr.w_idx
      mld.tx.hdr.r_idx
    unfold irq_count at h0 ⊢
    simp only [List.count_append, h0, add_zero]

/-- C10, at a concrete input: with capacity 8 and threshold 16 a send on a
full ring (write index 7, read index 0) with the modem online changes neither
the header nor the counter and raises no notification. -/
theorem tx_iosm_message_dropped_witness :
    check_ul_space (sample_config 8 16) 8 7 0 ≤ 0 ∧
    ((tx_iosm_message (sample_config 8 16) { mld_at 7 0 with cp_online := true } 0
        tx_args.null).tx.hdr = ⟨7, 0⟩ ∧
      (∀ i, (tx_iosm_message (sample_config 8 16) { mld_at 7 0 with cp_online := true } 0
        tx_args.null).tx.elements i = iosm_msg.zero) ∧
      (tx_iosm_message (sample_config 8 16) { mld_at 7 0 with cp_online := true } 0
        tx_args.null).tid = tid_init ∧
      irq_count (tx_iosm_message (sample_config 8 16) { mld_at 7 0 with cp_online := true } 0
        tx_args.null).trace = 0) :=
  ⟨by decide,
    tx_iosm_message_dropped (sample_config 8 16) { mld_at 7 0 with cp_online := true } 0
      tx_args.null (Or.inr (by decide))⟩

/-! ## Encoder and ring: further lemmas -/

theorem case_labels_ne (c : iosm_config) (hl : c.case_labels_distinct) :
    c.IOSM_A2C_AP_READY ≠ c.IOSM_A2C_CONF_CH_REQ ∧
    c.IOSM_A2C_AP_READY ≠ c.IOSM_A2C_OPEN_CH ∧
    c.IOSM_A2C_AP_READY ≠ c.IOSM_A2C_CLOSE_CH ∧
    c.IOSM_A2C_AP_READY ≠ c.IOSM_A2C_PIN_INIT_DONE ∧
    c.IOSM_A2C_AP_READY ≠ c.IOSM_A2C_INIT_END ∧
    c.IOSM_A2C_CONF_CH_REQ ≠ c.IOSM_A2C_OPEN_CH ∧
    c.IOSM_A2C_CONF_CH_REQ ≠ c.IOSM_A2C_CLOSE_CH ∧
    c.IOSM_A2C_CONF_CH_REQ ≠ c.IOSM_A2C_PIN_INIT_DONE ∧
    c.IOSM_A2C_CONF_CH_REQ ≠ c.IOSM_A2C_INIT_END ∧
    c.IOSM_A2C_OPEN_CH ≠ c.IOSM_A2C_PIN_INIT_DONE ∧
    c.IOSM_A2C_OPEN_CH ≠ c.IOSM_A2C_INIT_END ∧
    c.IOSM_A2C_CLOSE_CH ≠ c.IOSM_A2C_PIN_INIT_DONE ∧
    c.IOSM_A2C_CLOSE_CH ≠ c.IOSM_A2C_INIT_END ∧
    c.IOSM_A2C_PIN_INIT_DONE ≠ c.IOSM_A2C_INIT_END := by
  simp only [iosm_config.case_labels_distinct, iosm_config.case_labels, List.nodup_cons,
    List.mem_cons, List.mem_singleton, not_or, List.not_mem_nil, not_false_eq_true,
    List.nodup_nil, and_true] at hl
  obtain ⟨⟨h12, h13, h14, h15, h16, -, -⟩, ⟨h23, h24, h25, h26, -, -⟩, ⟨-, h35, h36, -, -⟩,
    ⟨h45, h46, -, -⟩, ⟨h56, -, -⟩, -, -⟩ := hl
  exact ⟨h12, h13, h14, h15, h16, h23, h24, h25, h26, h35, h36, h45, h46, h56⟩

theorem create_iosm_message_of_unknown (c : iosm_config) (slot : iosm_msg) (k : Nat)
    (args : tx_args) (tid : Int) (hk : k ∉ c.case_labels) :
    create_iosm_message c slot k args tid =
      set_fresh_trs_id { slot with msg_id := k } tid [event.tx_not_supported k] := by
  simp only [iosm_config.case_labels, List.mem_cons, List.mem_singleton, not_or,
    List.not_mem_nil, not_false_eq_true, and_true] at hk
  obtain ⟨h1, h2, h3, h4, h5, h6, h7, h8⟩ := hk
  simp [create_iosm_message, h1, h2, h3, h4, h5, h6, h7, h8]

theorem circ_get_usage_eq (qsize in_ out : Nat) (hi : in_ < qsize) (ho : out < qsize) :
    circ_get_usage qsize in_ out = if out ≤ in_ then in_ - out else qsize + in_ - out := by
  split_ifs with h
  · exact circ_get_usage_of_le qsize in_ out hi h
  · unfold circ_get_usage
    have h1 : ((in_ : Int) - (out : Int)) % (qsize : Int) =
        ((in_ : Int) - (out : Int) + (qsize : Int)) % (qsize : Int) := by
      rw [Int.add_emod_self]
    have h2 : ((in_ : Int) - (out : Int) + (qsize : Int)) % (qsize : Int) =
        (in_ : Int) - (out : Int) + (qsize : Int) :=
      Int.emod_eq_of_lt (by omega) (by omega)
    omega

theorem circ_new_ptr_one (qsize p : Nat) (hp : p < qsize) :
    circ_new_ptr qsize p 1 = if p + 1 < qsize then p + 1 else 0 := by
  unfold circ_new_ptr
  split_ifs with h
  · exact Nat.mod_eq_of_lt h
  · have : p + 1 = qsize := by omega
    rw [this, Nat.mod_self]

theorem circ_get_usage_advance (qsize in_ out : Nat) (hi : in_ < qsize) (ho : out < qsize)
    (hu : circ_get_usage qsize in_ out + 1 < qsize) :
    circ_get_usage qsize (circ_new_ptr qsize in_ 1) out = circ_get_usage qsize in_ out + 1 := by
  have hn : circ_new_ptr qsize in_ 1 < qsize := Nat.mod_lt _ (by omega)
  rw [circ_get_usage_eq qsize in_ out hi ho] at hu ⊢
  rw [circ_get_usage_eq qsize _ out hn ho, circ_new_ptr_one qsize in_ hi]
  split_ifs at hu ⊢ <;> omega

theorem add_mod_ne_of_lt_usage (qsize in_ out i : Nat) (hi : in_ < qsize) (ho : out < qsize)
    (h : i < circ_get_usage qsize in_ out) : (out + i) % qsize ≠ in_ := by
  rw [circ_get_usage_eq qsize in_ out hi ho] at h
  have h2 : (out ≤ in_ ∧ i < in_ - out) ∨ (in_ < out ∧ i < qsize + in_ - out) := by
    split_ifs at h <;> omega
  by_cases hlt : out + i < qsize
  · rw [Nat.mod_eq_of_lt hlt]
    omega
  · rw [Nat.mod_eq_sub_mod (by omega), Nat.mod_eq_of_lt (by omega)]
    omega

theorem tx_iosm_message_shape (c : iosm_config) (mld : mem_link_device) (id : Nat)
    (args : tx_args) :
    tx_iosm_message c mld id args =
      { mld with
        tid := (tx_iosm_message c mld id args).tid,
        tx := (tx_iosm_message c mld id args).tx,
        trace := (tx_iosm_message c mld id args).trace } := by
  unfold tx_iosm_message
  by_cases h1 : tx_not_ready c mld = true
  · simp [h1]
  · by_cases h2 : check_ul_space c c.IOSM_NUM_ELEMENTS mld.tx.hdr.w_idx mld.tx.hdr.r_idx ≤ 0
    · simp [h1, h2]
    · cases h3 : mld.cp_online <;> cases h4 : mld.permit_cp_sleep <;>
        rcases h5 : mld.forbid_cp_sleep_wait with _ | _ | _ <;> simp [h1, h2, h3, h4, h5]

/-! ## Claims on the encoder: fresh transaction ids -/

/-- C15: for each of the kinds ApReady, ConfigChannelRequest, OpenChannel,
CloseChannel, PinInitDone and InitEnd, `create_iosm_message` writes the kind as
the kind tag, stores the id returned by one call of `get_transaction_id` as the
transaction id and leaves the counter as that one call leaves it;
ConfigChannelRequest carries the supplied channel id with config 1, OpenChannel
and CloseChannel carry the supplied channel id with config 7, and ApReady
carries `IOSM_MSG_DESC_OFFSET`. -/
theorem create_iosm_message_fresh (c : iosm_config) (hl : c.case_labels_distinct)
    (slot : iosm_msg) (args : tx_args) (tid : Int) :
    (∀ k, k ∈ [c.IOSM_A2C_AP_READY, c.IOSM_A2C_CONF_CH_REQ, c.IOSM_A2C_OPEN_CH,
          c.IOSM_A2C_CLOSE_CH, c.IOSM_A2C_PIN_INIT_DONE, c.IOSM_A2C_INIT_END] →
      (create_iosm_message c slot k args tid).txmsg.msg_id = k ∧
      (create_iosm_message c slot k args tid).txmsg.trs_id =
        int_to_u8 (get_transaction_id tid).1 ∧
      (create_iosm_message c slot k args tid).tid = atomic_inc_return tid) ∧
    (create_iosm_message c slot c.IOSM_A2C_AP_READY args tid).txmsg.ap_ready_addr =
      c.IOSM_MSG_DESC_OFFSET ∧
    ((create_iosm_message c slot c.IOSM_A2C_CONF_CH_REQ args tid).txmsg.conf_ch_req_ch_id =
        args.as_u32 ∧
      (create_iosm_message c slot c.IOSM_A2C_CONF_CH_REQ args tid).txmsg.conf_ch_req_cfg = 1) ∧
    ((create_iosm_message c slot c.IOSM_A2C_OPEN_CH args tid).txmsg.close_ch_ch_id =
        args.as_u32 ∧
      (create_iosm_message c slot c.IOSM_A2C_OPEN_CH args tid).txmsg.close_ch_cfg = 7) ∧
    ((create_iosm_message c slot c.IOSM_A2C_CLOSE_CH args tid).txmsg.close_ch_ch_id =
        args.as_u32 ∧
      (create_iosm_message c slot c.IOSM_A2C_CLOSE_CH args tid).txmsg.close_ch_cfg = 7) := by
  obtain ⟨h12, h13, h14, h15, h16, h23, h24, h25, h26, h35, h36, h45, h46, h56⟩ :=
    case_labels_ne c hl
  refine ⟨?_, ?_, ?_, ?_, ?_⟩
  · intro k hk
    simp only [List.mem_cons, List.mem_singleton, List.not_mem_nil, or_false] at hk
    rcases hk with rfl | rfl | rfl | rfl | rfl | rfl <;>
      simp [create_iosm_message, set_fresh_trs_id, get_transaction_id, h12.symm, h13.symm,
        h14.symm, h15.symm, h16.symm, h23.symm, h24.symm, h25.symm, h26.symm, h35.symm,
        h36.symm, h45.symm, h46.symm, h56.symm]
  · simp [create_iosm_message, set_fresh_trs_id]
  · simp [create_iosm_message, set_fresh_trs_id, h12.symm]
  · simp [create_iosm_message, set_fresh_trs_id, h13.symm, h23.symm]
  · simp [create_iosm_message, set_fresh_trs_id, h14.symm, h24.symm]

/-- C15, at a concrete input: under `sample_config`, a ConfigChannelRequest for
channel 7 written into a zeroed slot with the counter at its initial value has
kind 34, transaction id 1, channel id 7 and config 1, and the counter becomes
0. -/
theorem create_iosm_message_fresh_witness :
    (sample_config 8 16).case_labels_distinct ∧
    (create_iosm_message (sample_config 8 16) iosm_msg.zero 34 (tx_args.of_u32 7)
        tid_init).txmsg =
      { iosm_msg.zero with msg_id := 34, trs_id := 1, conf_ch_req_ch_id := 7,
                           conf_ch_req_cfg := 1 } ∧
    (create_iosm_message (sample_config 8 16) iosm_msg.zero 34 (tx_args.of_u32 7)
        tid_init).tid = 0 ∧
    (create_iosm_message (sample_config 8 16) iosm_msg.zero 34 (tx_args.of_u32 7)
        tid_init).txmsg.conf_ch_req_cfg = 1 :=
  ⟨by decide, by decide, by decide,
    (create_iosm_message_fresh (sample_config 8 16) (by decide) iosm_msg.zero
      (tx_args.of_u32 7) tid_init).2.2.1.2⟩

/-- C18: for a kind `k` that is none of the eight case labels,
`create_iosm_message` changes only the kind tag, set to `k`, and the
transaction id, set to the id returned by one call of `get_transaction_id`;
every other field of the slot keeps its previous content and the unsupported
kind is logged.  A send of such a kind that passes the readiness gate and the
space check stores that slot at the old write index and advances the write
index by one modulo the capacity. -/
theorem create_iosm_message_unsupported (c : iosm_config) (mld : mem_link_device) (k : Nat)
    (args : tx_args) (hk : k ∉ c.case_labels) :
    (∀ (slot : iosm_msg) (tid : Int),
      (create_iosm_message c slot k args tid).txmsg =
        { slot with msg_id := k, trs_id := int_to_u8 (get_transaction_id tid).1 } ∧
      (create_iosm_message c slot k args tid).tid = atomic_inc_return tid ∧
      (create_iosm_message c slot k args tid).log = [event.tx_not_supported k]) ∧
    (tx_not_ready c mld = false →
      0 < check_ul_space c c.IOSM_NUM_ELEMENTS mld.tx.hdr.w_idx mld.tx.hdr.r_idx →
      (tx_iosm_message c mld k args).tx.elements mld.tx.hdr.w_idx =
        { mld.tx.elements mld.tx.hdr.w_idx with
          msg_id := k, trs_id := int_to_u8 (get_transaction_id mld.tid).1 } ∧
      (tx_iosm_message c mld k args).tx.hdr.w_idx =
        (mld.tx.hdr.w_idx + 1) % c.IOSM_NUM_ELEMENTS) := by
  have h1 : ∀ (slot : iosm_msg) (tid : Int),
      (create_iosm_message c slot k args tid).txmsg =
        { slot with msg_id := k, trs_id := int_to_u8 (get_transaction_id tid).1 } ∧
      (create_iosm_message c slot k args tid).tid = atomic_inc_return tid ∧
      (create_iosm_message c slot k args tid).log = [event.tx_not_supported k] := by
    intro slot tid
    rw [create_iosm_message_of_unknown c slot k args tid hk]
    exact ⟨rfl, rfl, rfl⟩
  refine ⟨h1, ?_⟩
  intro hg hs
  obtain ⟨hw, he, -⟩ := tx_iosm_message_of_space c mld k args hg hs
  refine ⟨?_, ?_⟩
  · rw [he, Function.update_same]
    exact (h1 _ _).1
  · rw [hw, circ_new_ptr]

/-- C18, at a concrete input: under `sample_config 8 16`, kind 99 is no case
label; sent from the device after bring-up it leaves in slot 0 a zeroed slot
with kind 99 and transaction id 1, and the write index becomes 1. -/
theorem create_iosm_message_unsupported_witness :
    (99 ∉ (sample_config 8 16).case_labels) ∧
    (tx_iosm_message (sample_config 8 16) mld_boot 99 tx_args.null).tx.elements 0 =
      { iosm_msg.zero with msg_id := 99, trs_id := 1 } ∧
    (tx_iosm_message (sample_config 8 16) mld_boot 99 tx_args.null).tx.hdr.w_idx = 1 :=
  ⟨by decide, by decide,
    ((create_iosm_message_unsupported (sample_config 8 16) mld_boot 99 tx_args.null
      (by decide)).2 (by decide) (by decide)).2⟩


/-! ## Claims on the space check and the ring invariant -/

/-- C19: for every capacity `N` a ring can have and every busy threshold,
`check_ul_space` does not return `-EBUSY` for one valid index pair and
`-ENOSPC` for another.  When `N - 1` exceeds the threshold no valid pair gives
`-ENOSPC` and every full ring (occupancy `N - 1`) gives `-EBUSY`; when `N - 1`
does not exceed the threshold no valid pair gives `-EBUSY`.  The capacity is
bounded by `N ≤ 4294967268`, which holds of every capacity below `2 ^ 31`: the
function is called with the compile-time constant `IOSM_NUM_ELEMENTS` only. -/
theorem check_ul_space_busy_nospc_exclusive (c : iosm_config) (N : Nat)
    (hN : N ≤ 4294967268) :
    (c.SBD_UL_LIMIT < N - 1 → ∀ w r, w < N → r < N →
      check_ul_space c N w r ≠ - ENOSPC ∧
      (circ_get_usage N w r = N - 1 → check_ul_space c N w r = - EBUSY)) ∧
    (N - 1 ≤ c.SBD_UL_LIMIT → ∀ w r, w < N → r < N → check_ul_space c N w r ≠ - EBUSY) ∧
    ¬ (∃ w r w2 r2, w < N ∧ r < N ∧ w2 < N ∧ r2 < N ∧
      check_ul_space c N w r = - EBUSY ∧ check_ul_space c N w2 r2 = - ENOSPC) := by
  have key : ∀ w r, w < N → r < N →
      (check_ul_space c N w r = - ENOSPC → N - 1 ≤ c.SBD_UL_LIMIT) ∧
      (check_ul_space c N w r = - EBUSY → c.SBD_UL_LIMIT < N - 1) := by
    intro w r hw hr
    have hv : circ_valid N w r = true := (circ_valid_iff _ _ _).2 ⟨hw, hr⟩
    have hu := circ_get_usage_lt N w r (by omega)
    have hsp : circ_get_space N w r = N - circ_get_usage N w r - 1 := rfl
    unfold check_ul_space
    simp only [hv, Bool.not_true, Bool.false_eq_true, if_false]
    unfold EBUSY ENOSPC u32_to_int
    constructor
    · intro h
      split_ifs at h <;> omega
    · intro h
      split_ifs at h <;> omega
  refine ⟨?_, ?_, ?_⟩
  · intro hl w r hw hr
    refine ⟨fun h => ?_, fun hfull => ?_⟩
    · have := (key w r hw hr).1 h
      omega
    · exact check_ul_space_of_busy c N w r hw hr (by omega)
  · intro hl w r hw hr h
    have := (key w r hw hr).2 h
    omega
  · rintro ⟨w, r, w2, r2, hw, hr, hw2, hr2, hb, hn⟩
    have h1 := (key w r hw hr).2 hb
    have h2 := (key w2 r2 hw2 hr2).1 hn
    omega

/-- C19, at a concrete input: with capacity 8 and threshold 4 the full ring
(7, 0) is reported busy and not as lacking space. -/
theorem check_ul_space_busy_nospc_exclusive_witness :
    8 ≤ 4294967268 ∧ (sample_config 8 4).SBD_UL_LIMIT < 8 - 1 ∧
    (check_ul_space (sample_config 8 4) 8 7 0 ≠ - ENOSPC ∧
      (circ_get_usage 8 7 0 = 8 - 1 → check_ul_space (sample_config 8 4) 8 7 0 = - EBUSY)) :=
  ⟨by decide, by decide,
    (check_ul_space_busy_nospc_exclusive (sample_config 8 4) 8 (by decide)).1 (by decide) 7 0
      (by decide) (by decide)⟩

/-- C20: for every TX state with both indices below the capacity, after any
send both indices are still below the capacity; a send that passes the
readiness gate and the space check raises the occupancy by exactly one, to at
most `N - 1`, leaves the write index different from the read index, and leaves
every slot the peer has not read yet (the slots `r, r + 1, ...` up to the old
occupancy, modulo `N`) with its content. -/
theorem tx_iosm_message_ring_invariant (c : iosm_config) (mld : mem_link_device) (id : Nat)
    (args : tx_args) (hw : mld.tx.hdr.w_idx < c.IOSM_NUM_ELEMENTS)
    (hr : mld.tx.hdr.r_idx < c.IOSM_NUM_ELEMENTS) :
    ((tx_iosm_message c mld id args).tx.hdr.w_idx < c.IOSM_NUM_ELEMENTS ∧
      (tx_iosm_message c mld id args).tx.hdr.r_idx < c.IOSM_NUM_ELEMENTS) ∧
    (tx_not_ready c mld = false →
      0 < check_ul_space c c.IOSM_NUM_ELEMENTS mld.tx.hdr.w_idx mld.tx.hdr.r_idx →
      circ_get_usage c.IOSM_NUM_ELEMENTS (tx_iosm_message c mld id args).tx.hdr.w_idx
          (tx_iosm_message c mld id args).tx.hdr.r_idx =
        circ_get_usage c.IOSM_NUM_ELEMENTS mld.tx.hdr.w_idx mld.tx.hdr.r_idx + 1 ∧
      circ_get_usage c.IOSM_NUM_ELEMENTS (tx_iosm_message c mld id args).tx.hdr.w_idx
          (tx_iosm_message c mld id args).tx.hdr.r_idx ≤ c.IOSM_NUM_ELEMENTS - 1 ∧
      (tx_iosm_message c mld id args).tx.hdr.w_idx ≠
        (tx_iosm_message c mld id args).tx.hdr.r_idx ∧
      (∀ i, i < circ_get_usage c.IOSM_NUM_ELEMENTS mld.tx.hdr.w_idx mld.tx.hdr.r_idx →
        (tx_iosm_message c mld id args).tx.elements
            ((mld.tx.hdr.r_idx + i) % c.IOSM_NUM_ELEMENTS) =
          mld.tx.elements ((mld.tx.hdr.r_idx + i) % c.IOSM_NUM_ELEMENTS))) := by
  have hr2 := (tx_iosm_message_frame c mld id args).2.2.2.2
  have hsucc : tx_not_ready c mld = false →
      0 < check_ul_space c c.IOSM_NUM_ELEMENTS mld.tx.hdr.w_idx mld.tx.hdr.r_idx →
      (tx_iosm_message c mld id args).tx.hdr.w_idx =
        circ_new_ptr c.IOSM_NUM_ELEMENTS mld.tx.hdr.w_idx 1 ∧
      (tx_iosm_message c mld id args).tx.elements =
        Function.update mld.tx.elements mld.tx.hdr.w_idx
          (create_iosm_message c (mld.tx.elements mld.tx.hdr.w_idx) id args mld.tid).txmsg :=
    fun hg hs => ⟨(tx_iosm_message_of_space c mld id args hg hs).1,
      (tx_iosm_message_of_space c mld id args hg hs).2.1⟩
  refine ⟨⟨?_, by rw [hr2]; exact hr⟩, ?_⟩
  · by_cases hg : tx_not_ready c mld = true
    · rw [tx_iosm_message_of_not_ready c mld id args hg]
      exact hw
    · by_cases hs : check_ul_space c c.IOSM_NUM_ELEMENTS mld.tx.hdr.w_idx mld.tx.hdr.r_idx ≤ 0
      · rw [tx_iosm_message_of_no_space c mld id args (by simpa using hg) hs]
        exact hw
      · rw [(hsucc (by simpa using hg) (by omega)).1]
        exact Nat.mod_lt _ (by omega)
  · intro hg hs
    obtain ⟨h1, h2⟩ := hsucc hg hs
    obtain ⟨-, -, -, hsp⟩ := check_ul_space_pos c _ _ _ hs
    have hu : circ_get_usage c.IOSM_NUM_ELEMENTS mld.tx.hdr.w_idx mld.tx.hdr.r_idx + 1 <
        c.IOSM_NUM_ELEMENTS := by
      unfold circ_get_space at hsp
      omega
    have hadv := circ_get_usage_advance c.IOSM_NUM_ELEMENTS _ _ hw hr hu
    rw [h1, hr2, hadv]
    refine ⟨rfl, by omega, ?_, ?_⟩
    · intro heq
      rw [heq, circ_get_usage_of_le _ _ _ hr (le_refl _)] at hadv
      omega
    · intro i hi
      rw [h2, Function.update_noteq (add_mod_ne_of_lt_usage _ _ _ i hw hr hi)]

/-- C20, at a concrete input: capacity 8, threshold 16, write index 7, read
index 3 with the slots 3 to 6 unread.  After a send both indices are below 8
and the occupancy has grown from 4 to 5. -/
theorem tx_iosm_message_ring_invariant_witness :
    ((mld_at 7 3).tx.hdr.w_idx < (sample_config 8 16).IOSM_NUM_ELEMENTS ∧
      (mld_at 7 3).tx.hdr.r_idx < (sample_config 8 16).IOSM_NUM_ELEMENTS) ∧
    circ_get_usage 8 7 3 = 4 ∧
    circ_get_usage 8
      (tx_iosm_message (sample_config 8 16) (mld_at 7 3) 0 tx_args.null).tx.hdr.w_idx
      (tx_iosm_message (sample_config 8 16) (mld_at 7 3) 0 tx_args.null).tx.hdr.r_idx = 5 ∧
    ((tx_iosm_message (sample_config 8 16) (mld_at 7 3) 0 tx_args.null).tx.hdr.w_idx <
        (sample_config 8 16).IOSM_NUM_ELEMENTS ∧
      (tx_iosm_message (sample_config 8 16) (mld_at 7 3) 0 tx_args.null).tx.hdr.r_idx <
        (sample_config 8 16).IOSM_NUM_ELEMENTS) :=
  ⟨by decide, by decide, by decide,
    (tx_iosm_message_ring_invariant (sample_config 8 16) (mld_at 7 3) 0 tx_args.null
      (by decide) (by decide)).1⟩


/-! ## Receive dispatcher: lemmas -/

theorem tx_iosm_message_rx (c : iosm_config) (mld : mem_link_device) (id : Nat)
    (args : tx_args) : (tx_iosm_message c mld id args).rx = mld.rx := by
  have h := congrArg mem_link_device.rx (tx_iosm_message_shape c mld id args)
  exact h

theorem iodevs_for_each_rx (c : iosm_config) (iods : List io_device) :
    ∀ mld : mem_link_device, (iodevs_for_each c iods mld).rx = mld.rx := by
  induction iods with
  | nil => intro mld; rfl
  | cons d ds ih =>
    intro mld
    have h := ih (action c mld d)
    unfold iodevs_for_each at h ⊢
    rw [List.foldl_cons, h, action, tx_iosm_message_rx]

theorem mdm_ready_handler_rx (c : iosm_config) (mld : mem_link_device) (msg : iosm_msg) :
    (mdm_ready_handler c mld msg).rx = mld.rx := by
  unfold mdm_ready_handler
  simp only [mem_link_device.emit]
  split_ifs <;> simp [tx_iosm_message_rx, apply_ite mem_link_device.rx]

theorem conf_ch_rsp_handler_rx (c : iosm_config) (mld : mem_link_device) (msg : iosm_msg) :
    (conf_ch_rsp_handler c mld msg).rx = mld.rx := by
  simp [conf_ch_rsp_handler, mem_link_device.emit, tx_iosm_message_rx]

theorem stop_tx_ch_handler_rx (c : iosm_config) (mld : mem_link_device) (msg : iosm_msg) :
    (stop_tx_ch_handler c mld msg).rx = mld.rx := by
  unfold stop_tx_ch_handler
  simp only [mem_link_device.emit]
  split_ifs <;> simp [tx_iosm_message_rx]

theorem start_tx_ch_handler_rx (c : iosm_config) (mld : mem_link_device) (msg : iosm_msg) :
    (start_tx_ch_handler c mld msg).rx = mld.rx := by
  unfold start_tx_ch_handler
  simp only [mem_link_device.emit]
  split_ifs <;> simp [tx_iosm_message_rx]

theorem ack_handler_rx (c : iosm_config) (mld : mem_link_device) (msg : iosm_msg) :
    (ack_handler c mld msg).rx = mld.rx := by
  unfold ack_handler
  simp only [mem_link_device.emit]
  split_ifs <;> simp [iodevs_for_each_rx]

theorem nack_handler_rx (c : iosm_config) (mld : mem_link_device) (msg : iosm_msg) :
    (nack_handler c mld msg).rx = mld.rx := rfl

theorem init_start_handler_rx (c : iosm_config) (mld : mem_link_device) (msg : iosm_msg) :
    (init_start_handler c mld msg).rx = mld.rx := by
  unfold init_start_handler
  simp only [mem_link_device.emit]
  split_ifs <;> simp [tx_iosm_message_rx]

theorem phone_start_handler_rx (c : iosm_config) (mld : mem_link_device) (msg : iosm_msg) :
    (phone_start_handler c mld msg).rx = mld.rx := by
  unfold phone_start_handler
  simp only [mem_link_device.emit]
  split_ifs <;> simp [tx_iosm_message_rx, apply_ite mem_link_device.rx]

theorem iosm_handler_rx (c : iosm_config)
    (e : Nat × (iosm_config → mem_link_device → iosm_msg → mem_link_device))
    (he : e ∈ iosm_handler c) (mld : mem_link_device) (msg : iosm_msg) :
    (e.2 c mld msg).rx = mld.rx := by
  simp only [iosm_handler, List.mem_cons, List.mem_singleton, List.not_mem_nil, or_false] at he
  rcases he with rfl | rfl | rfl | rfl | rfl | rfl | rfl | rfl
  · exact mdm_ready_handler_rx c mld msg
  · exact conf_ch_rsp_handler_rx c mld msg
  · exact stop_tx_ch_handler_rx c mld msg
  · exact start_tx_ch_handler_rx c mld msg
  · exact ack_handler_rx c mld msg
  · exact nack_handler_rx c mld msg
  · exact init_start_handler_rx c mld msg
  · exact phone_start_handler_rx c mld msg

theorem iosm_dispatch_rx (c : iosm_config) (mld : mem_link_device) (msg : iosm_msg) :
    (iosm_dispatch c mld msg).rx = mld.rx := by
  unfold iosm_dispatch
  split
  · next e he =>
    rw [iosm_handler_rx c e (List.mem_of_find?_eq_some he)]
    rfl
  · rfl

theorem iosm_dispatch_of_unknown (c : iosm_config) (mld : mem_link_device) (msg : iosm_msg)
    (h : msg.msg_id ∉ iosm_handler_cmds c) :
    iosm_dispatch c mld msg = mld.emit [event.rx_not_supported msg.msg_id] := by
  have hf : (iosm_handler c).find? (fun e => e.1 == msg.msg_id) = none := by
    rw [List.find?_eq_none]
    intro e he hbeq
    apply h
    simp only [iosm_handler_cmds, List.mem_map]
    exact ⟨e, he, by simpa using hbeq⟩
  unfold iosm_dispatch
  rw [hf]

theorem iosm_event_step_rx (c : iosm_config) (mld : mem_link_device) :
    (iosm_event_step c mld).rx.elements = mld.rx.elements ∧
    (iosm_event_step c mld).rx.hdr.w_idx = mld.rx.hdr.w_idx ∧
    (iosm_event_step c mld).rx.hdr.r_idx =
      (mld.rx.hdr.r_idx + 1) % c.IOSM_NUM_ELEMENTS := by
  simp [iosm_event_step, rx_advance, iosm_dispatch_rx, circ_new_ptr]

theorem iosm_event_loop_eq (c : iosm_config) (n : Nat) :
    ∀ mld : mem_link_device, mld.rx.hdr.r_idx < c.IOSM_NUM_ELEMENTS →
      iosm_event_loop c n mld =
        iosm_dispatch_all c
          ((List.range n).map
            (fun i => mld.rx.elements ((mld.rx.hdr.r_idx + i) % c.IOSM_NUM_ELEMENTS))) mld := by
  induction n with
  | zero => intro mld _; rfl
  | succ n ih =>
    intro mld hr
    obtain ⟨he, -, hi⟩ := iosm_event_step_rx c mld
    have hlt : (iosm_event_step c mld).rx.hdr.r_idx < c.IOSM_NUM_ELEMENTS := by
      rw [hi]
      exact Nat.mod_lt _ (by omega)
    rw [iosm_event_loop, ih _ hlt, List.range_succ_eq_map, List.map_cons, List.map_map]
    unfold iosm_dispatch_all
    have h0 : (mld.rx.hdr.r_idx + 0) % c.IOSM_NUM_ELEMENTS = mld.rx.hdr.r_idx := by
      rw [Nat.add_zero, Nat.mod_eq_of_lt hr]
    rw [List.foldl_cons, he, hi, h0]
    have hfun : (fun i => mld.rx.elements
          (((mld.rx.hdr.r_idx + 1) % c.IOSM_NUM_ELEMENTS + i) % c.IOSM_NUM_ELEMENTS)) =
        ((fun i => mld.rx.elements ((mld.rx.hdr.r_idx + i) % c.IOSM_NUM_ELEMENTS)) ∘
          Nat.succ) := by
      funext i
      simp only [Function.comp, Nat.succ_eq_add_one]
      congr 1
      rw [Nat.add_mod, Nat.mod_mod, ← Nat.add_mod]
      congr 1
      omega
    rw [hfun]
    rfl

theorem iosm_event_loop_r_idx (c : iosm_config) (n : Nat) :
    ∀ mld : mem_link_device, mld.rx.hdr.r_idx < c.IOSM_NUM_ELEMENTS →
      (iosm_event_loop c n mld).rx.hdr.r_idx = (mld.rx.hdr.r_idx + n) % c.IOSM_NUM_ELEMENTS ∧
      (iosm_event_loop c n mld).rx.hdr.w_idx = mld.rx.hdr.w_idx ∧
      (iosm_event_loop c n mld).rx.elements = mld.rx.elements := by
  induction n with
  | zero =>
    intro mld hr
    exact ⟨(Nat.mod_eq_of_lt hr).symm, rfl, rfl⟩
  | succ n ih =>
    intro mld hr
    obtain ⟨he, hw, hi⟩ := iosm_event_step_rx c mld
    have hlt : (iosm_event_step c mld).rx.hdr.r_idx < c.IOSM_NUM_ELEMENTS := by
      rw [hi]
      exact Nat.mod_lt _ (by omega)
    obtain ⟨h1, h2, h3⟩ := ih _ hlt
    rw [iosm_event_loop, h1, h2, h3, hi, hw, he]
    refine ⟨?_, rfl, rfl⟩
    rw [Nat.add_mod, Nat.mod_mod, ← Nat.add_mod]
    congr 1
    omega

theorem add_usage_mod (qsize in_ out : Nat) (hi : in_ < qsize) (ho : out < qsize) :
    (out + circ_get_usage qsize in_ out) % qsize = in_ := by
  rw [circ_get_usage_eq qsize in_ out hi ho]
  split_ifs with h
  · rw [Nat.add_sub_cancel' h, Nat.mod_eq_of_lt hi]
  · have : out + (qsize + in_ - out) = in_ + qsize := by omega
    rw [this, Nat.add_mod_right, Nat.mod_eq_of_lt hi]

/-! ## Claims on the receive dispatcher -/

/-- C12: a message whose kind is no command of the handler table runs no
handler: dispatching it only appends one `rx_not_supported` line to the trace,
so the TX area and the counter are untouched and the count of such lines grows
by exactly one; the loop then goes on with the next slot. -/
theorem iosm_dispatch_unsupported (c : iosm_config) (mld : mem_link_device) (msg : iosm_msg)
    (h : msg.msg_id ∉ iosm_handler_cmds c) :
    iosm_dispatch c mld msg = mld.emit [event.rx_not_supported msg.msg_id] ∧
    (iosm_dispatch c mld msg).tx = mld.tx ∧
    (iosm_dispatch c mld msg).tid = mld.tid ∧
    rx_not_supported_count (iosm_dispatch c mld msg).trace =
      rx_not_supported_count mld.trace + 1 ∧
    (∀ rest : List iosm_msg,
      iosm_dispatch_all c (msg :: rest) mld =
        iosm_dispatch_all c rest
          (rx_advance c (mld.emit [event.rx_not_supported msg.msg_id]))) ∧
    (∀ n : Nat, mld.rx.elements mld.rx.hdr.r_idx = msg →
      iosm_event_loop c (n + 1) mld =
        iosm_event_loop c n
          (rx_advance c (mld.emit [event.rx_not_supported msg.msg_id]))) := by
  have hd := iosm_dispatch_of_unknown c mld msg h
  refine ⟨hd, ?_, ?_, ?_, ?_, ?_⟩
  · rw [hd]; rfl
  · rw [hd]; rfl
  · rw [hd]
    simp [rx_not_supported_count, mem_link_device.emit, List.filter_append]
  · intro rest
    unfold iosm_dispatch_all
    rw [List.foldl_cons, hd]
  · intro n hm
    rw [iosm_event_loop, iosm_event_step, hm, hd]

set_option maxRecDepth 8192 in
/-- C12, at a concrete input: draining the batch
`[InitStart, kind 0xFF, ConfigChannelResponse (channel 2)]` on a ready link
with SBD enabled moves the read index from 0 to 3, leaves PinInitDone in TX
slot 0 and the Ack for the response in TX slot 1 with the write index at 2,
raises two notifications, and records exactly one unsupported-kind line. -/
theorem iosm_dispatch_unsupported_witness :
    (255 ∉ iosm_handler_cmds (sample_config 8 16)) ∧
    (rx_batch_slots 1).msg_id = 255 ∧
    (iosm_event_work (sample_config 8 16) mld_rx_batch).rx.hdr.r_idx = 3 ∧
    (iosm_event_work (sample_config 8 16) mld_rx_batch).tx.hdr.w_idx = 2 ∧
    (iosm_event_work (sample_config 8 16) mld_rx_batch).tx.elements 0 =
      { iosm_msg.zero with msg_id := 210, trs_id := 1 } ∧
    (iosm_event_work (sample_config 8 16) mld_rx_batch).tx.elements 1 =
      { iosm_msg.zero with msg_id := 224, trs_id := 9, ack_msg_id := 163, ack_ch_id := 2 } ∧
    irq_count (iosm_event_work (sample_config 8 16) mld_rx_batch).trace = 2 ∧
    rx_not_supported_count (iosm_event_work (sample_config 8 16) mld_rx_batch).trace = 1 ∧
    rx_not_supported_count
      (iosm_dispatch (sample_config 8 16) mld_rx_batch (rx_batch_slots 1)).trace =
        rx_not_supported_count mld_rx_batch.trace + 1 :=
  ⟨by decide, by decide, by decide, by decide, by decide, by decide, by decide, by decide,
    (iosm_dispatch_unsupported (sample_config 8 16) mld_rx_batch (rx_batch_slots 1)
      (by decide)).2.2.2.1⟩

/-! ## Handlers: lemmas -/

theorem create_iosm_message_msg_id (c : iosm_config) (slot : iosm_msg) (k : Nat)
    (args : tx_args) (tid : Int) : (create_iosm_message c slot k args tid).txmsg.msg_id = k := by
  unfold create_iosm_message
  dsimp only
  split_ifs <;> rfl

theorem create_iosm_message_log (c : iosm_config) (slot : iosm_msg) (k : Nat)
    (args : tx_args) (tid : Int) :
    (create_iosm_message c slot k args tid).log = [] ∨
      (create_iosm_message c slot k args tid).log = [event.tx_not_supported k] := by
  unfold create_iosm_message
  split_ifs <;> simp [set_fresh_trs_id]

theorem tx_iosm_message_no_reset (c : iosm_config) (mld : mem_link_device) (id : Nat)
    (args : tx_args) :
    (tx_iosm_message c mld id args).trace.count event.mem_reset_ipc_link =
      mld.trace.count event.mem_reset_ipc_link := by
  have hlog : (create_iosm_message c (mld.tx.elements mld.tx.hdr.w_idx) id args mld.tid).log.count
      event.mem_reset_ipc_link = 0 := by
    rcases create_iosm_message_log c (mld.tx.elements mld.tx.hdr.w_idx) id args mld.tid with
      h | h <;> rw [h] <;> simp
  have hchk : (check_ul_space_log c c.IOSM_NUM_ELEMENTS mld.tx.hdr.w_idx
      mld.tx.hdr.r_idx).count event.mem_reset_ipc_link = 0 := by
    unfold check_ul_space_log
    split_ifs <;> simp
  unfold tx_iosm_message
  by_cases h1 : tx_not_ready c mld = true
  · simp [h1]
  · by_cases h2 : check_ul_space c c.IOSM_NUM_ELEMENTS mld.tx.hdr.w_idx mld.tx.hdr.r_idx ≤ 0
    · simp [h1, h2, List.count_append, hchk]
    · cases h3 : mld.cp_online <;> cases h4 : mld.permit_cp_sleep <;>
        rcases h5 : mld.forbid_cp_sleep_wait with _ | _ | _ <;>
        simp [h1, h2, h3, h4, h5, List.count_append, hlog]

theorem tx_iosm_message_state (c : iosm_config) (mld : mem_link_device) (id : Nat)
    (args : tx_args) :
    (tx_iosm_message c mld id args).state = mld.state ∧
    (tx_iosm_message c mld id args).mdm_ready = mld.mdm_ready ∧
    (tx_iosm_message c mld id args).netif_stop_mask = mld.netif_stop_mask ∧
    (tx_iosm_message c mld id args).netif_stopped = mld.netif_stopped ∧
    (tx_iosm_message c mld id args).forced_cp_crash = mld.forced_cp_crash ∧
    (tx_iosm_message c mld id args).iodevs = mld.iodevs ∧
    (tx_iosm_message c mld id args).init_sbd_link_ret = mld.init_sbd_link_ret ∧
    (tx_iosm_message c mld id args).attr_ipc_aligned = mld.attr_ipc_aligned := by
  have h := tx_iosm_message_shape c mld id args
  have h1 := congrArg mem_link_device.state h
  have h2 := congrArg mem_link_device.mdm_ready h
  have h3 := congrArg mem_link_device.netif_stop_mask h
  have h4 := congrArg mem_link_device.netif_stopped h
  have h5 := congrArg mem_link_device.forced_cp_crash h
  have h6 := congrArg mem_link_device.iodevs h
  have h7 := congrArg mem_link_device.init_sbd_link_ret h
  have h8 := congrArg mem_link_device.attr_ipc_aligned h
  exact ⟨h1, h2, h3, h4, h5, h6, h7, h8⟩

theorem check_ul_space_pos_of_usage (c : iosm_config) (qlen in_ out : Nat) (hi : in_ < qlen)
    (ho : out < qlen) (hL : circ_get_usage qlen in_ out ≤ c.SBD_UL_LIMIT)
    (hS : circ_get_usage qlen in_ out + 1 < qlen) (hq : qlen ≤ 2147483648) :
    0 < check_ul_space c qlen in_ out := by
  have hsp : circ_get_space qlen in_ out = qlen - circ_get_usage qlen in_ out - 1 := rfl
  rw [check_ul_space_of_space c qlen in_ out hi ho hL (by omega)]
  unfold u32_to_int
  rw [if_pos (by omega)]
  omega

theorem rild_ready_iff (c : iosm_config) (mld : mem_link_device) :
    rild_ready c mld = true ↔
      ∃ fmt rfs, link_get_iod_with_channel mld c.SIPC5_CH_ID_FMT_0 = some fmt ∧
        link_get_iod_with_channel mld c.SIPC5_CH_ID_RFS_0 = some rfs ∧
        0 < fmt.opened ∧ 0 < rfs.opened := by
  unfold rild_ready
  constructor
  · intro h
    split at h
    · exact absurd h (by decide)
    · next fmt hf =>
      split at h
      · exact absurd h (by decide)
      · next rfs hr =>
        exact ⟨fmt, rfs, hf, hr, by simpa using h⟩
  · rintro ⟨fmt, rfs, hf, hr, h1, h2⟩
    rw [hf, hr]
    simp [h1, h2]

/-! ## Claims on the PhoneStart handler -/

/-- C13: when PhoneStart is handled with the link state already
`LINK_STATE_IPC` and the FMT and RFS devices both registered with a positive
open count, `phone_start_handler` is one call of `tx_iosm_message` for InitEnd
on a state that differs from the state on entry by diagnostics only; the link
state and `cp_boot_done` are as on entry and `mem_reset_ipc_link` is not
called.  When the link is ready and the space check passes, exactly the slot at
the old write index is written, with kind InitEnd, and the write index advances
by one modulo the capacity. -/
theorem phone_start_handler_online (c : iosm_config) (mld : mem_link_device) (msg : iosm_msg)
    (fmt rfs : io_device) (hst : mld.state = c.LINK_STATE_IPC)
    (hf : link_get_iod_with_channel mld c.SIPC5_CH_ID_FMT_0 = some fmt)
    (hr : link_get_iod_with_channel mld c.SIPC5_CH_ID_RFS_0 = some rfs)
    (hfo : 0 < fmt.opened) (hro : 0 < rfs.opened) :
    phone_start_handler c mld msg =
      tx_iosm_message c
        (mld.emit ([event.cp_start_entry] ++
          (if c.CONFIG_LINK_POWER_MANAGEMENT && mld.start_pm then [event.start_pm] else []) ++
          [event.iod_opened fmt.opened rfs.opened, event.init_end_sending]))
        c.IOSM_A2C_INIT_END tx_args.null ∧
    (phone_start_handler c mld msg).state = mld.state ∧
    (phone_start_handler c mld msg).cp_boot_done = mld.cp_boot_done ∧
    (phone_start_handler c mld msg).trace.count event.mem_reset_ipc_link =
      mld.trace.count event.mem_reset_ipc_link ∧
    (tx_not_ready c mld = false →
      0 < check_ul_space c c.IOSM_NUM_ELEMENTS mld.tx.hdr.w_idx mld.tx.hdr.r_idx →
      (phone_start_handler c mld msg).tx.hdr.w_idx =
        (mld.tx.hdr.w_idx + 1) % c.IOSM_NUM_ELEMENTS ∧
      ((phone_start_handler c mld msg).tx.elements mld.tx.hdr.w_idx).msg_id =
        c.IOSM_A2C_INIT_END ∧
      (∀ i, i ≠ mld.tx.hdr.w_idx →
        (phone_start_handler c mld msg).tx.elements i = mld.tx.elements i)) := by
  have hrr : rild_ready c mld = true := (rild_ready_iff c mld).2 ⟨fmt, rfs, hf, hr, hfo, hro⟩
  have hlog : rild_ready_log c mld = [event.iod_opened fmt.opened rfs.opened] := by
    unfold rild_ready_log
    rw [hf, hr]
  have heq : phone_start_handler c mld msg =
      tx_iosm_message c
        (mld.emit ([event.cp_start_entry] ++
          (if c.CONFIG_LINK_POWER_MANAGEMENT && mld.start_pm then [event.start_pm] else []) ++
          [event.iod_opened fmt.opened rfs.opened, event.init_end_sending]))
        c.IOSM_A2C_INIT_END tx_args.null := by
    unfold phone_start_handler
    by_cases hpm : (c.CONFIG_LINK_POWER_MANAGEMENT && mld.start_pm) = true
    · have e1 : rild_ready c ((mld.emit [event.cp_start_entry]).emit [event.start_pm]) = true :=
        hrr
      have e2 : rild_ready_log c ((mld.emit [event.cp_start_entry]).emit [event.start_pm]) =
          [event.iod_opened fmt.opened rfs.opened] := hlog
      have hpm2 : (c.CONFIG_LINK_POWER_MANAGEMENT &&
          (mld.emit [event.cp_start_entry]).start_pm) = true := hpm
      simp only [hpm2, hpm, if_true, e1, e2]
      have hs : ((mld.emit [event.cp_start_entry]).emit [event.start_pm]).state =
          c.LINK_STATE_IPC := hst
      rw [if_pos hs]
      simp [mem_link_device.emit, List.append_assoc]
    · have e1 : rild_ready c (mld.emit [event.cp_start_entry]) = true := hrr
      have e2 : rild_ready_log c (mld.emit [event.cp_start_entry]) =
          [event.iod_opened fmt.opened rfs.opened] := hlog
      have hpm2 : ¬ (c.CONFIG_LINK_POWER_MANAGEMENT &&
          (mld.emit [event.cp_start_entry]).start_pm) = true := hpm
      simp only [hpm2, hpm, Bool.false_eq_true, if_false, e1, e2]
      have hs : (mld.emit [event.cp_start_entry]).state = c.LINK_STATE_IPC := hst
      rw [if_pos hs]
      simp [mem_link_device.emit, List.append_assoc]
  refine ⟨heq, ?_, ?_, ?_, ?_⟩
  · rw [heq, (tx_iosm_message_state c _ _ _).1]
    rfl
  · rw [heq, (tx_iosm_message_frame c _ _ _).2.1]
    rfl
  · rw [heq, tx_iosm_message_no_reset]
    simp only [mem_link_device.emit, List.count_append]
    split_ifs <;> simp
  · intro hg hs
    rw [heq]
    obtain ⟨h1, h2, -⟩ := tx_iosm_message_of_space c
      (mld.emit ([event.cp_start_entry] ++
          (if c.CONFIG_LINK_POWER_MANAGEMENT && mld.start_pm then [event.start_pm] else []) ++
          [event.iod_opened fmt.opened rfs.opened, event.init_end_sending]))
      c.IOSM_A2C_INIT_END tx_args.null hg hs
    refine ⟨?_, ?_, ?_⟩
    · rw [h1]; rfl
    · rw [h2]
      show (Function.update mld.tx.elements mld.tx.hdr.w_idx _ mld.tx.hdr.w_idx).msg_id = _
      rw [Function.update_same, create_iosm_message_msg_id]
    · intro i hi
      rw [h2]
      show Function.update mld.tx.elements mld.tx.hdr.w_idx _ i = _
      rw [Function.update_noteq hi]

set_option maxRecDepth 8192 in
/-- C13, at a concrete input: under `sample_config 8 16`, on the online device
with link state 1 (`LINK_STATE_IPC`) and the FMT and RFS devices opened, the
handler leaves InitEnd (kind 212) in slot 0, moves the write index to 1, raises
one notification and keeps link state 1 and `cp_boot_done` 1. -/
theorem phone_start_handler_online_witness :
    ((mld_online 1).state = (sample_config 8 16).LINK_STATE_IPC ∧
      link_get_iod_with_channel (mld_online 1) 235 = some ⟨235, 1⟩ ∧
      link_get_iod_with_channel (mld_online 1) 245 = some ⟨245, 1⟩) ∧
    (phone_start_handler (sample_config 8 16) (mld_online 1) iosm_msg.zero).tx.hdr.w_idx = 1 ∧
    ((phone_start_handler (sample_config 8 16) (mld_online 1) iosm_msg.zero).tx.elements
      0).msg_id = 212 ∧
    irq_count (phone_start_handler (sample_config 8 16) (mld_online 1) iosm_msg.zero).trace
      = 1 ∧
    (phone_start_handler (sample_config 8 16) (mld_online 1) iosm_msg.zero).state = 1 ∧
    (phone_start_handler (sample_config 8 16) (mld_online 1) iosm_msg.zero).cp_boot_done = 1 :=
  ⟨by decide, by decide, by decide, by decide,
    (phone_start_handler_online (sample_config 8 16) (mld_online 1) iosm_msg.zero ⟨235, 1⟩
      ⟨245, 1⟩ rfl (by decide) (by decide) (by decide) (by decide)).2.1,
    (phone_start_handler_online (sample_config 8 16) (mld_online 1) iosm_msg.zero ⟨235, 1⟩
      ⟨245, 1⟩ rfl (by decide) (by decide) (by decide) (by decide)).2.2.1⟩

theorem emit_emit (mld : mem_link_device) (a b : List event) :
    (mld.emit a).emit b = mld.emit (a ++ b) := by
  simp [mem_link_device.emit, List.append_assoc]

theorem ite_emit (p : Prop) [Decidable p] (mld : mem_link_device) (a b : List event) :
    (if p then mld.emit a else mld.emit b) = mld.emit (if p then a else b) := by
  split_ifs <;> rfl

theorem phone_start_handler_eq (c : iosm_config) (mld : mem_link_device) (msg : iosm_msg) :
    phone_start_handler c mld msg =
      if mld.state = c.LINK_STATE_IPC then
        if rild_ready c mld then
          tx_iosm_message c
            (mld.emit ([event.cp_start_entry] ++
              (if (c.CONFIG_LINK_POWER_MANAGEMENT && mld.start_pm) = true then [event.start_pm]
                else []) ++
              (rild_ready_log c mld ++ [event.init_end_sending])))
            c.IOSM_A2C_INIT_END tx_args.null
        else
          mld.emit ([event.cp_start_entry] ++
            (if (c.CONFIG_LINK_POWER_MANAGEMENT && mld.start_pm) = true then [event.start_pm]
              else []) ++ rild_ready_log c mld)
      else if mld.mem_reset_ipc_link_ret ≠ 0 then
        mld.emit ([event.cp_start_entry] ++
          (if (c.CONFIG_LINK_POWER_MANAGEMENT && mld.start_pm) = true then [event.start_pm]
            else []) ++
          [event.mem_reset_ipc_link, event.mem_reset_ipc_link_fail mld.mem_reset_ipc_link_ret])
      else if rild_ready c mld then
        ({ tx_iosm_message c
            (mld.emit ([event.cp_start_entry] ++
              (if (c.CONFIG_LINK_POWER_MANAGEMENT && mld.start_pm) = true then [event.start_pm]
                else []) ++
              ([event.mem_reset_ipc_link] ++ rild_ready_log c mld ++ [event.init_end_sending])))
            c.IOSM_A2C_INIT_END tx_args.null with
          cp_boot_done := 1, state := c.LINK_STATE_IPC }).emit [event.complete_all_init_cmpl]
      else
        ({ mld.emit ([event.cp_start_entry] ++
            (if (c.CONFIG_LINK_POWER_MANAGEMENT && mld.start_pm) = true then [event.start_pm]
              else []) ++ ([event.mem_reset_ipc_link] ++ rild_ready_log c mld)) with
          state := c.LINK_STATE_IPC }).emit [event.complete_all_init_cmpl] := by
  unfold phone_start_handler
  have hsp : (mld.emit [event.cp_start_entry]).start_pm = mld.start_pm := rfl
  simp only [hsp, ite_emit, emit_emit]
  have hst : ∀ es, (mld.emit es).state = mld.state := fun _ => rfl
  have hret : ∀ es, (mld.emit es).mem_reset_ipc_link_ret = mld.mem_reset_ipc_link_ret :=
    fun _ => rfl
  have hrr : ∀ es, rild_ready c (mld.emit es) = rild_ready c mld := fun _ => rfl
  have hrl : ∀ es, rild_ready_log c (mld.emit es) = rild_ready_log c mld := fun _ => rfl
  simp only [hst, hret, hrr, hrl]
  split_ifs <;> simp [mem_link_device.emit, List.append_assoc]


/-- C16: when PhoneStart is handled with the link state different from
`LINK_STATE_IPC`: if `mem_reset_ipc_link` fails, the TX area, the counter, the
link state and `cp_boot_done` are as on entry; if it succeeds, the link state
becomes `LINK_STATE_IPC` and the handler ends by completing `init_cmpl`,
whether or not the devices are ready.  With both devices ready the handler
makes one send of InitEnd (which, the link being ready and the space check
passing, writes InitEnd at the old write index and advances it by one) and
sets `cp_boot_done` to 1; otherwise the TX area, the counter and `cp_boot_done`
are as on entry.  The devices are ready exactly when the FMT and the RFS device
are both registered with a positive open count. -/
theorem phone_start_handler_reset (c : iosm_config) (mld : mem_link_device) (msg : iosm_msg)
    (hst : mld.state ≠ c.LINK_STATE_IPC) :
    (mld.mem_reset_ipc_link_ret ≠ 0 →
      (phone_start_handler c mld msg).tx = mld.tx ∧
      (phone_start_handler c mld msg).tid = mld.tid ∧
      (phone_start_handler c mld msg).state = mld.state ∧
      (phone_start_handler c mld msg).cp_boot_done = mld.cp_boot_done) ∧
    (mld.mem_reset_ipc_link_ret = 0 →
      (phone_start_handler c mld msg).state = c.LINK_STATE_IPC ∧
      (phone_start_handler c mld msg).trace.getLast? = some event.complete_all_init_cmpl ∧
      (rild_ready c mld = true →
        (phone_start_handler c mld msg).cp_boot_done = 1 ∧
        (∃ es, (phone_start_handler c mld msg).tx =
            (tx_iosm_message c (mld.emit es) c.IOSM_A2C_INIT_END tx_args.null).tx ∧
          (phone_start_handler c mld msg).tid =
            (tx_iosm_message c (mld.emit es) c.IOSM_A2C_INIT_END tx_args.null).tid) ∧
        (tx_not_ready c mld = false →
          0 < check_ul_space c c.IOSM_NUM_ELEMENTS mld.tx.hdr.w_idx mld.tx.hdr.r_idx →
          (phone_start_handler c mld msg).tx.hdr.w_idx =
            (mld.tx.hdr.w_idx + 1) % c.IOSM_NUM_ELEMENTS ∧
          ((phone_start_handler c mld msg).tx.elements mld.tx.hdr.w_idx).msg_id =
            c.IOSM_A2C_INIT_END)) ∧
      (rild_ready c mld = false →
        (phone_start_handler c mld msg).cp_boot_done = mld.cp_boot_done ∧
        (phone_start_handler c mld msg).tx = mld.tx ∧
        (phone_start_handler c mld msg).tid = mld.tid)) ∧
    (rild_ready c mld = true ↔
      ∃ fmt rfs, link_get_iod_with_channel mld c.SIPC5_CH_ID_FMT_0 = some fmt ∧
        link_get_iod_with_channel mld c.SIPC5_CH_ID_RFS_0 = some rfs ∧
        0 < fmt.opened ∧ 0 < rfs.opened) := by
  refine ⟨?_, ?_, rild_ready_iff c mld⟩
  · intro hret
    rw [phone_start_handler_eq, if_neg hst, if_pos hret]
    exact ⟨rfl, rfl, rfl, rfl⟩
  · intro hret
    have hret2 : ¬ mld.mem_reset_ipc_link_ret ≠ 0 := by simp [hret]
    rw [phone_start_handler_eq, if_neg hst, if_neg hret2]
    refine ⟨?_, ?_, ?_, ?_⟩
    · split_ifs <;> rfl
    · have ht : ∀ m : mem_link_device,
          (m.emit [event.complete_all_init_cmpl]).trace.getLast? =
            some event.complete_all_init_cmpl := by
        intro m
        show (m.trace ++ [event.complete_all_init_cmpl]).getLast? = _
        rw [List.getLast?_concat]
      split_ifs <;> exact ht _
    · intro hrr
      rw [if_pos hrr]
      refine ⟨rfl, ⟨_, rfl, rfl⟩, ?_⟩
      intro hg hs
      obtain ⟨h1, h2, -⟩ := tx_iosm_message_of_space c
        (mld.emit ([event.cp_start_entry] ++
          (if (c.CONFIG_LINK_POWER_MANAGEMENT && mld.start_pm) = true then [event.start_pm]
            else []) ++
          ([event.mem_reset_ipc_link] ++ rild_ready_log c mld ++ [event.init_end_sending])))
        c.IOSM_A2C_INIT_END tx_args.null hg hs
      refine ⟨?_, ?_⟩
      · show (tx_iosm_message c _ c.IOSM_A2C_INIT_END tx_args.null).tx.hdr.w_idx = _
        rw [h1]
        rfl
      · show ((tx_iosm_message c _ c.IOSM_A2C_INIT_END tx_args.null).tx.elements
          mld.tx.hdr.w_idx).msg_id = _
        rw [h2]
        show (Function.update mld.tx.elements mld.tx.hdr.w_idx _ mld.tx.hdr.w_idx).msg_id = _
        rw [Function.update_same, create_iosm_message_msg_id]
    · intro hrr
      have hrr2 : ¬ rild_ready c mld = true := by simp [hrr]
      rw [if_neg hrr2]
      exact ⟨rfl, rfl, rfl⟩

set_option maxRecDepth 8192 in
/-- C16, at a concrete input: under `sample_config 8 16`, on the online device
with link state 0, a successful reset and the FMT and RFS devices opened, the
handler sets the link state to 1 and `cp_boot_done` to 1, leaves InitEnd (kind
212) in slot 0 with the write index at 1, and ends by completing `init_cmpl`;
when the reset returns -5 nothing is written. -/
theorem phone_start_handler_reset_witness :
    (mld_online 0).state ≠ (sample_config 8 16).LINK_STATE_IPC ∧
    (phone_start_handler (sample_config 8 16) (mld_online 0) iosm_msg.zero).state = 1 ∧
    (phone_start_handler (sample_config 8 16) (mld_online 0) iosm_msg.zero).cp_boot_done = 1 ∧
    (phone_start_handler (sample_config 8 16) (mld_online 0) iosm_msg.zero).tx.hdr.w_idx = 1 ∧
    ((phone_start_handler (sample_config 8 16) (mld_online 0) iosm_msg.zero).tx.elements
      0).msg_id = 212 ∧
    (phone_start_handler (sample_config 8 16) (mld_online 0) iosm_msg.zero).trace.getLast? =
      some event.complete_all_init_cmpl ∧
    (phone_start_handler (sample_config 8 16)
      { mld_online 0 with mem_reset_ipc_link_ret := -5 } iosm_msg.zero).tx.hdr.w_idx = 0 ∧
    (phone_start_handler (sample_config 8 16)
      { mld_online 0 with mem_reset_ipc_link_ret := -5 } iosm_msg.zero).state = 0 :=
  ⟨by decide,
    ((phone_start_handler_reset (sample_config 8 16) (mld_online 0) iosm_msg.zero
      (by decide)).2.1 rfl).1,
    by decide, by decide, by decide, by decide, by decide, by decide⟩

/-! ## Fan-out of ConfigChannelRequest: lemmas -/

theorem succ_mod_add (n w i : Nat) : ((w + 1) % n + i) % n = (w + (i + 1)) % n := by
  rw [Nat.add_mod, Nat.mod_mod, ← Nat.add_mod]
  congr 1
  omega

theorem add_mod_ne_self (n w k : Nat) (hw : w < n) (hk0 : 0 < k) (hk : k < n) :
    (w + k) % n ≠ w := by
  by_cases h : w + k < n
  · rw [Nat.mod_eq_of_lt h]
    omega
  · rw [Nat.mod_eq_sub_mod (by omega), Nat.mod_eq_of_lt (by omega)]
    omega

theorem create_iosm_message_conf_ch_req (c : iosm_config) (hl : c.case_labels_distinct)
    (slot : iosm_msg) (args : tx_args) (tid : Int) :
    (create_iosm_message c slot c.IOSM_A2C_CONF_CH_REQ args tid).txmsg.msg_id =
      c.IOSM_A2C_CONF_CH_REQ ∧
    (create_iosm_message c slot c.IOSM_A2C_CONF_CH_REQ args tid).txmsg.conf_ch_req_ch_id =
      args.as_u32 ∧
    (create_iosm_message c slot c.IOSM_A2C_CONF_CH_REQ args tid).txmsg.conf_ch_req_cfg = 1 := by
  obtain ⟨h12, -⟩ := case_labels_ne c hl
  simp [create_iosm_message, set_fresh_trs_id, h12.symm]

theorem iodevs_for_each_sends (c : iosm_config) (hl : c.case_labels_distinct)
    (hN : c.IOSM_NUM_ELEMENTS ≤ 2147483648) (iods : List io_device) :
    ∀ mld : mem_link_device, tx_not_ready c mld = false →
      mld.tx.hdr.w_idx < c.IOSM_NUM_ELEMENTS → mld.tx.hdr.r_idx < c.IOSM_NUM_ELEMENTS →
      circ_get_usage c.IOSM_NUM_ELEMENTS mld.tx.hdr.w_idx mld.tx.hdr.r_idx + iods.length ≤
        c.SBD_UL_LIMIT + 1 →
      circ_get_usage c.IOSM_NUM_ELEMENTS mld.tx.hdr.w_idx mld.tx.hdr.r_idx + iods.length ≤
        c.IOSM_NUM_ELEMENTS - 1 →
      (iodevs_for_each c iods mld).tx.hdr.w_idx =
        (mld.tx.hdr.w_idx + iods.length) % c.IOSM_NUM_ELEMENTS ∧
      (iodevs_for_each c iods mld).tx.hdr.r_idx = mld.tx.hdr.r_idx ∧
      (iodevs_for_each c iods mld).mdm_ready = mld.mdm_ready ∧
      (∀ i d, iods[i]? = some d →
        ((iodevs_for_each c iods mld).tx.elements
            ((mld.tx.hdr.w_idx + i) % c.IOSM_NUM_ELEMENTS)).msg_id = c.IOSM_A2C_CONF_CH_REQ ∧
        ((iodevs_for_each c iods mld).tx.elements
            ((mld.tx.hdr.w_idx + i) % c.IOSM_NUM_ELEMENTS)).conf_ch_req_ch_id = d.id ∧
        ((iodevs_for_each c iods mld).tx.elements
            ((mld.tx.hdr.w_idx + i) % c.IOSM_NUM_ELEMENTS)).conf_ch_req_cfg = 1) ∧
      (∀ j, (∀ i, i < iods.length → j ≠ (mld.tx.hdr.w_idx + i) % c.IOSM_NUM_ELEMENTS) →
        (iodevs_for_each c iods mld).tx.elements j = mld.tx.elements j) := by
  induction iods with
  | nil =>
    intro mld _ hw _ _ _
    refine ⟨?_, rfl, rfl, ?_, fun _ _ => rfl⟩
    · show mld.tx.hdr.w_idx = _
      rw [List.length_nil, Nat.add_zero, Nat.mod_eq_of_lt hw]
    · intro i d hd
      simp at hd
  | cons d ds ih =>
    intro mld hg hw hr hL hS
    rw [List.length_cons] at hL hS
    have hpos : 0 < check_ul_space c c.IOSM_NUM_ELEMENTS mld.tx.hdr.w_idx mld.tx.hdr.r_idx :=
      check_ul_space_pos_of_usage c _ _ _ hw hr (by omega) (by omega) hN
    obtain ⟨h1, h2, -⟩ := tx_iosm_message_of_space c mld c.IOSM_A2C_CONF_CH_REQ
      (tx_args.of_u32 d.id) hg hpos
    have hr1 := (tx_iosm_message_frame c mld c.IOSM_A2C_CONF_CH_REQ
      (tx_args.of_u32 d.id)).2.2.2.2
    have hg1 := tx_not_ready_tx_iosm_message c mld c.IOSM_A2C_CONF_CH_REQ (tx_args.of_u32 d.id)
    have hmr := (tx_iosm_message_state c mld c.IOSM_A2C_CONF_CH_REQ (tx_args.of_u32 d.id)).2.1
    have hfold : iodevs_for_each c (d :: ds) mld = iodevs_for_each c ds (action c mld d) := rfl
    have hact : action c mld d =
        tx_iosm_message c mld c.IOSM_A2C_CONF_CH_REQ (tx_args.of_u32 d.id) := rfl
    rw [← hact] at h1 h2 hr1 hg1 hmr
    have hw1 : (action c mld d).tx.hdr.w_idx < c.IOSM_NUM_ELEMENTS := by
      rw [h1]
      exact Nat.mod_lt _ (by omega)
    have hu1 : circ_get_usage c.IOSM_NUM_ELEMENTS (action c mld d).tx.hdr.w_idx
        (action c mld d).tx.hdr.r_idx =
        circ_get_usage c.IOSM_NUM_ELEMENTS mld.tx.hdr.w_idx mld.tx.hdr.r_idx + 1 := by
      rw [h1, hr1]
      exact circ_get_usage_advance _ _ _ hw hr (by omega)
    obtain ⟨i1, i2, i3, i4, i5⟩ := ih (action c mld d) (by rw [hg1]; exact hg) hw1
      (by rw [hr1]; exact hr) (by rw [hu1]; omega) (by rw [hu1]; omega)
    have hidx : ∀ i, ((action c mld d).tx.hdr.w_idx + i) % c.IOSM_NUM_ELEMENTS =
        (mld.tx.hdr.w_idx + (i + 1)) % c.IOSM_NUM_ELEMENTS := by
      intro i
      rw [h1, circ_new_ptr, succ_mod_add]
    have hslot0 : (iodevs_for_each c ds (action c mld d)).tx.elements mld.tx.hdr.w_idx =
        (create_iosm_message c (mld.tx.elements mld.tx.hdr.w_idx) c.IOSM_A2C_CONF_CH_REQ
          (tx_args.of_u32 d.id) mld.tid).txmsg := by
      rw [i5 mld.tx.hdr.w_idx, h2, Function.update_same]
      intro i hi
      rw [hidx]
      exact (add_mod_ne_self _ _ _ hw (by omega) (by omega)).symm
    rw [hfold]
    refine ⟨?_, ?_, ?_, ?_, ?_⟩
    · rw [i1, hidx, List.length_cons]
    · rw [i2, hr1]
    · rw [i3, hmr]
    · intro i e he
      cases i with
      | zero =>
        simp only [List.getElem?_cons_zero, Option.some.injEq] at he
        subst he
        rw [Nat.add_zero, Nat.mod_eq_of_lt hw, hslot0]
        exact create_iosm_message_conf_ch_req c hl _ _ _
      | succ i =>
        simp only [List.getElem?_cons_succ] at he
        have := i4 i e he
        rw [hidx] at this
        exact this
    · intro j hj
      have hj0 : j ≠ mld.tx.hdr.w_idx := by
        have := hj 0 (by rw [List.length_cons]; omega)
        rw [Nat.add_zero, Nat.mod_eq_of_lt hw] at this
        exact this
      rw [i5 j, h2, Function.update_noteq hj0]
      intro i hi
      rw [hidx]
      exact hj (i + 1) (by rw [List.length_cons]; omega)

theorem iodevs_for_each_mdm_ready (c : iosm_config) (iods : List io_device) :
    ∀ mld : mem_link_device, (iodevs_for_each c iods mld).mdm_ready = mld.mdm_ready := by
  induction iods with
  | nil => intro mld; rfl
  | cons d ds ih =>
    intro mld
    have hfold : iodevs_for_each c (d :: ds) mld = iodevs_for_each c ds (action c mld d) := rfl
    rw [hfold, ih, action, (tx_iosm_message_state c mld _ _).2.1]

/-! ## Claims on the Ack handler -/

/-- C14: when the acknowledged kind is ApReady, `ack_handler` sets `mdm_ready`
to 1 and runs `action` once on every registered device, in order.  With the
link ready and room in the TX ring for one message per device, the write index
advances by the number of devices and the i-th slot from the old write index
holds a ConfigChannelRequest with the i-th device's channel id and config 1,
every other slot being as before.  For any other acknowledged kind the TX
area, the counter and `mdm_ready` are as on entry. -/
theorem ack_handler_fan_out (c : iosm_config) (mld : mem_link_device) (msg : iosm_msg)
    (hl : c.case_labels_distinct) :
    (msg.ack_msg_id = c.IOSM_A2C_AP_READY →
      ack_handler c mld msg =
        iodevs_for_each c mld.iodevs
          { mld.emit [event.got_ack msg.ack_msg_id] with mdm_ready := 1 } ∧
      (ack_handler c mld msg).mdm_ready = 1 ∧
      (tx_not_ready c mld = false → c.IOSM_NUM_ELEMENTS ≤ 2147483648 →
        mld.tx.hdr.w_idx < c.IOSM_NUM_ELEMENTS → mld.tx.hdr.r_idx < c.IOSM_NUM_ELEMENTS →
        circ_get_usage c.IOSM_NUM_ELEMENTS mld.tx.hdr.w_idx mld.tx.hdr.r_idx +
          mld.iodevs.length ≤ c.SBD_UL_LIMIT + 1 →
        circ_get_usage c.IOSM_NUM_ELEMENTS mld.tx.hdr.w_idx mld.tx.hdr.r_idx +
          mld.iodevs.length ≤ c.IOSM_NUM_ELEMENTS - 1 →
        (ack_handler c mld msg).tx.hdr.w_idx =
          (mld.tx.hdr.w_idx + mld.iodevs.length) % c.IOSM_NUM_ELEMENTS ∧
        (∀ i d, mld.iodevs[i]? = some d →
          ((ack_handler c mld msg).tx.elements
              ((mld.tx.hdr.w_idx + i) % c.IOSM_NUM_ELEMENTS)).msg_id =
            c.IOSM_A2C_CONF_CH_REQ ∧
          ((ack_handler c mld msg).tx.elements
              ((mld.tx.hdr.w_idx + i) % c.IOSM_NUM_ELEMENTS)).conf_ch_req_ch_id = d.id ∧
          ((ack_handler c mld msg).tx.elements
              ((mld.tx.hdr.w_idx + i) % c.IOSM_NUM_ELEMENTS)).conf_ch_req_cfg = 1) ∧
        (∀ j, (∀ i, i < mld.iodevs.length →
            j ≠ (mld.tx.hdr.w_idx + i) % c.IOSM_NUM_ELEMENTS) →
          (ack_handler c mld msg).tx.elements j = mld.tx.elements j))) ∧
    (msg.ack_msg_id ≠ c.IOSM_A2C_AP_READY →
      (ack_handler c mld msg).tx = mld.tx ∧
      (ack_handler c mld msg).tid = mld.tid ∧
      (ack_handler c mld msg).mdm_ready = mld.mdm_ready) := by
  constructor
  · intro hack
    have heq : ack_handler c mld msg =
        iodevs_for_each c mld.iodevs
          { mld.emit [event.got_ack msg.ack_msg_id] with mdm_ready := 1 } := by
      unfold ack_handler
      simp only [hack, if_true]
      rfl
    refine ⟨heq, ?_, ?_⟩
    · rw [heq, iodevs_for_each_mdm_ready]
    · intro hg hN hw hr hL hS
      obtain ⟨s1, -, -, s4, s5⟩ := iodevs_for_each_sends c hl hN mld.iodevs
        { mld.emit [event.got_ack msg.ack_msg_id] with mdm_ready := 1 } hg hw hr hL hS
      rw [heq]
      exact ⟨s1, s4, s5⟩
  · intro hne
    unfold ack_handler
    simp only [hne, if_false]
    split_ifs <;> exact ⟨rfl, rfl, rfl⟩

set_option maxRecDepth 8192 in
/-- C14, at a concrete input: under `sample_config 8 16`, an Ack for ApReady
handled on the online device with the three `sample_iodevs` registered leaves
three ConfigChannelRequest messages (kind 34, config 1) for the channels 235,
245 and 10 in the slots 0, 1 and 2, moves the write index to 3, leaves slot 3
zeroed and sets `mdm_ready`; an Ack for kind 36 writes nothing. -/
theorem ack_handler_fan_out_witness :
    (sample_config 8 16).case_labels_distinct ∧
    (ack_handler (sample_config 8 16) (mld_online 1) iosm_msg.zero).mdm_ready = 1 ∧
    (ack_handler (sample_config 8 16) (mld_online 1) iosm_msg.zero).tx.hdr.w_idx = 3 ∧
    (ack_handler (sample_config 8 16) (mld_online 1) iosm_msg.zero).tx.elements 0 =
      { iosm_msg.zero with msg_id := 34, trs_id := 1, conf_ch_req_ch_id := 235,
                           conf_ch_req_cfg := 1 } ∧
    (ack_handler (sample_config 8 16) (mld_online 1) iosm_msg.zero).tx.elements 1 =
      { iosm_msg.zero with msg_id := 34, trs_id := 2, conf_ch_req_ch_id := 245,
                           conf_ch_req_cfg := 1 } ∧
    (ack_handler (sample_config 8 16) (mld_online 1) iosm_msg.zero).tx.elements 2 =
      { iosm_msg.zero with msg_id := 34, trs_id := 3, conf_ch_req_ch_id := 10,
                           conf_ch_req_cfg := 1 } ∧
    (ack_handler (sample_config 8 16) (mld_online 1) iosm_msg.zero).tx.elements 3 =
      iosm_msg.zero ∧
    (ack_handler (sample_config 8 16) (mld_online 1)
      { iosm_msg.zero with ack_msg_id := 36 }).tx.hdr.w_idx = 0 :=
  ⟨by decide,
    ((ack_handler_fan_out (sample_config 8 16) (mld_online 1) iosm_msg.zero (by decide)).1
      rfl).2.1,
    by decide, by decide, by decide, by decide, by decide, by decide⟩

/-! ## ModemReady handler: lemmas -/

theorem case_labels_ack_ne (c : iosm_config) (hl : c.case_labels_distinct) :
    c.IOSM_A2C_ACK ≠ c.IOSM_A2C_AP_READY ∧
    c.IOSM_A2C_ACK ≠ c.IOSM_A2C_CONF_CH_REQ ∧
    c.IOSM_A2C_ACK ≠ c.IOSM_A2C_OPEN_CH ∧
    c.IOSM_A2C_ACK ≠ c.IOSM_A2C_CLOSE_CH ∧
    c.IOSM_A2C_ACK ≠ c.IOSM_A2C_PIN_INIT_DONE ∧
    c.IOSM_A2C_ACK ≠ c.IOSM_A2C_INIT_END := by
  simp only [iosm_config.case_labels_distinct, iosm_config.case_labels, List.nodup_cons,
    List.mem_cons, List.mem_singleton, not_or, List.not_mem_nil, not_false_eq_true,
    List.nodup_nil, and_true] at hl
  obtain ⟨⟨-, -, -, -, -, h1, -⟩, ⟨-, -, -, -, h2, -⟩, ⟨-, -, -, h3, -⟩, ⟨-, -, h4, -⟩,
    ⟨-, h5, -⟩, ⟨h6, -⟩, -⟩ := hl
  exact ⟨Ne.symm h1, Ne.symm h2, Ne.symm h3, Ne.symm h4, Ne.symm h5, Ne.symm h6⟩

theorem create_iosm_message_ack (c : iosm_config) (hl : c.case_labels_distinct)
    (slot m : iosm_msg) (tid : Int) :
    (create_iosm_message c slot c.IOSM_A2C_ACK (tx_args.of_msg m) tid).txmsg.msg_id =
      c.IOSM_A2C_ACK ∧
    (create_iosm_message c slot c.IOSM_A2C_ACK (tx_args.of_msg m) tid).txmsg.ack_msg_id =
      m.msg_id ∧
    (create_iosm_message c slot c.IOSM_A2C_ACK (tx_args.of_msg m) tid).txmsg.trs_id =
      m.trs_id ∧
    (create_iosm_message c slot c.IOSM_A2C_ACK (tx_args.of_msg m) tid).tid = tid := by
  obtain ⟨e1, e2, e3, e4, e5, e6⟩ := case_labels_ack_ne c hl
  simp only [create_iosm_message, tx_args.of_msg, e1, e2, e3, e4, e5, e6, if_false, if_true,
    or_self, true_or]
  refine ⟨?_, ?_, trivial, trivial⟩
  · split_ifs <;> rfl
  · split_ifs <;> rfl

theorem create_iosm_message_ap_ready (c : iosm_config) (slot : iosm_msg) (args : tx_args)
    (tid : Int) :
    (create_iosm_message c slot c.IOSM_A2C_AP_READY args tid).txmsg.msg_id =
      c.IOSM_A2C_AP_READY ∧
    (create_iosm_message c slot c.IOSM_A2C_AP_READY args tid).txmsg.ap_ready_addr =
      c.IOSM_MSG_DESC_OFFSET := by
  simp [create_iosm_message, set_fresh_trs_id]

theorem mdm_ready_prepare_fields (c : iosm_config) (mld : mem_link_device) :
    (mdm_ready_prepare c mld).tx = mld.tx ∧
    (mdm_ready_prepare c mld).tid = mld.tid ∧
    (mdm_ready_prepare c mld).netif_stop_mask = 0 ∧
    (mdm_ready_prepare c mld).netif_stopped = 0 ∧
    (mdm_ready_prepare c mld).forced_cp_crash = 0 ∧
    (mdm_ready_prepare c mld).cp_boot_done = 1 ∧
    (mdm_ready_prepare c mld).cp_online = mld.online_after_state_changed ∧
    (mdm_ready_prepare c mld).state = mld.state ∧
    (mdm_ready_prepare c mld).init_sbd_link_ret = mld.init_sbd_link_ret ∧
    (mdm_ready_prepare c mld).attr_ipc_aligned = mld.attr_ipc_aligned ∧
    event.modem_state_changed_online ∈ (mdm_ready_prepare c mld).trace := by
  unfold mdm_ready_prepare
  simp only [mem_link_device.emit]
  split_ifs <;> simp

theorem mdm_ready_handler_eq (c : iosm_config) (mld : mem_link_device) (msg : iosm_msg)
    (hs : mld.sbd_ipc = true) :
    mdm_ready_handler c mld msg =
      if mld.init_sbd_link_ret < 0 then
        (tx_iosm_message c (mdm_ready_prepare c mld) c.IOSM_A2C_ACK (tx_args.of_msg msg)).emit
          [event.init_sbd_link, event.init_sbd_link_fail mld.init_sbd_link_ret]
      else
        (tx_iosm_message c
          (({ (tx_iosm_message c (mdm_ready_prepare c mld) c.IOSM_A2C_ACK
                (tx_args.of_msg msg)).emit [event.init_sbd_link] with
              aligned := mld.attr_ipc_aligned } : mem_link_device).emit [event.sbd_activate])
          c.IOSM_A2C_AP_READY tx_args.null).emit [event.mdm_ready_done] := by
  have hret : (tx_iosm_message c (mdm_ready_prepare c mld) c.IOSM_A2C_ACK
      (tx_args.of_msg msg)).init_sbd_link_ret = mld.init_sbd_link_ret := by
    rw [(tx_iosm_message_state c _ _ _).2.2.2.2.2.2.1]
    exact (mdm_ready_prepare_fields c mld).2.2.2.2.2.2.2.2.1
  have hattr : (tx_iosm_message c (mdm_ready_prepare c mld) c.IOSM_A2C_ACK
      (tx_args.of_msg msg)).attr_ipc_aligned = mld.attr_ipc_aligned := by
    rw [(tx_iosm_message_state c _ _ _).2.2.2.2.2.2.2]
    exact (mdm_ready_prepare_fields c mld).2.2.2.2.2.2.2.2.2.1
  have hunf : mdm_ready_handler c mld msg =
      if !mld.sbd_ipc then
        (mld.emit [event.mdm_ready_entry]).emit [event.sbd_ipc_not_set]
      else if (tx_iosm_message c (mdm_ready_prepare c mld) c.IOSM_A2C_ACK
          (tx_args.of_msg msg)).init_sbd_link_ret < 0 then
        (tx_iosm_message c (mdm_ready_prepare c mld) c.IOSM_A2C_ACK (tx_args.of_msg msg)).emit
          [event.init_sbd_link,
           event.init_sbd_link_fail (tx_iosm_message c (mdm_ready_prepare c mld) c.IOSM_A2C_ACK
             (tx_args.of_msg msg)).init_sbd_link_ret]
      else
        (tx_iosm_message c
          (({ (tx_iosm_message c (mdm_ready_prepare c mld) c.IOSM_A2C_ACK
                (tx_args.of_msg msg)).emit [event.init_sbd_link] with
              aligned := (tx_iosm_message c (mdm_ready_prepare c mld) c.IOSM_A2C_ACK
                (tx_args.of_msg msg)).attr_ipc_aligned } : mem_link_device).emit
            [event.sbd_activate])
          c.IOSM_A2C_AP_READY tx_args.null).emit [event.mdm_ready_done] := by
    unfold mdm_ready_handler mdm_ready_prepare
    simp only [mem_link_device.emit, List.append_assoc, List.singleton_append, List.cons_append,
      List.nil_append]
  rw [hunf, hret, hattr, hs]
  rfl

theorem mem_trace_tx_iosm_message (c : iosm_config) (mld : mem_link_device) (id : Nat)
    (args : tx_args) (e : event) (he : e ∈ mld.trace) :
    e ∈ (tx_iosm_message c mld id args).trace := by
  unfold tx_iosm_message
  by_cases h1 : tx_not_ready c mld = true
  · simp [h1, he]
  · by_cases h2 : check_ul_space c c.IOSM_NUM_ELEMENTS mld.tx.hdr.w_idx mld.tx.hdr.r_idx ≤ 0
    · simp [h1, h2, he]
    · cases h3 : mld.cp_online <;> cases h4 : mld.permit_cp_sleep <;>
        rcases h5 : mld.forbid_cp_sleep_wait with _ | _ | _ <;> simp [h1, h2, h3, h4, h5, he]

theorem tx_not_ready_of_online (c : iosm_config) (mld : mem_link_device)
    (h : mld.cp_online = true) : tx_not_ready c mld = false := by
  simp [tx_not_ready, h]

theorem ack_then_ap_ready (c : iosm_config) (hl : c.case_labels_distinct)
    (m3 m7 : mem_link_device) (msg : iosm_msg) (hN : c.IOSM_NUM_ELEMENTS ≤ 2147483648)
    (hg3 : tx_not_ready c m3 = false) (hw : m3.tx.hdr.w_idx < c.IOSM_NUM_ELEMENTS)
    (hr : m3.tx.hdr.r_idx < c.IOSM_NUM_ELEMENTS)
    (hL : circ_get_usage c.IOSM_NUM_ELEMENTS m3.tx.hdr.w_idx m3.tx.hdr.r_idx + 2 ≤
      c.SBD_UL_LIMIT + 1)
    (hS : circ_get_usage c.IOSM_NUM_ELEMENTS m3.tx.hdr.w_idx m3.tx.hdr.r_idx + 2 ≤
      c.IOSM_NUM_ELEMENTS - 1)
    (h7 : m7.tx = (tx_iosm_message c m3 c.IOSM_A2C_ACK (tx_args.of_msg msg)).tx)
    (hg7 : tx_not_ready c m7 = false) :
    (((tx_iosm_message c m3 c.IOSM_A2C_ACK (tx_args.of_msg msg)).tx.elements
          m3.tx.hdr.w_idx).msg_id = c.IOSM_A2C_ACK ∧
      ((tx_iosm_message c m3 c.IOSM_A2C_ACK (tx_args.of_msg msg)).tx.elements
          m3.tx.hdr.w_idx).ack_msg_id = msg.msg_id ∧
      ((tx_iosm_message c m3 c.IOSM_A2C_ACK (tx_args.of_msg msg)).tx.elements
          m3.tx.hdr.w_idx).trs_id = msg.trs_id) ∧
    (tx_iosm_message c m3 c.IOSM_A2C_ACK (tx_args.of_msg msg)).tx.hdr.w_idx =
      (m3.tx.hdr.w_idx + 1) % c.IOSM_NUM_ELEMENTS ∧
    (((tx_iosm_message c m7 c.IOSM_A2C_AP_READY tx_args.null).tx.elements
          m3.tx.hdr.w_idx).msg_id = c.IOSM_A2C_ACK ∧
      ((tx_iosm_message c m7 c.IOSM_A2C_AP_READY tx_args.null).tx.elements
          m3.tx.hdr.w_idx).ack_msg_id = msg.msg_id ∧
      ((tx_iosm_message c m7 c.IOSM_A2C_AP_READY tx_args.null).tx.elements
          m3.tx.hdr.w_idx).trs_id = msg.trs_id) ∧
    (tx_iosm_message c m7 c.IOSM_A2C_AP_READY tx_args.null).tx.hdr.w_idx =
      (m3.tx.hdr.w_idx + 2) % c.IOSM_NUM_ELEMENTS ∧
    ((tx_iosm_message c m7 c.IOSM_A2C_AP_READY tx_args.null).tx.elements
        ((m3.tx.hdr.w_idx + 1) % c.IOSM_NUM_ELEMENTS)).msg_id = c.IOSM_A2C_AP_READY ∧
    ((tx_iosm_message c m7 c.IOSM_A2C_AP_READY tx_args.null).tx.elements
        ((m3.tx.hdr.w_idx + 1) % c.IOSM_NUM_ELEMENTS)).ap_ready_addr =
      c.IOSM_MSG_DESC_OFFSET := by
  have hpos3 : 0 < check_ul_space c c.IOSM_NUM_ELEMENTS m3.tx.hdr.w_idx m3.tx.hdr.r_idx :=
    check_ul_space_pos_of_usage c _ _ _ hw hr (by omega) (by omega) hN
  obtain ⟨s1, s2, -⟩ := tx_iosm_message_of_space c m3 c.IOSM_A2C_ACK (tx_args.of_msg msg)
    hg3 hpos3
  have f5 := (tx_iosm_message_frame c m3 c.IOSM_A2C_ACK (tx_args.of_msg msg)).2.2.2.2
  have hack := create_iosm_message_ack c hl (m3.tx.elements m3.tx.hdr.w_idx) msg m3.tid
  have hslotw : (tx_iosm_message c m3 c.IOSM_A2C_ACK (tx_args.of_msg msg)).tx.elements
      m3.tx.hdr.w_idx =
      (create_iosm_message c (m3.tx.elements m3.tx.hdr.w_idx) c.IOSM_A2C_ACK
        (tx_args.of_msg msg) m3.tid).txmsg := by
    rw [s2, Function.update_same]
  have hw4 : circ_new_ptr c.IOSM_NUM_ELEMENTS m3.tx.hdr.w_idx 1 < c.IOSM_NUM_ELEMENTS :=
    Nat.mod_lt _ (by omega)
  have hu4 := circ_get_usage_advance c.IOSM_NUM_ELEMENTS _ _ hw hr (by omega)
  have hw7 : m7.tx.hdr.w_idx = circ_new_ptr c.IOSM_NUM_ELEMENTS m3.tx.hdr.w_idx 1 := by
    rw [h7, s1]
  have hr7 : m7.tx.hdr.r_idx = m3.tx.hdr.r_idx := by rw [h7, f5]
  have hpos7 : 0 < check_ul_space c c.IOSM_NUM_ELEMENTS m7.tx.hdr.w_idx m7.tx.hdr.r_idx := by
    rw [hw7, hr7]
    exact check_ul_space_pos_of_usage c _ _ _ hw4 hr (by omega) (by omega) hN
  obtain ⟨t1, t2, -⟩ := tx_iosm_message_of_space c m7 c.IOSM_A2C_AP_READY tx_args.null
    hg7 hpos7
  have hne : m3.tx.hdr.w_idx ≠ m7.tx.hdr.w_idx := by
    rw [hw7]
    exact (add_mod_ne_self _ _ 1 hw (by omega) (by omega)).symm
  have hslot7 : (tx_iosm_message c m7 c.IOSM_A2C_AP_READY tx_args.null).tx.elements
      m3.tx.hdr.w_idx =
      (create_iosm_message c (m3.tx.elements m3.tx.hdr.w_idx) c.IOSM_A2C_ACK
        (tx_args.of_msg msg) m3.tid).txmsg := by
    rw [t2, Function.update_noteq hne, h7, hslotw]
  have hnp : (m3.tx.hdr.w_idx + 1) % c.IOSM_NUM_ELEMENTS = m7.tx.hdr.w_idx := by
    rw [hw7, circ_new_ptr]
  refine ⟨?_, ?_, ?_, ?_, ?_⟩
  · rw [hslotw]
    exact ⟨hack.1, hack.2.1, hack.2.2.1⟩
  · rw [s1, circ_new_ptr]
  · rw [hslot7]
    exact ⟨hack.1, hack.2.1, hack.2.2.1⟩
  · rw [t1, hw7, circ_new_ptr, circ_new_ptr, succ_mod_add]
  · rw [hnp, t2, Function.update_same]
    exact create_iosm_message_ap_ready c _ _ _

/-! ## Claims on the ModemReady handler -/

/-- C17, as stated, fails: `mdm_ready_handler` does not write the link state.
Under `sample_config 8 16`, on the device after bring-up (SBD set, link state
0, `LINK_STATE_IPC` being 1), the link state is still 0 after the handler, while
`cp_boot_done` has become 1 and the Ack and ApReady have been written. -/
theorem mdm_ready_handler_keeps_link_state :
    mld_boot.sbd_ipc = true ∧ mld_boot.state = 0 ∧
    (sample_config 8 16).LINK_STATE_IPC = 1 ∧
    (mdm_ready_handler (sample_config 8 16) mld_boot
      { iosm_msg.zero with msg_id := 128, trs_id := 7 }).state = 0 ∧
    (mdm_ready_handler (sample_config 8 16) mld_boot
      { iosm_msg.zero with msg_id := 128, trs_id := 7 }).state ≠
        (sample_config 8 16).LINK_STATE_IPC ∧
    (mdm_ready_handler (sample_config 8 16) mld_boot
      { iosm_msg.zero with msg_id := 128, trs_id := 7 }).cp_boot_done = 1 ∧
    (mdm_ready_handler (sample_config 8 16) mld_boot
      { iosm_msg.zero with msg_id := 128, trs_id := 7 }).tx.hdr.w_idx = 2 := by
  decide

/-- C17, amended: on a link with `sbd_ipc` set, `mdm_ready_handler` clears
`netif_stop_mask`, `netif_stopped` and `forced_cp_crash`, sets `cp_boot_done`,
reports `STATE_ONLINE` through `modem_state_changed` and leaves the link state
as it was; it then sends an Ack for the message and, only if `init_sbd_link`
does not fail, sends ApReady after it.  With the modem online after the report
and room for two messages in the TX ring, the slot at the old write index holds
the Ack with the acknowledged kind and the transaction id of the ModemReady
message, and the next slot holds ApReady when `init_sbd_link` succeeds, the
write index advancing by two, and by one when it fails.  Without `sbd_ipc` the
handler only writes two diagnostics. -/
theorem mdm_ready_handler_sbd (c : iosm_config) (mld : mem_link_device) (msg : iosm_msg)
    (hl : c.case_labels_distinct) :
    (mld.sbd_ipc = true →
      ((mdm_ready_handler c mld msg).netif_stop_mask = 0 ∧
        (mdm_ready_handler c mld msg).netif_stopped = 0 ∧
        (mdm_ready_handler c mld msg).forced_cp_crash = 0 ∧
        (mdm_ready_handler c mld msg).cp_boot_done = 1 ∧
        (mdm_ready_handler c mld msg).state = mld.state ∧
        event.modem_state_changed_online ∈ (mdm_ready_handler c mld msg).trace) ∧
      (mdm_ready_handler c mld msg =
        if mld.init_sbd_link_ret < 0 then
          (tx_iosm_message c (mdm_ready_prepare c mld) c.IOSM_A2C_ACK
            (tx_args.of_msg msg)).emit
            [event.init_sbd_link, event.init_sbd_link_fail mld.init_sbd_link_ret]
        else
          (tx_iosm_message c
            (({ (tx_iosm_message c (mdm_ready_prepare c mld) c.IOSM_A2C_ACK
                  (tx_args.of_msg msg)).emit [event.init_sbd_link] with
                aligned := mld.attr_ipc_aligned } : mem_link_device).emit
              [event.sbd_activate])
            c.IOSM_A2C_AP_READY tx_args.null).emit [event.mdm_ready_done]) ∧
      (mld.online_after_state_changed = true → c.IOSM_NUM_ELEMENTS ≤ 2147483648 →
        mld.tx.hdr.w_idx < c.IOSM_NUM_ELEMENTS → mld.tx.hdr.r_idx < c.IOSM_NUM_ELEMENTS →
        circ_get_usage c.IOSM_NUM_ELEMENTS mld.tx.hdr.w_idx mld.tx.hdr.r_idx + 2 ≤
          c.SBD_UL_LIMIT + 1 →
        circ_get_usage c.IOSM_NUM_ELEMENTS mld.tx.hdr.w_idx mld.tx.hdr.r_idx + 2 ≤
          c.IOSM_NUM_ELEMENTS - 1 →
        (((mdm_ready_handler c mld msg).tx.elements mld.tx.hdr.w_idx).msg_id =
            c.IOSM_A2C_ACK ∧
          ((mdm_ready_handler c mld msg).tx.elements mld.tx.hdr.w_idx).ack_msg_id =
            msg.msg_id ∧
          ((mdm_ready_handler c mld msg).tx.elements mld.tx.hdr.w_idx).trs_id =
            msg.trs_id) ∧
        (mld.init_sbd_link_ret < 0 →
          (mdm_ready_handler c mld msg).tx.hdr.w_idx =
            (mld.tx.hdr.w_idx + 1) % c.IOSM_NUM_ELEMENTS) ∧
        (¬ mld.init_sbd_link_ret < 0 →
          (mdm_ready_handler c mld msg).tx.hdr.w_idx =
            (mld.tx.hdr.w_idx + 2) % c.IOSM_NUM_ELEMENTS ∧
          ((mdm_ready_handler c mld msg).tx.elements
              ((mld.tx.hdr.w_idx + 1) % c.IOSM_NUM_ELEMENTS)).msg_id =
            c.IOSM_A2C_AP_READY ∧
          ((mdm_ready_handler c mld msg).tx.elements
              ((mld.tx.hdr.w_idx + 1) % c.IOSM_NUM_ELEMENTS)).ap_ready_addr =
            c.IOSM_MSG_DESC_OFFSET))) ∧
    (mld.sbd_ipc = false →
      mdm_ready_handler c mld msg =
        mld.emit [event.mdm_ready_entry, event.sbd_ipc_not_set]) := by
  constructor
  · intro hs
    have heq := mdm_ready_handler_eq c mld msg hs
    obtain ⟨p1, p2, p3, p4, p5, p6, p7, p8, -, -, p11⟩ := mdm_ready_prepare_fields c mld
    obtain ⟨a1, -, a3, a4, a5, -, -, -⟩ := tx_iosm_message_state c (mdm_ready_prepare c mld)
      c.IOSM_A2C_ACK (tx_args.of_msg msg)
    obtain ⟨f1, f2, -, -, f5⟩ := tx_iosm_message_frame c (mdm_ready_prepare c mld)
      c.IOSM_A2C_ACK (tx_args.of_msg msg)
    have hmem := mem_trace_tx_iosm_message c (mdm_ready_prepare c mld) c.IOSM_A2C_ACK
      (tx_args.of_msg msg) _ p11
    refine ⟨?_, heq, ?_⟩
    · rw [heq]
      split_ifs
      · refine ⟨?_, ?_, ?_, ?_, ?_, ?_⟩
        · exact a3.trans p3
        · exact a4.trans p4
        · exact a5.trans p5
        · exact f2.trans p6
        · exact a1.trans p8
        · exact List.mem_append_left _ hmem
      · obtain ⟨b1, -, b3, b4, b5, -, -, -⟩ := tx_iosm_message_state c
          (({ (tx_iosm_message c (mdm_ready_prepare c mld) c.IOSM_A2C_ACK
                (tx_args.of_msg msg)).emit [event.init_sbd_link] with
              aligned := mld.attr_ipc_aligned } : mem_link_device).emit [event.sbd_activate])
          c.IOSM_A2C_AP_READY tx_args.null
        obtain ⟨-, g2, -, -, -⟩ := tx_iosm_message_frame c
          (({ (tx_iosm_message c (mdm_ready_prepare c mld) c.IOSM_A2C_ACK
                (tx_args.of_msg msg)).emit [event.init_sbd_link] with
              aligned := mld.attr_ipc_aligned } : mem_link_device).emit [event.sbd_activate])
          c.IOSM_A2C_AP_READY tx_args.null
        refine ⟨?_, ?_, ?_, ?_, ?_, ?_⟩
        · exact b3.trans (a3.trans p3)
        · exact b4.trans (a4.trans p4)
        · exact b5.trans (a5.trans p5)
        · exact g2.trans (f2.trans p6)
        · exact b1.trans (a1.trans p8)
        · apply List.mem_append_left
          apply mem_trace_tx_iosm_message
          apply List.mem_append_left
          exact List.mem_append_left _ hmem
    · intro hon hN hw hr hL hS
      have hg3 : tx_not_ready c (mdm_ready_prepare c mld) = false :=
        tx_not_ready_of_online c _ (p7.trans hon)
      have hg7 : tx_not_ready c
          (({ (tx_iosm_message c (mdm_ready_prepare c mld) c.IOSM_A2C_ACK
                (tx_args.of_msg msg)).emit [event.init_sbd_link] with
              aligned := mld.attr_ipc_aligned } : mem_link_device).emit
            [event.sbd_activate]) = false :=
        tx_not_ready_of_online c _ (f1.trans (p7.trans hon))
      have hw3 : (mdm_ready_prepare c mld).tx.hdr.w_idx = mld.tx.hdr.w_idx := by rw [p1]
      have hr3 : (mdm_ready_prepare c mld).tx.hdr.r_idx = mld.tx.hdr.r_idx := by rw [p1]
      obtain ⟨k1, k2, k3, k4, k5⟩ := ack_then_ap_ready c hl (mdm_ready_prepare c mld)
        (({ (tx_iosm_message c (mdm_ready_prepare c mld) c.IOSM_A2C_ACK
              (tx_args.of_msg msg)).emit [event.init_sbd_link] with
            aligned := mld.attr_ipc_aligned } : mem_link_device).emit [event.sbd_activate])
        msg hN hg3 (by rw [hw3]; exact hw) (by rw [hr3]; exact hr)
        (by rw [hw3, hr3]; exact hL) (by rw [hw3, hr3]; exact hS) rfl hg7
      rw [hw3] at k1 k2 k3 k4 k5
      by_cases hret : mld.init_sbd_link_ret < 0
      · have htx : (mdm_ready_handler c mld msg).tx =
            (tx_iosm_message c (mdm_ready_prepare c mld) c.IOSM_A2C_ACK
              (tx_args.of_msg msg)).tx := by
          rw [heq, if_pos hret]
          rfl
        rw [htx]
        exact ⟨k1, fun _ => k2, fun h => absurd hret h⟩
      · have htx : (mdm_ready_handler c mld msg).tx =
            (tx_iosm_message c
              (({ (tx_iosm_message c (mdm_ready_prepare c mld) c.IOSM_A2C_ACK
                    (tx_args.of_msg msg)).emit [event.init_sbd_link] with
                  aligned := mld.attr_ipc_aligned } : mem_link_device).emit
                [event.sbd_activate])
              c.IOSM_A2C_AP_READY tx_args.null).tx := by
          rw [heq, if_neg hret]
          rfl
        rw [htx]
        exact ⟨k3, fun h => absurd h hret, fun _ => ⟨k4, k5⟩⟩
  · intro hs
    unfold mdm_ready_handler
    have hs0 : (mld.emit [event.mdm_ready_entry]).sbd_ipc = false := hs
    simp only [hs0, Bool.not_false, if_true]
    exact emit_emit mld _ _

set_option maxRecDepth 8192 in
/-- C17 amended, at a concrete input: under `sample_config 8 16`, ModemReady
with transaction id 7 handled on the device after bring-up leaves in slot 0 the
Ack (kind 224) for kind 128 with transaction id 7 and in slot 1 ApReady (kind
0) with the descriptor address, the write index at 2 and `cp_boot_done` at 1;
when `init_sbd_link` returns -1 only the Ack is written; without `sbd_ipc`
nothing is written. -/
theorem mdm_ready_handler_sbd_witness :
    (sample_config 8 16).case_labels_distinct ∧
    (mdm_ready_handler (sample_config 8 16) mld_boot
      { iosm_msg.zero with msg_id := 128, trs_id := 7 }).tx.elements 0 =
      { iosm_msg.zero with msg_id := 224, trs_id := 7, ack_msg_id := 128 } ∧
    (mdm_ready_handler (sample_config 8 16) mld_boot
      { iosm_msg.zero with msg_id := 128, trs_id := 7 }).tx.elements 1 =
      { iosm_msg.zero with msg_id := 0, trs_id := 1, ap_ready_addr := 4096 } ∧
    (mdm_ready_handler (sample_config 8 16) mld_boot
      { iosm_msg.zero with msg_id := 128, trs_id := 7 }).tx.hdr.w_idx = 2 ∧
    (mdm_ready_handler (sample_config 8 16) mld_boot
      { iosm_msg.zero with msg_id := 128, trs_id := 7 }).cp_boot_done = 1 ∧
    (mdm_ready_handler (sample_config 8 16) { mld_boot with init_sbd_link_ret := -1 }
      { iosm_msg.zero with msg_id := 128, trs_id := 7 }).tx.hdr.w_idx = 1 ∧
    (mdm_ready_handler (sample_config 8 16) { mld_boot with sbd_ipc := false }
      { iosm_msg.zero with msg_id := 128, trs_id := 7 }).tx.hdr.w_idx = 0 :=
  ⟨by decide, by decide, by decide, by decide,
    ((mdm_ready_handler_sbd (sample_config 8 16) mld_boot
      { iosm_msg.zero with msg_id := 128, trs_id := 7 } (by decide)).1 rfl).1.2.2.2.1,
    by decide, by decide⟩

/-! ## Dispatch log: lemmas -/

theorem dispatch_log_append (a b : List event) :
    dispatch_log (a ++ b) = dispatch_log a ++ dispatch_log b := by
  simp [dispatch_log, List.filter_append]

theorem dispatch_log_tx_iosm_message (c : iosm_config) (mld : mem_link_device) (id : Nat)
    (args : tx_args) :
    dispatch_log (tx_iosm_message c mld id args).trace = dispatch_log mld.trace := by
  have hlog : dispatch_log
      (create_iosm_message c (mld.tx.elements mld.tx.hdr.w_idx) id args mld.tid).log = [] := by
    rcases create_iosm_message_log c (mld.tx.elements mld.tx.hdr.w_idx) id args mld.tid with
      h | h <;> rw [h] <;> simp [dispatch_log, is_dispatch_event]
  have hchk : dispatch_log (check_ul_space_log c c.IOSM_NUM_ELEMENTS mld.tx.hdr.w_idx
      mld.tx.hdr.r_idx) = [] := by
    unfold check_ul_space_log
    split_ifs <;> simp [dispatch_log, is_dispatch_event]
  unfold tx_iosm_message
  by_cases h1 : tx_not_ready c mld = true
  · simp [h1]
  · by_cases h2 : check_ul_space c c.IOSM_NUM_ELEMENTS mld.tx.hdr.w_idx mld.tx.hdr.r_idx ≤ 0
    · simp [h1, h2, dispatch_log_append, hchk]
    · cases h3 : mld.cp_online <;> cases h4 : mld.permit_cp_sleep <;>
        rcases h5 : mld.forbid_cp_sleep_wait with _ | _ | _ <;>
        simp [h1, h2, h3, h4, h5, dispatch_log_append, hlog] <;>
        simp [dispatch_log, is_dispatch_event]

theorem dispatch_log_iodevs_for_each (c : iosm_config) (iods : List io_device) :
    ∀ mld : mem_link_device,
      dispatch_log (iodevs_for_each c iods mld).trace = dispatch_log mld.trace := by
  induction iods with
  | nil => intro mld; rfl
  | cons d ds ih =>
    intro mld
    have hfold : iodevs_for_each c (d :: ds) mld = iodevs_for_each c ds (action c mld d) := rfl
    rw [hfold, ih, action, dispatch_log_tx_iosm_message]

theorem dispatch_log_rild_ready_log (c : iosm_config) (mld : mem_link_device) :
    dispatch_log (rild_ready_log c mld) = [] := by
  unfold rild_ready_log
  split
  · rfl
  · split <;> rfl

theorem dispatch_log_mdm_ready_handler (c : iosm_config) (mld : mem_link_device)
    (msg : iosm_msg) :
    dispatch_log (mdm_ready_handler c mld msg).trace = dispatch_log mld.trace := by
  unfold mdm_ready_handler
  simp only [mem_link_device.emit]
  split_ifs <;>
    simp only [dispatch_log_append, dispatch_log_tx_iosm_message] <;>
    simp [dispatch_log, is_dispatch_event]

theorem dispatch_log_conf_ch_rsp_handler (c : iosm_config) (mld : mem_link_device)
    (msg : iosm_msg) :
    dispatch_log (conf_ch_rsp_handler c mld msg).trace = dispatch_log mld.trace := by
  unfold conf_ch_rsp_handler
  simp only [mem_link_device.emit, dispatch_log_append, dispatch_log_tx_iosm_message]
  simp [dispatch_log, is_dispatch_event]

theorem dispatch_log_stop_tx_ch_handler (c : iosm_config) (mld : mem_link_device)
    (msg : iosm_msg) :
    dispatch_log (stop_tx_ch_handler c mld msg).trace = dispatch_log mld.trace := by
  unfold stop_tx_ch_handler
  simp only [mem_link_device.emit]
  split_ifs <;>
    simp only [dispatch_log_append, dispatch_log_tx_iosm_message] <;>
    simp [dispatch_log, is_dispatch_event]

theorem dispatch_log_start_tx_ch_handler (c : iosm_config) (mld : mem_link_device)
    (msg : iosm_msg) :
    dispatch_log (start_tx_ch_handler c mld msg).trace = dispatch_log mld.trace := by
  unfold start_tx_ch_handler
  simp only [mem_link_device.emit]
  split_ifs <;>
    simp only [dispatch_log_append, dispatch_log_tx_iosm_message] <;>
    simp [dispatch_log, is_dispatch_event]

theorem dispatch_log_ack_handler (c : iosm_config) (mld : mem_link_device) (msg : iosm_msg) :
    dispatch_log (ack_handler c mld msg).trace = dispatch_log mld.trace := by
  unfold ack_handler
  simp only [mem_link_device.emit]
  split_ifs <;>
    simp only [dispatch_log_append, dispatch_log_iodevs_for_each] <;>
    simp [dispatch_log, is_dispatch_event]

theorem dispatch_log_nack_handler (c : iosm_config) (mld : mem_link_device) (msg : iosm_msg) :
    dispatch_log (nack_handler c mld msg).trace = dispatch_log mld.trace := by
  unfold nack_handler
  simp [mem_link_device.emit, dispatch_log, is_dispatch_event]

theorem dispatch_log_init_start_handler (c : iosm_config) (mld : mem_link_device)
    (msg : iosm_msg) :
    dispatch_log (init_start_handler c mld msg).trace = dispatch_log mld.trace := by
  unfold init_start_handler
  simp only [mem_link_device.emit]
  split_ifs <;>
    simp only [dispatch_log_append, dispatch_log_tx_iosm_message] <;>
    simp [dispatch_log, is_dispatch_event]

theorem dispatch_log_phone_start_handler (c : iosm_config) (mld : mem_link_device)
    (msg : iosm_msg) :
    dispatch_log (phone_start_handler c mld msg).trace = dispatch_log mld.trace := by
  rw [phone_start_handler_eq]
  have hr := dispatch_log_rild_ready_log c mld
  split_ifs <;>
    simp only [mem_link_device.emit, dispatch_log_append, dispatch_log_tx_iosm_message, hr] <;>
    simp [dispatch_log, is_dispatch_event]

theorem dispatch_log_iosm_handler (c : iosm_config)
    (e : Nat × (iosm_config → mem_link_device → iosm_msg → mem_link_device))
    (he : e ∈ iosm_handler c) (mld : mem_link_device) (msg : iosm_msg) :
    dispatch_log (e.2 c mld msg).trace = dispatch_log mld.trace := by
  simp only [iosm_handler, List.mem_cons, List.mem_singleton, List.not_mem_nil, or_false] at he
  rcases he with rfl | rfl | rfl | rfl | rfl | rfl | rfl | rfl
  · exact dispatch_log_mdm_ready_handler c mld msg
  · exact dispatch_log_conf_ch_rsp_handler c mld msg
  · exact dispatch_log_stop_tx_ch_handler c mld msg
  · exact dispatch_log_start_tx_ch_handler c mld msg
  · exact dispatch_log_ack_handler c mld msg
  · exact dispatch_log_nack_handler c mld msg
  · exact dispatch_log_init_start_handler c mld msg
  · exact dispatch_log_phone_start_handler c mld msg

theorem dispatch_log_iosm_dispatch (c : iosm_config) (mld : mem_link_device) (msg : iosm_msg) :
    dispatch_log (iosm_dispatch c mld msg).trace =
      dispatch_log mld.trace ++ [dispatch_event c msg] := by
  unfold iosm_dispatch dispatch_event
  split
  · next e he =>
    have hmem := List.mem_of_find?_eq_some he
    have hid : e.1 = msg.msg_id := by
      have := List.find?_some he
      simpa using this
    have hin : msg.msg_id ∈ iosm_handler_cmds c := by
      simp only [iosm_handler_cmds, List.mem_map]
      exact ⟨e, hmem, hid⟩
    rw [dispatch_log_iosm_handler c e hmem, if_pos hin, hid]
    show dispatch_log (mld.trace ++ [event.got_msg msg.msg_id]) = _
    rw [dispatch_log_append]
    rfl
  · next hnone =>
    have hnin : msg.msg_id ∉ iosm_handler_cmds c := by
      intro hin
      simp only [iosm_handler_cmds, List.mem_map] at hin
      obtain ⟨e, he, hid⟩ := hin
      rw [List.find?_eq_none] at hnone
      exact hnone e he (by simpa using hid)
    rw [if_neg hnin]
    show dispatch_log (mld.trace ++ [event.rx_not_supported msg.msg_id]) = _
    rw [dispatch_log_append]
    rfl

theorem dispatch_log_iosm_dispatch_all (c : iosm_config) (msgs : List iosm_msg) :
    ∀ mld : mem_link_device,
      dispatch_log (iosm_dispatch_all c msgs mld).trace =
        dispatch_log mld.trace ++ msgs.map (dispatch_event c) := by
  induction msgs with
  | nil => intro mld; simp [iosm_dispatch_all]
  | cons m ms ih =>
    intro mld
    have hfold : iosm_dispatch_all c (m :: ms) mld =
        iosm_dispatch_all c ms (rx_advance c (iosm_dispatch c mld m)) := rfl
    have hadv : (rx_advance c (iosm_dispatch c mld m)).trace = (iosm_dispatch c mld m).trace :=
      rfl
    rw [hfold, ih, hadv, dispatch_log_iosm_dispatch, List.map_cons, List.append_assoc]
    rfl

theorem iosm_dispatch_scan (c : iosm_config) (mld : mem_link_device) (msg : iosm_msg) :
    iosm_dispatch c mld msg =
      if c.IOSM_C2A_MDM_READY = msg.msg_id then
        mdm_ready_handler c (mld.emit [event.got_msg c.IOSM_C2A_MDM_READY]) msg
      else if c.IOSM_C2A_CONF_CH_RSP = msg.msg_id then
        conf_ch_rsp_handler c (mld.emit [event.got_msg c.IOSM_C2A_CONF_CH_RSP]) msg
      else if c.IOSM_C2A_STOP_TX_CH = msg.msg_id then
        stop_tx_ch_handler c (mld.emit [event.got_msg c.IOSM_C2A_STOP_TX_CH]) msg
      else if c.IOSM_C2A_START_TX_CH = msg.msg_id then
        start_tx_ch_handler c (mld.emit [event.got_msg c.IOSM_C2A_START_TX_CH]) msg
      else if c.IOSM_C2A_ACK = msg.msg_id then
        ack_handler c (mld.emit [event.got_msg c.IOSM_C2A_ACK]) msg
      else if c.IOSM_C2A_NACK = msg.msg_id then
        nack_handler c (mld.emit [event.got_msg c.IOSM_C2A_NACK]) msg
      else if c.IOSM_C2A_INIT_START = msg.msg_id then
        init_start_handler c (mld.emit [event.got_msg c.IOSM_C2A_INIT_START]) msg
      else if c.IOSM_C2A_PHONE_START = msg.msg_id then
        phone_start_handler c (mld.emit [event.got_msg c.IOSM_C2A_PHONE_START]) msg
      else mld.emit [event.rx_not_supported msg.msg_id] := by
  unfold iosm_dispatch iosm_handler
  split_ifs with h1 h2 h3 h4 h5 h6 h7 h8
  · rw [List.find?_cons_of_pos _ (by simpa using h1)]
  · rw [List.find?_cons_of_neg _ (by simpa using h1),
      List.find?_cons_of_pos _ (by simpa using h2)]
  · rw [List.find?_cons_of_neg _ (by simpa using h1),
      List.find?_cons_of_neg _ (by simpa using h2),
      List.find?_cons_of_pos _ (by simpa using h3)]
  · rw [List.find?_cons_of_neg _ (by simpa using h1),
      List.find?_cons_of_neg _ (by simpa using h2),
      List.find?_cons_of_neg _ (by simpa using h3),
      List.find?_cons_of_pos _ (by simpa using h4)]
  · rw [List.find?_cons_of_neg _ (by simpa using h1),
      List.find?_cons_of_neg _ (by simpa using h2),
      List.find?_cons_of_neg _ (by simpa using h3),
      List.find?_cons_of_neg _ (by simpa using h4),
      List.find?_cons_of_pos _ (by simpa using h5)]
  · rw [List.find?_cons_of_neg _ (by simpa using h1),
      List.find?_cons_of_neg _ (by simpa using h2),
      List.find?_cons_of_neg _ (by simpa using h3),
      List.find?_cons_of_neg _ (by simpa using h4),
      List.find?_cons_of_neg _ (by simpa using h5),
      List.find?_cons_of_pos _ (by simpa using h6)]
  · rw [List.find?_cons_of_neg _ (by simpa using h1),
      List.find?_cons_of_neg _ (by simpa using h2),
      List.find?_cons_of_neg _ (by simpa using h3),
      List.find?_cons_of_neg _ (by simpa using h4),
      List.find?_cons_of_neg _ (by simpa using h5),
      List.find?_cons_of_neg _ (by simpa using h6),
      List.find?_cons_of_pos _ (by simpa using h7)]
  · rw [List.find?_cons_of_neg _ (by simpa using h1),
      List.find?_cons_of_neg _ (by simpa using h2),
      List.find?_cons_of_neg _ (by simpa using h3),
      List.find?_cons_of_neg _ (by simpa using h4),
      List.find?_cons_of_neg _ (by simpa using h5),
      List.find?_cons_of_neg _ (by simpa using h6),
      List.find?_cons_of_neg _ (by simpa using h7),
      List.find?_cons_of_pos _ (by simpa using h8)]
  · rw [List.find?_cons_of_neg _ (by simpa using h1),
      List.find?_cons_of_neg _ (by simpa using h2),
      List.find?_cons_of_neg _ (by simpa using h3),
      List.find?_cons_of_neg _ (by simpa using h4),
      List.find?_cons_of_neg _ (by simpa using h5),
      List.find?_cons_of_neg _ (by simpa using h6),
      List.find?_cons_of_neg _ (by simpa using h7),
      List.find?_cons_of_neg _ (by simpa using h8), List.find?_nil]

/-! ## Claims on the receive dispatcher: count and order of the slots handled -/

/-- C11: for every RX state with both indices below the capacity,
`iosm_event_work` handles exactly `(w - r) mod N` slots, in ring order from the
old read index.  The table scan run on a slot is the source's: the first table
entry whose command is the slot's kind has its handler run on the message, and
a kind without entry is logged as not supported.  The lines the scan writes
during the pass are, in order, those of the slots at `r, r + 1, ...` modulo
`N`, one for each of the `(w - r) mod N` slots; when the indices differ the
result is that of dispatching these slots in this order, the read index
advancing by one modulo `N` after each dispatch whether or not a handler
matched.  The pass ends with the read index equal to the write index, the
write index and the slots being as before.  When the indices are equal on entry
the result is the state on entry, with only the diagnostic line added to the
trace. -/
theorem iosm_event_work_drains (c : iosm_config) (mld : mem_link_device)
    (hw : mld.rx.hdr.w_idx < c.IOSM_NUM_ELEMENTS)
    (hr : mld.rx.hdr.r_idx < c.IOSM_NUM_ELEMENTS) :
    (∀ (s : mem_link_device) (m : iosm_msg),
      iosm_dispatch c s m =
        if c.IOSM_C2A_MDM_READY = m.msg_id then
          mdm_ready_handler c (s.emit [event.got_msg c.IOSM_C2A_MDM_READY]) m
        else if c.IOSM_C2A_CONF_CH_RSP = m.msg_id then
          conf_ch_rsp_handler c (s.emit [event.got_msg c.IOSM_C2A_CONF_CH_RSP]) m
        else if c.IOSM_C2A_STOP_TX_CH = m.msg_id then
          stop_tx_ch_handler c (s.emit [event.got_msg c.IOSM_C2A_STOP_TX_CH]) m
        else if c.IOSM_C2A_START_TX_CH = m.msg_id then
          start_tx_ch_handler c (s.emit [event.got_msg c.IOSM_C2A_START_TX_CH]) m
        else if c.IOSM_C2A_ACK = m.msg_id then
          ack_handler c (s.emit [event.got_msg c.IOSM_C2A_ACK]) m
        else if c.IOSM_C2A_NACK = m.msg_id then
          nack_handler c (s.emit [event.got_msg c.IOSM_C2A_NACK]) m
        else if c.IOSM_C2A_INIT_START = m.msg_id then
          init_start_handler c (s.emit [event.got_msg c.IOSM_C2A_INIT_START]) m
        else if c.IOSM_C2A_PHONE_START = m.msg_id then
          phone_start_handler c (s.emit [event.got_msg c.IOSM_C2A_PHONE_START]) m
        else s.emit [event.rx_not_supported m.msg_id]) ∧
    dispatch_log (iosm_event_work c mld).trace =
      dispatch_log mld.trace ++
        (List.range
            (((mld.rx.hdr.w_idx : Int) - (mld.rx.hdr.r_idx : Int)) %
              (c.IOSM_NUM_ELEMENTS : Int)).toNat).map
          (fun i => dispatch_event c
            (mld.rx.elements ((mld.rx.hdr.r_idx + i) % c.IOSM_NUM_ELEMENTS))) ∧
    (mld.rx.hdr.w_idx ≠ mld.rx.hdr.r_idx →
      iosm_event_work c mld =
        iosm_dispatch_all c
          ((List.range
              (((mld.rx.hdr.w_idx : Int) - (mld.rx.hdr.r_idx : Int)) %
                (c.IOSM_NUM_ELEMENTS : Int)).toNat).map
            (fun i => mld.rx.elements ((mld.rx.hdr.r_idx + i) % c.IOSM_NUM_ELEMENTS)))
          mld) ∧
    (∀ (s : mem_link_device) (m : iosm_msg),
      (rx_advance c (iosm_dispatch c s m)).rx.hdr.r_idx =
        (s.rx.hdr.r_idx + 1) % c.IOSM_NUM_ELEMENTS) ∧
    (iosm_event_work c mld).rx.hdr.r_idx = mld.rx.hdr.w_idx ∧
    (iosm_event_work c mld).rx.hdr.w_idx = mld.rx.hdr.w_idx ∧
    (iosm_event_work c mld).rx.elements = mld.rx.elements ∧
    (mld.rx.hdr.w_idx = mld.rx.hdr.r_idx →
      iosm_event_work c mld = mld.emit [event.rx_area_empty]) := by
  have hempty : mld.rx.hdr.w_idx = mld.rx.hdr.r_idx →
      iosm_event_work c mld = mld.emit [event.rx_area_empty] := by
    intro h
    simp [iosm_event_work, circ_empty, h]
  have hloop : mld.rx.hdr.w_idx ≠ mld.rx.hdr.r_idx →
      iosm_event_work c mld =
        iosm_event_loop c
          (circ_get_usage c.IOSM_NUM_ELEMENTS mld.rx.hdr.w_idx mld.rx.hdr.r_idx) mld := by
    intro h
    simp [iosm_event_work, circ_empty, h]
  have hall : mld.rx.hdr.w_idx ≠ mld.rx.hdr.r_idx →
      iosm_event_work c mld =
        iosm_dispatch_all c
          ((List.range
              (circ_get_usage c.IOSM_NUM_ELEMENTS mld.rx.hdr.w_idx mld.rx.hdr.r_idx)).map
            (fun i => mld.rx.elements ((mld.rx.hdr.r_idx + i) % c.IOSM_NUM_ELEMENTS)))
          mld := by
    intro h
    rw [hloop h, iosm_event_loop_eq c _ mld hr]
  obtain ⟨l1, l2, l3⟩ := iosm_event_loop_r_idx c
    (circ_get_usage c.IOSM_NUM_ELEMENTS mld.rx.hdr.w_idx mld.rx.hdr.r_idx) mld hr
  rw [add_usage_mod _ _ _ hw hr] at l1
  refine ⟨iosm_dispatch_scan c, ?_, hall, ?_, ?_, ?_, ?_, hempty⟩
  · show dispatch_log (iosm_event_work c mld).trace =
      dispatch_log mld.trace ++
        (List.range
            (circ_get_usage c.IOSM_NUM_ELEMENTS mld.rx.hdr.w_idx mld.rx.hdr.r_idx)).map
          (fun i => dispatch_event c
            (mld.rx.elements ((mld.rx.hdr.r_idx + i) % c.IOSM_NUM_ELEMENTS)))
    by_cases h : mld.rx.hdr.w_idx = mld.rx.hdr.r_idx
    · rw [hempty h, h, circ_get_usage_of_le _ _ _ hr (le_refl _)]
      simp [mem_link_device.emit, dispatch_log, is_dispatch_event]
    · rw [hall h, dispatch_log_iosm_dispatch_all, List.map_map]
      rfl
  · intro s m
    simp [rx_advance, iosm_dispatch_rx, circ_new_ptr]
  · by_cases h : mld.rx.hdr.w_idx = mld.rx.hdr.r_idx
    · rw [hempty h]
      exact h.symm
    · rw [hloop h]
      exact l1
  · by_cases h : mld.rx.hdr.w_idx = mld.rx.hdr.r_idx
    · rw [hempty h]
      rfl
    · rw [hloop h]
      exact l2
  · by_cases h : mld.rx.hdr.w_idx = mld.rx.hdr.r_idx
    · rw [hempty h]
      rfl
    · rw [hloop h]
      exact l3

set_option maxRecDepth 8192 in
/-- C11, at a concrete input: the batch of `mld_rx_batch` (write index 3, read
index 0, capacity 8) holds InitStart (192), the unknown kind 255 and
ConfigChannelResponse (163).  Draining it writes the scan lines for 192, 255
and 163 in this order, runs the InitStart handler first (PinInitDone, kind 210,
in TX slot 0) and the response handler last (the Ack for kind 163 in TX slot
1), and ends with the read index at 3. -/
theorem iosm_event_work_drains_witness :
    (mld_rx_batch.rx.hdr.w_idx < (sample_config 8 16).IOSM_NUM_ELEMENTS ∧
      mld_rx_batch.rx.hdr.r_idx < (sample_config 8 16).IOSM_NUM_ELEMENTS) ∧
    dispatch_log (iosm_event_work (sample_config 8 16) mld_rx_batch).trace =
      [event.got_msg 192, event.rx_not_supported 255, event.got_msg 163] ∧
    ((iosm_event_work (sample_config 8 16) mld_rx_batch).tx.elements 0).msg_id = 210 ∧
    (iosm_event_work (sample_config 8 16) mld_rx_batch).tx.elements 1 =
      { iosm_msg.zero with msg_id := 224, trs_id := 9, ack_msg_id := 163, ack_ch_id := 2 } ∧
    (iosm_event_work (sample_config 8 16) mld_rx_batch).tx.hdr.w_idx = 2 ∧
    (iosm_event_work (sample_config 8 16) mld_rx_batch).rx.hdr.r_idx = 3 :=
  ⟨by decide, by decide, by decide, by decide, by decide,
    (iosm_event_work_drains (sample_config 8 16) mld_rx_batch (by decide)
      (by decide)).2.2.2.2.1⟩

end Iosm
